import Mathlib

/-! # HoudiniGLTF: a shallow embedding of the glTF codec

The development follows the sources under `src/GLTF` (data model, loader,
buffer resolution) and `src/ROP` (export root, GLB writer).

Conventions of the embedding

* `uint32` values (`GLTF_Int`, `GLTF_Offset`, `GLTF_Handle`) are natural numbers;
  where the source truncates to 32 bits the reduction `% 2 ^ 32` is written out.
* `UT_Array<T *>` is a `List`; indexing an array out of range has no defined
  result in the source and is the explicit outcome `Outcome.undefined`.
* `UT_String` is `String`; a null `UT_String` and the empty string are identified.
* `fpreal32` / `fpreal64` payloads are carried as rationals; no rounding is modelled.
* `UT_ASSERT` compiles to nothing in release builds and is modelled as a no-op.
* The host is little endian, so `UTtovax` is the identity.
* The HDK services the sources call (JSON text writer and parser, base64 decoder,
  the file system) are parameters of the functions that use them.
-/

namespace GLTF

/-! ## GLTF_Types.h -/

/-- The reserved handle `uint32(~0)`. -/
def GLTF_INVALID_IDX : Nat := 4294967295

/-- Index of the buffer embedded in a `.glb` file. -/
def GLB_BUFFER_IDX : Nat := 0

/-- The little endian reading of the bytes `glTF`. -/
def GLTF_GLB_MAGIC : Nat := 0x46546C67

/-- The chunk tag `JSON`. -/
def GLTF_GLB_JSON : Nat := 0x4E4F534A

/-- The chunk tag `BIN\0`. -/
def GLTF_GLB_BIN : Nat := 0x004E4942

/-- Truncation of an integer to `uint32`. -/
def toUInt32 (i : Int) : Nat := (i % 4294967296).toNat

inductive GLTF_RenderMode where
  | GLTF_RENDERMODE_POINTS
  | GLTF_RENDERMODE_LINES
  | GLTF_RENDERMODE_LINE_LOOP
  | GLTF_RENDERMODE_LINE_STRIP
  | GLTF_RENDERMODE_TRIANGLES
  | GLTF_RENDERMODE_TRIANGLE_STRIP
  | GLTF_RENDERMODE_TRIANGLE_FAN
  | GLTF_RENDERMODE_INVALID
  deriving DecidableEq, Repr

/-- The integer value of a render mode enumerator. -/
def GLTF_RenderMode.toNat : GLTF_RenderMode → Nat
  | .GLTF_RENDERMODE_POINTS => 0
  | .GLTF_RENDERMODE_LINES => 1
  | .GLTF_RENDERMODE_LINE_LOOP => 2
  | .GLTF_RENDERMODE_LINE_STRIP => 3
  | .GLTF_RENDERMODE_TRIANGLES => 4
  | .GLTF_RENDERMODE_TRIANGLE_STRIP => 5
  | .GLTF_RENDERMODE_TRIANGLE_FAN => 6
  | .GLTF_RENDERMODE_INVALID => 7

inductive GLTF_ComponentType where
  | GLTF_COMPONENT_INVALID
  | GLTF_COMPONENT_BYTE
  | GLTF_COMPONENT_UNSIGNED_BYTE
  | GLTF_COMPONENT_SHORT
  | GLTF_COMPONENT_UNSIGNED_SHORT
  | GLTF_COMPONENT_UNSIGNED_INT
  | GLTF_COMPONENT_FLOAT
  deriving DecidableEq, Repr

/-- The integer value of a component type enumerator. -/
def GLTF_ComponentType.toNat : GLTF_ComponentType → Nat
  | .GLTF_COMPONENT_INVALID => 0
  | .GLTF_COMPONENT_BYTE => 5120
  | .GLTF_COMPONENT_UNSIGNED_BYTE => 5121
  | .GLTF_COMPONENT_SHORT => 5122
  | .GLTF_COMPONENT_UNSIGNED_SHORT => 5123
  | .GLTF_COMPONENT_UNSIGNED_INT => 5125
  | .GLTF_COMPONENT_FLOAT => 5126

/-- Buffer view targets are stored by an unchecked `static_cast` from `uint32`,
so the field holds the underlying integer. -/
abbrev GLTF_BufferViewTarget := Nat

def GLTF_BUFFER_INVALID : GLTF_BufferViewTarget := 0
def GLTF_BUFFER_ARRAY : GLTF_BufferViewTarget := 34962
def GLTF_BUFFER_ELEMENT : GLTF_BufferViewTarget := 34963

/-- Texture filters are stored by an unchecked `static_cast` from `uint32`. -/
abbrev GLTF_TexFilter := Nat

/-- Texture wrap modes are stored by an unchecked `static_cast` from `uint32`. -/
abbrev GLTF_TexWrap := Nat

def GLTF_TEXFILTER_INVALID : GLTF_TexFilter := 0
def GLTF_TEXWRAP_INVALID : GLTF_TexWrap := 0

inductive GLTF_Type where
  | GLTF_TYPE_INVALID
  | GLTF_TYPE_SCALAR
  | GLTF_TYPE_VEC2
  | GLTF_TYPE_VEC3
  | GLTF_TYPE_VEC4
  | GLTF_TYPE_MAT2
  | GLTF_TYPE_MAT3
  | GLTF_TYPE_MAT4
  deriving DecidableEq, Repr

def GLTF_TYPE_NAME_SCALAR : String := "SCALAR"
def GLTF_TYPE_NAME_VEC2 : String := "VEC2"
def GLTF_TYPE_NAME_VEC3 : String := "VEC3"
def GLTF_TYPE_NAME_VEC4 : String := "VEC4"
def GLTF_TYPE_NAME_MAT2 : String := "MAT2"
def GLTF_TYPE_NAME_MAT3 : String := "MAT3"
def GLTF_TYPE_NAME_MAT4 : String := "MAT4"

/-- Floating point payloads, carried without rounding. -/
abbrev fpreal := Rat

structure GLTF_TextureInfo where
  index : Nat := GLTF_INVALID_IDX
  texCoord : Nat := 0
  deriving DecidableEq, Repr

structure GLTF_NormalTextureInfo extends GLTF_TextureInfo where
  scale : fpreal := 1
  deriving DecidableEq, Repr

structure GLTF_Accessor where
  bufferView : Nat := GLTF_INVALID_IDX
  byteOffset : Nat := 0
  componentType : GLTF_ComponentType := .GLTF_COMPONENT_INVALID
  normalized : Bool := false
  count : Nat := 0
  type : GLTF_Type := .GLTF_TYPE_INVALID
  max : List fpreal := []
  min : List fpreal := []
  name : String := ""
  deriving DecidableEq, Repr

structure GLTF_Asset where
  copyright : String := ""
  generator : String := ""
  version : String := ""
  minversion : String := ""
  deriving DecidableEq, Repr

structure GLTF_Buffer where
  myURI : String := ""
  myByteLength : Nat := 0
  name : String := ""
  deriving DecidableEq, Repr

structure GLTF_BufferView where
  buffer : Nat := 0
  byteOffset : Nat := 0
  byteLength : Nat := 0
  byteStride : Nat := 0
  target : GLTF_BufferViewTarget := GLTF_BUFFER_INVALID
  name : String := ""
  deriving DecidableEq, Repr

structure GLTF_PBRMetallicRoughness where
  baseColorFactor : List fpreal := [0, 0, 0, 1]
  baseColorTexture : Option GLTF_TextureInfo := none
  metallicFactor : fpreal := 1
  roughnessFactor : fpreal := 1
  metallicRoughnessTexture : Option GLTF_TextureInfo := none
  deriving DecidableEq, Repr

structure GLTF_Material where
  name : String := ""
  metallicRoughness : Option GLTF_PBRMetallicRoughness := none
  normalTexture : Option GLTF_NormalTextureInfo := none
  occlusionTexture : Option GLTF_TextureInfo := none
  emissiveTexture : Option GLTF_TextureInfo := none
  emissiveFactor : List fpreal := [0, 0, 0]
  alphaMode : String := ""
  alphaCutoff : fpreal := 0
  doubleSided : Bool := false
  deriving DecidableEq, Repr

/-- A primitive; `attributes` lists the entries of the `UT_StringMap<uint32>`. -/
structure GLTF_Primitive where
  attributes : List (String × Nat) := []
  indices : Nat := GLTF_INVALID_IDX
  material : Nat := GLTF_INVALID_IDX
  mode : GLTF_RenderMode := .GLTF_RENDERMODE_TRIANGLES
  deriving DecidableEq, Repr

structure GLTF_Mesh where
  primitives : List GLTF_Primitive := []
  name : String := ""
  deriving DecidableEq, Repr

structure GLTF_Sampler where
  magfilter : GLTF_TexFilter := 0
  minFilter : GLTF_TexFilter := 0
  wrapS : GLTF_TexWrap := 0
  wrapT : GLTF_TexWrap := 0
  name : String := ""
  deriving DecidableEq, Repr

structure GLTF_Image where
  uri : String := ""
  mimeType : String := ""
  bufferView : Nat := GLTF_INVALID_IDX
  name : String := ""
  deriving DecidableEq, Repr

/-- The row-major entries of `UT_Matrix4::getIdentityMatrix()`. -/
def identityMatrix : List fpreal := [1, 0, 0, 0, 0, 1, 0, 0, 0, 0, 1, 0, 0, 0, 0, 1]

structure GLTF_Node where
  camera : Nat := GLTF_INVALID_IDX
  children : List Nat := []
  skin : Nat := GLTF_INVALID_IDX
  matrix : List fpreal := identityMatrix
  mesh : Nat := GLTF_INVALID_IDX
  rotation : List fpreal := [0, 0, 0, 1]
  scale : List fpreal := [1, 1, 1]
  translation : List fpreal := [0, 0, 0]
  name : String := ""
  deriving DecidableEq, Repr

structure GLTF_Scene where
  nodes : List Nat := []
  name : String := ""
  deriving DecidableEq, Repr

structure GLTF_Texture where
  sampler : Nat := GLTF_INVALID_IDX
  source : Nat := GLTF_INVALID_IDX
  name : String := ""
  deriving DecidableEq, Repr

/-! ## GLTF_Util.C -/

namespace GLTF_Util

/-- The glTF token of an element type; `none` is the null pointer returned for
`GLTF_TYPE_INVALID`. -/
def typeGetName : GLTF_Type → Option String
  | .GLTF_TYPE_SCALAR => some "SCALAR"
  | .GLTF_TYPE_MAT2 => some "MAT2"
  | .GLTF_TYPE_MAT3 => some "MAT3"
  | .GLTF_TYPE_MAT4 => some "MAT4"
  | .GLTF_TYPE_VEC2 => some "VEC2"
  | .GLTF_TYPE_VEC3 => some "VEC3"
  | .GLTF_TYPE_VEC4 => some "VEC4"
  | .GLTF_TYPE_INVALID => none

def componentTypeGetBytes : GLTF_ComponentType → Nat
  | .GLTF_COMPONENT_BYTE => 1
  | .GLTF_COMPONENT_UNSIGNED_BYTE => 1
  | .GLTF_COMPONENT_UNSIGNED_SHORT => 2
  | .GLTF_COMPONENT_SHORT => 2
  | .GLTF_COMPONENT_UNSIGNED_INT => 4
  | .GLTF_COMPONENT_FLOAT => 4
  | .GLTF_COMPONENT_INVALID => 0

def typeGetElements : GLTF_Type → Nat
  | .GLTF_TYPE_SCALAR => 1
  | .GLTF_TYPE_VEC2 => 2
  | .GLTF_TYPE_VEC3 => 3
  | .GLTF_TYPE_VEC4 => 4
  | .GLTF_TYPE_MAT2 => 4
  | .GLTF_TYPE_MAT3 => 9
  | .GLTF_TYPE_MAT4 => 16
  | _ => 0

def getDefaultStride (type : GLTF_Type) (component_type : GLTF_ComponentType) : Nat :=
  componentTypeGetBytes component_type * typeGetElements type

def getStride (previous_stride : Nat) (type : GLTF_Type)
    (component_type : GLTF_ComponentType) : Nat :=
  if previous_stride != 0 then previous_stride
  else componentTypeGetBytes component_type * typeGetElements type

def getTypeForTupleSize (tuplesize : Nat) : GLTF_Type :=
  match tuplesize with
  | 1 => .GLTF_TYPE_SCALAR
  | 2 => .GLTF_TYPE_VEC2
  | 3 => .GLTF_TYPE_VEC3
  | 4 => .GLTF_TYPE_VEC4
  | _ => .GLTF_TYPE_INVALID

end GLTF_Util

/-! ## Outcomes of a call -/

/-- Result of running a source function: `failure` is the function returning
`false` (or a null handle), `success` is it returning `true` with its outputs,
and `undefined` is an execution for which the source defines no result
(an array indexed out of range, a null reference dereferenced). -/
inductive Outcome (α : Type) where
  | undefined : Outcome α
  | failure : Outcome α
  | success (a : α) : Outcome α
  deriving DecidableEq, Repr

namespace Outcome

def bind {α β : Type} (x : Outcome α) (f : α → Outcome β) : Outcome β :=
  match x with
  | undefined => undefined
  | failure => failure
  | success a => f a

instance : Monad Outcome where
  pure := success
  bind := bind

/-- A `bool`-returning helper: `none` is `false`. -/
def ofOption {α : Type} : Option α → Outcome α
  | none => failure
  | some a => success a

def isSuccess {α : Type} : Outcome α → Bool
  | success _ => true
  | _ => false

end Outcome

/-! ## UT_JSONValue (HDK), as far as the loader inspects it -/

inductive UT_JSONValue where
  | JSON_NULL
  | JSON_BOOL (b : Bool)
  | JSON_INT (i : Int)
  | JSON_REAL (r : fpreal)
  | JSON_STRING (s : String)
  | JSON_ARRAY (xs : List UT_JSONValue)
  | JSON_MAP (kvs : List (String × UT_JSONValue))

/-- The entries of a `UT_JSONValueMap`. -/
abbrev UT_JSONValueMap := List (String × UT_JSONValue)

/-- The lookup `map[key]`: the value, or `none` for the null pointer. -/
def getKey (m : UT_JSONValueMap) (key : String) : Option UT_JSONValue :=
  m.lookup key

/-- The result of `UT_JSONValue::getF`. -/
def UT_JSONValue.getF : UT_JSONValue → fpreal
  | .JSON_REAL r => r
  | .JSON_INT i => (i : Rat)
  | _ => 0

/-! ## GLTF_Loader.C: parsing convenience functions -/

def ParseAsString (val : Option UT_JSONValue) (required : Bool) (uri : String) :
    Option String :=
  match val with
  | none => if required then none else some uri
  | some (.JSON_STRING s) => some s
  | some _ => none

def ParseAsFloat (val : Option UT_JSONValue) (required : Bool) (f : fpreal) :
    Option fpreal :=
  match val with
  | none => if required then none else some f
  | some (.JSON_REAL r) => some r
  | some _ => none

def ParseAsInteger (val : Option UT_JSONValue) (required : Bool) (i : Nat) :
    Option Nat :=
  match val with
  | none => if required then none else some i
  | some (.JSON_INT v) => some (toUInt32 v)
  | some _ => none

def ParseAsBool (val : Option UT_JSONValue) (required : Bool) (b : Bool) :
    Option Bool :=
  match val with
  | none => if required then none else some b
  | some (.JSON_BOOL v) => some v
  | some _ => none

/-- The element loop shared by `ParseAsFloatVec` and `ParseAsFloatMat`. -/
def parseFloats : List UT_JSONValue → Option (List fpreal)
  | [] => some []
  | .JSON_REAL r :: rest => (parseFloats rest).map (fun t => r :: t)
  | .JSON_INT i :: rest => (parseFloats rest).map (fun t => (i : Rat) :: t)
  | _ :: _ => none

def ParseAsFloatVec (length : Nat) (val : Option UT_JSONValue) (required : Bool)
    (v : List fpreal) : Option (List fpreal) :=
  match val with
  | none => if required then none else some v
  | some (.JSON_ARRAY valarray) =>
    if valarray.length != length then none else parseFloats valarray
  | some _ => none

def ParseAsFloatMat (length : Nat) (val : Option UT_JSONValue) (required : Bool)
    (v : List fpreal) : Option (List fpreal) :=
  match val with
  | none => if required then none else some v
  | some (.JSON_ARRAY valarray) =>
    if valarray.length != length * length then none else parseFloats valarray
  | some _ => none

/-- The cast `static_cast<GLTF_ComponentType>(v)` at the enumerators. -/
def GLTF_ComponentType.staticCast (v : Nat) : GLTF_ComponentType :=
  if v = 5120 then .GLTF_COMPONENT_BYTE
  else if v = 5121 then .GLTF_COMPONENT_UNSIGNED_BYTE
  else if v = 5122 then .GLTF_COMPONENT_SHORT
  else if v = 5123 then .GLTF_COMPONENT_UNSIGNED_SHORT
  else if v = 5125 then .GLTF_COMPONENT_UNSIGNED_INT
  else if v = 5126 then .GLTF_COMPONENT_FLOAT
  else .GLTF_COMPONENT_INVALID

def ConvertToComponentType (component_type : Nat) : GLTF_ComponentType :=
  if component_type ≥ GLTF_ComponentType.GLTF_COMPONENT_BYTE.toNat ∧
      component_type ≤ GLTF_ComponentType.GLTF_COMPONENT_FLOAT.toNat ∧
      component_type ≠ 5124 then
    GLTF_ComponentType.staticCast component_type
  else .GLTF_COMPONENT_INVALID

def ConvertStringTogltf_type (str : String) : GLTF_Type :=
  if str = GLTF_TYPE_NAME_SCALAR then .GLTF_TYPE_SCALAR
  else if str = GLTF_TYPE_NAME_VEC2 then .GLTF_TYPE_VEC2
  else if str = GLTF_TYPE_NAME_VEC3 then .GLTF_TYPE_VEC3
  else if str = GLTF_TYPE_NAME_VEC4 then .GLTF_TYPE_VEC4
  else if str = GLTF_TYPE_NAME_MAT2 then .GLTF_TYPE_MAT2
  else if str = GLTF_TYPE_NAME_MAT3 then .GLTF_TYPE_MAT3
  else if str = GLTF_TYPE_NAME_MAT4 then .GLTF_TYPE_MAT4
  else .GLTF_TYPE_INVALID

def ConvertToRenderMode (rendermode : Nat) : GLTF_RenderMode :=
  match rendermode with
  | 0 => .GLTF_RENDERMODE_POINTS
  | 1 => .GLTF_RENDERMODE_LINES
  | 2 => .GLTF_RENDERMODE_LINE_LOOP
  | 3 => .GLTF_RENDERMODE_LINE_STRIP
  | 4 => .GLTF_RENDERMODE_TRIANGLES
  | 5 => .GLTF_RENDERMODE_TRIANGLE_STRIP
  | 6 => .GLTF_RENDERMODE_TRIANGLE_FAN
  | _ => .GLTF_RENDERMODE_INVALID

/-! ## GLTF_Loader: the document -/

/-- The members of `GLTF_Loader`.  A slot of `myBufferCache` is `none` for the
null pointer and `some bytes` for a block holding `bytes`.  The animation,
camera and skin arrays are never written by the loader or the exporter and
are left out. -/
structure GLTF_Loader where
  myFilename : String := ""
  myBasePath : String := ""
  myIsLoaded : Bool := false
  myAccesors : List GLTF_Accessor := []
  myAsset : GLTF_Asset := {}
  myBuffers : List GLTF_Buffer := []
  myBufferViews : List GLTF_BufferView := []
  myImages : List GLTF_Image := []
  myMaterials : List GLTF_Material := []
  myMeshes : List GLTF_Mesh := []
  myNodes : List GLTF_Node := []
  mySamplers : List GLTF_Sampler := []
  myScene : Nat := GLTF_INVALID_IDX
  myScenes : List GLTF_Scene := []
  myTextures : List GLTF_Texture := []
  myBufferCache : List (Option (List Nat)) := []
  deriving DecidableEq, Repr

/-! ## HDK services -/

/-- The library services the sources call.  `jsonWrite` is the text a
`UT_JSONWriter` emits for a value, `jsonParse` is `UT_JSONValue::parseValue`
on a text, `base64Decode` is `UT_Base64::decode`, `openFile` gives the bytes of
the file at a path (`none` when it cannot be opened) and
`makeAbsoluteFilePath path base` is `UTmakeAbsoluteFilePath`. -/
structure HDK where
  jsonWrite : UT_JSONValue → List Nat
  jsonParse : List Nat → Option UT_JSONValue
  base64Decode : String → Option (List Nat)
  openFile : String → Option (List Nat)
  makeAbsoluteFilePath : String → String → String

/-- The suffix of `l` that starts at the last occurrence of `c`. -/
def lastFrom (c : Char) : List Char → Option (List Char)
  | [] => none
  | x :: xs =>
    match lastFrom c xs with
    | some r => some r
    | none => if x = c then some (x :: xs) else none

/-- The result of `UT_String::fileExtension`: the text from the last dot of
the file name on, empty when there is none. -/
def fileExtension (path : String) : List Char :=
  match lastFrom '.' path.data with
  | some ext => if '/' ∈ ext then [] else ext
  | none => []

/-- The file name part `UT_String::splitPath` yields. -/
def fileNamePart (path : String) : String :=
  match lastFrom '/' path.data with
  | some r => String.mk (r.drop 1)
  | none => path

/-- The directory part `UT_String::splitPath` yields. -/
def dirPart (path : String) : String :=
  match lastFrom '/' path.data with
  | some r => String.mk (path.data.take (path.data.length - r.length))
  | none => ""

/-- The call `is.bread(dst, n)`: the bytes read and the rest of the stream. -/
def bread (is : List Nat) (n : Nat) : List Nat × List Nat := (is.take n, is.drop n)

/-- The `uint32` held by the first four bytes of `b`, little endian. -/
def readLE32 (b : List Nat) : Nat :=
  b.getD 0 0 % 256 + 256 * (b.getD 1 0 % 256) + 65536 * (b.getD 2 0 % 256) +
    16777216 * (b.getD 3 0 % 256)

/-- The four bytes of a `uint32`, little endian. -/
def writeLE32 (n : Nat) : List Nat :=
  [n % 256, n / 256 % 256, n / 65536 % 256, n / 16777216 % 256]

/-- The call `UT_Array::setSize` on an array of pointers: truncation, or
extension by null entries. -/
def setSize {α : Type} (arr : List (Option α)) (n : Nat) : List (Option α) :=
  arr.take n ++ List.replicate (n - arr.length) none

/-- The data URI prefix `LoadBuffer` looks for. -/
def base64Header : String := "data:application/octet-stream;base64,"

/-- What `LoadBuffer` hands back on success: the bytes of the block, and
whether this call took the decoding path (`true`) or returned at the
cache test at the top (`false`). -/
structure BufferHit where
  data : List Nat
  decoded : Bool
  deriving DecidableEq, Repr

/-- What `LoadAccessorData` hands back on success: the pointer
`buffer_data + bv.byteOffset + accessor.byteOffset`, as block and offset, and
whether the call decoded the buffer. -/
structure AccessorData where
  block : List Nat
  offset : Nat
  decoded : Bool
  deriving DecidableEq, Repr

namespace GLTF_Loader

/-! ## GLTF_Loader.C: reading the JSON document -/

/-- Returns the flag of `ReadAsset` and the asset as the call leaves it. -/
def ReadAsset (asset_json : UT_JSONValueMap) (asset : GLTF_Asset) : Bool × GLTF_Asset :=
  match ParseAsString (getKey asset_json "copyright") false asset.copyright with
  | none => (false, asset)
  | some c =>
    let asset1 := { asset with copyright := c }
    match ParseAsString (getKey asset_json "generator") false asset1.minversion with
    | none => (false, asset1)
    | some g =>
      let asset2 := { asset1 with minversion := g }
      match ParseAsString (getKey asset_json "version") false asset2.version with
      | none => (false, asset2)
      | some v =>
        let asset3 := { asset2 with version := v }
        match ParseAsString (getKey asset_json "minversion") false asset3.minversion with
        | none => (false, asset3)
        | some m => (true, { asset3 with minversion := m })

/-- The loop of `ReadNode` over `children` and of `ReadScene` over `nodes`:
the flag of `ParseAsInteger` is dropped, so an element that is not an integer
appends the uninitialised local `val`, whose content is `junk`. -/
def readIndices (junk : Nat) (arr : List UT_JSONValue) : List Nat :=
  arr.map (fun e =>
    match ParseAsInteger (some e) true junk with
    | some val => val
    | none => junk)

def ReadNode (junk : Nat) (s : GLTF_Loader) (node_json : UT_JSONValueMap) (_idx : Nat) :
    Outcome GLTF_Loader := do
  let node : GLTF_Node := {}
  let children ← (match getKey node_json "children" with
    | none => Outcome.success node.children
    | some (.JSON_ARRAY children_array) =>
      Outcome.success (node.children ++ readIndices junk children_array)
    | some _ => Outcome.failure)
  let mesh ← Outcome.ofOption (ParseAsInteger (getKey node_json "mesh") false node.mesh)
  let matrix ← Outcome.ofOption (ParseAsFloatMat 4 (getKey node_json "matrix") false node.matrix)
  let rotation ← Outcome.ofOption
    (ParseAsFloatVec 4 (getKey node_json "rotation") false node.rotation)
  let scale ← Outcome.ofOption (ParseAsFloatVec 3 (getKey node_json "scale") false node.scale)
  let translation ← Outcome.ofOption
    (ParseAsFloatVec 3 (getKey node_json "translation") false node.translation)
  let name ← Outcome.ofOption (ParseAsString (getKey node_json "name") false node.name)
  pure { s with myNodes := s.myNodes ++ [{ node with
    children := children, mesh := mesh, matrix := matrix, rotation := rotation,
    scale := scale, translation := translation, name := name }] }

def ReadBuffer (s : GLTF_Loader) (buffer_json : UT_JSONValueMap) (_idx : Nat) :
    Outcome GLTF_Loader := do
  let buffer : GLTF_Buffer := {}
  let uri ← Outcome.ofOption (ParseAsString (getKey buffer_json "uri") false buffer.myURI)
  let byteLength ← Outcome.ofOption
    (ParseAsInteger (getKey buffer_json "byteLength") true buffer.myByteLength)
  let name ← Outcome.ofOption (ParseAsString (getKey buffer_json "name") false buffer.name)
  pure { s with myBuffers := s.myBuffers ++
    [{ myURI := uri, myByteLength := byteLength, name := name }] }

def ReadBufferView (s : GLTF_Loader) (bufferview_json : UT_JSONValueMap) (_idx : Nat) :
    Outcome GLTF_Loader := do
  let bufferview : GLTF_BufferView := {}
  let target0 : Nat := 0
  let buffer ← Outcome.ofOption
    (ParseAsInteger (getKey bufferview_json "buffer") true bufferview.buffer)
  let byteOffset ← Outcome.ofOption
    (ParseAsInteger (getKey bufferview_json "byteOffset") false bufferview.byteOffset)
  let byteLength ← Outcome.ofOption
    (ParseAsInteger (getKey bufferview_json "byteLength") true bufferview.byteLength)
  let byteStride ← Outcome.ofOption
    (ParseAsInteger (getKey bufferview_json "byteStride") false bufferview.byteStride)
  let target1 ← Outcome.ofOption (ParseAsInteger (getKey bufferview_json "target") false target0)
  let name ← Outcome.ofOption (ParseAsString (getKey bufferview_json "name") false bufferview.name)
  let target := if target1 = 0 then GLTF_BUFFER_ARRAY else target1
  if buffer ≥ s.myBuffers.length then Outcome.failure
  else pure { s with myBufferViews := s.myBufferViews ++
    [{ buffer := buffer, byteOffset := byteOffset, byteLength := byteLength,
       byteStride := byteStride, target := target, name := name }] }

def ReadAccessor (s : GLTF_Loader) (accessor_json : UT_JSONValueMap) (_idx : Nat) :
    Outcome GLTF_Loader := do
  let accessor : GLTF_Accessor := {}
  let bufferView ← Outcome.ofOption
    (ParseAsInteger (getKey accessor_json "bufferView") false accessor.bufferView)
  let byteOffset ← Outcome.ofOption
    (ParseAsInteger (getKey accessor_json "byteOffset") false accessor.byteOffset)
  let componentType ← Outcome.ofOption
    (ParseAsInteger (getKey accessor_json "componentType") true 0)
  let normalized ← Outcome.ofOption
    (ParseAsBool (getKey accessor_json "normalized") false accessor.normalized)
  let count ← Outcome.ofOption (ParseAsInteger (getKey accessor_json "count") true accessor.count)
  let type ← Outcome.ofOption (ParseAsString (getKey accessor_json "type") true "")
  let name ← Outcome.ofOption (ParseAsString (getKey accessor_json "name") false accessor.name)
  let gltf_type := ConvertStringTogltf_type type
  let ct := ConvertToComponentType componentType
  if ct = GLTF_ComponentType.GLTF_COMPONENT_INVALID then Outcome.failure
  else pure { s with myAccesors := s.myAccesors ++ [{ accessor with
    bufferView := bufferView, byteOffset := byteOffset, componentType := ct,
    normalized := normalized, count := count, type := gltf_type, name := name }] }

/-- The call `attributes_map.insert` on a `UT_StringMap`: an existing key keeps its value. -/
def stringMapInsert (m : List (String × Nat)) (key : String) (v : Nat) : List (String × Nat) :=
  if (m.lookup key).isSome then m else m ++ [(key, v)]

/-- The loop of `ReadPrimitive` over the keys of the `attributes` object. -/
def readAttributes (attributes_json_map : UT_JSONValueMap) :
    List String → List (String × Nat) → Option (List (String × Nat))
  | [], attributes_map => some attributes_map
  | key :: keys, attributes_map =>
    match ParseAsInteger (getKey attributes_json_map key) true 0 with
    | none => none
    | some ind => readAttributes attributes_json_map keys (stringMapInsert attributes_map key ind)

def ReadPrimitive (primitive_json : UT_JSONValue) (primitive : GLTF_Primitive) :
    Outcome GLTF_Primitive :=
  match primitive_json with
  | .JSON_MAP prim_json =>
    match getKey prim_json "attributes" with
    | none => Outcome.failure
    | some (.JSON_MAP attributes_json_map) => do
      let attributes_map ← Outcome.ofOption
        (readAttributes attributes_json_map (attributes_json_map.map Prod.fst) [])
      let indices ← Outcome.ofOption
        (ParseAsInteger (getKey prim_json "indices") false primitive.indices)
      let material ← Outcome.ofOption
        (ParseAsInteger (getKey prim_json "material") false primitive.material)
      let prim_mode ← (match getKey prim_json "mode" with
        | none => Outcome.success GLTF_RenderMode.GLTF_RENDERMODE_TRIANGLES.toNat
        | some v => Outcome.ofOption
            (ParseAsInteger (some v) false GLTF_RenderMode.GLTF_RENDERMODE_TRIANGLES.toNat))
      let mode := ConvertToRenderMode prim_mode
      if mode = GLTF_RenderMode.GLTF_RENDERMODE_INVALID then Outcome.failure
      else pure { attributes := attributes_map, indices := indices, material := material,
                  mode := mode }
    | some _ => Outcome.undefined
  | _ => Outcome.failure

/-- The loop of `ReadMesh` over the `primitives` array. -/
def readPrimitives : List UT_JSONValue → Outcome (List GLTF_Primitive)
  | [] => Outcome.success []
  | p :: rest =>
    match ReadPrimitive p {} with
    | Outcome.success prim =>
      (match readPrimitives rest with
       | Outcome.success prims => Outcome.success (prim :: prims)
       | Outcome.failure => Outcome.failure
       | Outcome.undefined => Outcome.undefined)
    | Outcome.failure => Outcome.failure
    | Outcome.undefined => Outcome.undefined

def ReadMesh (s : GLTF_Loader) (mesh_json : UT_JSONValueMap) (_idx : Nat) :
    Outcome GLTF_Loader :=
  match getKey mesh_json "primitives" with
  | some (.JSON_ARRAY primitives_array) => do
    let primitives ← readPrimitives primitives_array
    let name ← Outcome.ofOption (ParseAsString (getKey mesh_json "name") false "")
    pure { s with myMeshes := s.myMeshes ++ [{ primitives := primitives, name := name }] }
  | _ => Outcome.failure

def ReadTexture (s : GLTF_Loader) (texture_json : UT_JSONValueMap) (_idx : Nat) :
    Outcome GLTF_Loader := do
  let texture : GLTF_Texture := {}
  let sampler ← Outcome.ofOption
    (ParseAsInteger (getKey texture_json "sampler") false texture.sampler)
  let source ← Outcome.ofOption (ParseAsInteger (getKey texture_json "source") false texture.source)
  let name ← Outcome.ofOption (ParseAsString (getKey texture_json "name") false texture.name)
  pure { s with myTextures := s.myTextures ++
    [{ sampler := sampler, source := source, name := name }] }

def ReadSampler (s : GLTF_Loader) (sampler_json : UT_JSONValueMap) (_idx : Nat) :
    Outcome GLTF_Loader := do
  let sampler : GLTF_Sampler := {}
  let magFilter ← (match getKey sampler_json "magFilter" with
    | none => Outcome.success GLTF_TEXFILTER_INVALID
    | some v => Outcome.ofOption (ParseAsInteger (some v) true GLTF_TEXFILTER_INVALID))
  let _minFilter ← (match getKey sampler_json "minFilter" with
    | none => Outcome.success GLTF_TEXFILTER_INVALID
    | some v => Outcome.ofOption (ParseAsInteger (some v) true GLTF_TEXFILTER_INVALID))
  let _wrapS ← (match getKey sampler_json "wrapS" with
    | none => Outcome.success GLTF_TEXWRAP_INVALID
    | some v => Outcome.ofOption (ParseAsInteger (some v) true GLTF_TEXWRAP_INVALID))
  let _wrapT ← (match getKey sampler_json "wrapS" with
    | none => Outcome.success GLTF_TEXWRAP_INVALID
    | some _ => Outcome.ofOption
        (ParseAsInteger (getKey sampler_json "wrapT") true GLTF_TEXWRAP_INVALID))
  pure { s with mySamplers := s.mySamplers ++ [{ sampler with
    magfilter := magFilter, minFilter := magFilter, wrapS := magFilter, wrapT := magFilter }] }

def ReadImage (s : GLTF_Loader) (image_json : UT_JSONValueMap) (_idx : Nat) :
    Outcome GLTF_Loader := do
  let image : GLTF_Image := {}
  let uri ← Outcome.ofOption (ParseAsString (getKey image_json "uri") false image.uri)
  let mimeType ← Outcome.ofOption
    (ParseAsString (getKey image_json "mimeType") false image.mimeType)
  let bufferView ← Outcome.ofOption
    (ParseAsInteger (getKey image_json "bufferView") false image.bufferView)
  let name ← Outcome.ofOption (ParseAsString (getKey image_json "name") false image.name)
  pure { s with myImages := s.myImages ++
    [{ uri := uri, mimeType := mimeType, bufferView := bufferView, name := name }] }

def ReadMaterial (s : GLTF_Loader) (material_json : UT_JSONValueMap) (idx : Nat) :
    Outcome GLTF_Loader := do
  let material : GLTF_Material := {}
  let name ← (match getKey material_json "name" with
    | none => Outcome.success ("principledshader" ++ toString (idx + 1))
    | some v => Outcome.ofOption (ParseAsString (some v) false material.name))
  pure { s with myMaterials := s.myMaterials ++ [{ material with name := name }] }

def ReadScene (junk : Nat) (s : GLTF_Loader) (scene_json : UT_JSONValueMap) (_idx : Nat) :
    Outcome GLTF_Loader := do
  let scene : GLTF_Scene := {}
  let nodes ← (match getKey scene_json "nodes" with
    | none => Outcome.success scene.nodes
    | some (.JSON_ARRAY nodes_array) => Outcome.success (scene.nodes ++ readIndices junk nodes_array)
    | some _ => Outcome.failure)
  let name ← Outcome.ofOption (ParseAsString (getKey scene_json "name") false scene.name)
  pure { s with myScenes := s.myScenes ++ [{ nodes := nodes, name := name }] }

/-- The element loop of `ReadArrayOfMaps`, from position `i` on. -/
def readMaps (func : GLTF_Loader → UT_JSONValueMap → Nat → Outcome GLTF_Loader) :
    List UT_JSONValue → Nat → GLTF_Loader → Outcome GLTF_Loader
  | [], _, s => Outcome.success s
  | .JSON_MAP m :: rest, i, s =>
    match func s m i with
    | Outcome.success s1 => readMaps func rest (i + 1) s1
    | Outcome.failure => Outcome.failure
    | Outcome.undefined => Outcome.undefined
  | _ :: _, _, _ => Outcome.failure

def ReadArrayOfMaps (arr : Option UT_JSONValue) (required : Bool)
    (func : GLTF_Loader → UT_JSONValueMap → Nat → Outcome GLTF_Loader) (s : GLTF_Loader) :
    Outcome GLTF_Loader :=
  if required && arr.isNone then Outcome.failure
  else
    match arr with
    | none => Outcome.success s
    | some (.JSON_ARRAY elem_json) => readMaps func elem_json 0 s
    | some _ => Outcome.failure

def ReadJSON (junk : Nat) (root_json : UT_JSONValueMap) (s : GLTF_Loader) :
    Outcome GLTF_Loader :=
  match getKey root_json "asset" with
  | some (.JSON_MAP asset_json) => do
    let s0 := { s with myAsset := (ReadAsset asset_json s.myAsset).2 }
    let s1 ← ReadArrayOfMaps (getKey root_json "accessors") false ReadAccessor s0
    let s2 ← ReadArrayOfMaps (getKey root_json "buffers") false ReadBuffer s1
    let s3 ← ReadArrayOfMaps (getKey root_json "bufferViews") false ReadBufferView s2
    let s4 ← ReadArrayOfMaps (getKey root_json "meshes") false ReadMesh s3
    let s5 ← ReadArrayOfMaps (getKey root_json "nodes") false (ReadNode junk) s4
    let s6 ← ReadArrayOfMaps (getKey root_json "textures") false ReadTexture s5
    let s7 ← ReadArrayOfMaps (getKey root_json "samplers") false ReadSampler s6
    let s8 ← ReadArrayOfMaps (getKey root_json "images") false ReadImage s7
    let s9 ← ReadArrayOfMaps (getKey root_json "scenes") false (ReadScene junk) s8
    let s10 ← ReadArrayOfMaps (getKey root_json "materials") false ReadMaterial s9
    let scene ← Outcome.ofOption (ParseAsInteger (getKey root_json "scene") false s10.myScene)
    pure { s10 with myScene := scene }
  | _ => Outcome.failure

def ReadGLTF (hdk : HDK) (junk : Nat) (s : GLTF_Loader) : Outcome GLTF_Loader :=
  match hdk.openFile s.myFilename with
  | none => Outcome.failure
  | some is =>
    match hdk.jsonParse is with
    | some (.JSON_MAP keymap) => ReadJSON junk keymap s
    | _ => Outcome.failure

def ReadGLB (hdk : HDK) (junk : Nat) (s : GLTF_Loader) : Outcome GLTF_Loader :=
  match hdk.openFile s.myFilename with
  | none => Outcome.failure
  | some is =>
    let header := bread is 12
    if header.1.length != 12 then Outcome.failure
    else
      let json_header := bread header.2 8
      if json_header.1.length != 8 then Outcome.failure
      else
        let json_size := readLE32 json_header.1
        let json_data := bread json_header.2 json_size
        if json_data.1.length != json_size then Outcome.failure
        else
          let bin_header := bread json_data.2 8
          if bin_header.1.length != 8 then Outcome.failure
          else
            let bin_size := readLE32 bin_header.1
            let bin_data := bread bin_header.2 bin_size
            if bin_data.1.length != bin_size then Outcome.failure
            else
              match hdk.jsonParse json_data.1 with
              | some (.JSON_MAP keymap) =>
                match ReadJSON junk keymap s with
                | Outcome.success s1 =>
                  Outcome.success { s1 with
                    myBufferCache := s1.myBufferCache ++ [some bin_data.1] }
                | Outcome.failure => Outcome.failure
                | Outcome.undefined => Outcome.undefined
              | _ => Outcome.failure

def Load (hdk : HDK) (junk : Nat) (s : GLTF_Loader) : Outcome GLTF_Loader :=
  let extension := (fileExtension s.myFilename).map Char.toLower
  let read :=
    if extension = ".gltf".data then ReadGLTF hdk junk s
    else if extension = ".glb".data then ReadGLB hdk junk s
    else Outcome.failure
  match read with
  | Outcome.success s1 =>
    Outcome.success { s1 with
      myBufferCache := setSize s1.myBufferCache s1.myBuffers.length ++
        List.replicate s1.myBuffers.length none
      myIsLoaded := true }
  | Outcome.failure => Outcome.failure
  | Outcome.undefined => Outcome.undefined

/-- The loader as the constructor `GLTF_Loader(filename)` leaves it. -/
def create (filename : String) : GLTF_Loader :=
  { myFilename := filename, myBasePath := dirPart filename, myIsLoaded := false }

/-- The result of the call and the loader afterwards (the cache is `mutable`). -/
def LoadBuffer (hdk : HDK) (s : GLTF_Loader) (idx : Nat) : Outcome BufferHit × GLTF_Loader :=
  match s.myBufferCache[idx]? with
  | none => (Outcome.undefined, s)
  | some (some cached) => (Outcome.success { data := cached, decoded := false }, s)
  | some none =>
    match s.myBuffers[idx]? with
    | none => (Outcome.undefined, s)
    | some buffer =>
      let buffer_size := buffer.myByteLength
      if base64Header.data.isPrefixOf buffer.myURI.data then
        let b64str := String.mk (buffer.myURI.data.drop base64Header.length)
        match hdk.base64Decode b64str with
        | some dst =>
          if dst.length != buffer_size then (Outcome.failure, s)
          else
            (Outcome.success { data := dst, decoded := true },
             { s with myBufferCache := s.myBufferCache.set idx (some dst) })
        | none => (Outcome.failure, s)
      else
        let absolute_path := hdk.makeAbsoluteFilePath buffer.myURI s.myBasePath
        match hdk.openFile absolute_path with
        | none => (Outcome.failure, s)
        | some is =>
          let data := (bread is buffer_size).1
          if data.length != buffer_size then (Outcome.failure, s)
          else
            (Outcome.success { data := data, decoded := true },
             { s with myBufferCache := s.myBufferCache.set idx (some data) })

def LoadAccessorData (hdk : HDK) (s : GLTF_Loader) (accessor : GLTF_Accessor) :
    Outcome AccessorData × GLTF_Loader :=
  match s.myBufferViews[accessor.bufferView]? with
  | none => (Outcome.undefined, s)
  | some bv =>
    match LoadBuffer hdk s bv.buffer with
    | (Outcome.success hit, s1) =>
      (Outcome.success { block := hit.data, offset := bv.byteOffset + accessor.byteOffset,
                         decoded := hit.decoded }, s1)
    | (Outcome.failure, s1) => (Outcome.failure, s1)
    | (Outcome.undefined, s1) => (Outcome.undefined, s1)

def getNumAccessors (s : GLTF_Loader) : Nat := s.myAccesors.length
def getNumBuffers (s : GLTF_Loader) : Nat := s.myBuffers.length
def getNumBufferViews (s : GLTF_Loader) : Nat := s.myBufferViews.length
def getNumMeshes (s : GLTF_Loader) : Nat := s.myMeshes.length

/-- The getter `getAccessor`; `failure` is the null pointer. -/
def getAccessor (s : GLTF_Loader) (idx : Nat) : Outcome GLTF_Accessor :=
  if s.getNumAccessors < idx then Outcome.failure
  else
    match s.myAccesors[idx]? with
    | some a => Outcome.success a
    | none => Outcome.undefined

/-- The getter `getBuffer`; `failure` is the null pointer. -/
def getBuffer (s : GLTF_Loader) (idx : Nat) : Outcome GLTF_Buffer :=
  if idx ≥ s.getNumBuffers then Outcome.failure
  else
    match s.myBuffers[idx]? with
    | some a => Outcome.success a
    | none => Outcome.undefined

/-- The getter `getBufferView`; `failure` is the null pointer. -/
def getBufferView (s : GLTF_Loader) (idx : Nat) : Outcome GLTF_BufferView :=
  if idx ≥ s.getNumBufferViews then Outcome.failure
  else
    match s.myBufferViews[idx]? with
    | some a => Outcome.success a
    | none => Outcome.undefined

/-- The getter `getMesh`; `failure` is the null pointer. -/
def getMesh (s : GLTF_Loader) (idx : Nat) : Outcome GLTF_Mesh :=
  if idx ≥ s.getNumMeshes then Outcome.failure
  else
    match s.myMeshes[idx]? with
    | some a => Outcome.success a
    | none => Outcome.undefined

end GLTF_Loader

/-! ## ROP_GLTF_ExportRoot.C -/

def GENERATOR_STRING : String := "Houdini GLTF 2.0 Exporter"
def GLTF_VERSION : String := "2.0"

/-- The entries one `Output` call adds to the open JSON map, for an integer. -/
def OutputInt (string : String) (value : Nat) : UT_JSONValueMap :=
  [(string, .JSON_INT (value : Int))]

def OutputReal (string : String) (value : fpreal) : UT_JSONValueMap :=
  [(string, .JSON_REAL value)]

def OutputBool (string : String) (value : Bool) : UT_JSONValueMap :=
  [(string, .JSON_BOOL value)]

/-- The overload for `const char *`; `none` is the null pointer. -/
def OutputString (string : String) (value : Option String) : UT_JSONValueMap :=
  match value with
  | some v => [(string, .JSON_STRING v)]
  | none => [(string, .JSON_STRING "")]

def OutputVector3 (string : String) (value : List fpreal) : UT_JSONValueMap :=
  [(string, .JSON_ARRAY ((List.range 3).map (fun i => .JSON_REAL (value.getD i 0))))]

def OutputDefaultString (string : String) (value : String) : UT_JSONValueMap :=
  if value = "" then [] else [(string, .JSON_STRING value)]

def OutputDefaultVector3 (string : String) (value : List fpreal)
    (default_value : List fpreal) : UT_JSONValueMap :=
  if value = default_value then [] else OutputVector3 string value

def OutputDefaultInt (string : String) (value : Nat) (default_value : Nat) :
    UT_JSONValueMap :=
  if value = default_value then [] else OutputInt string value

def OutputDefaultBool (string : String) (value : Bool) (default_value : Bool) :
    UT_JSONValueMap :=
  if value = default_value then [] else OutputBool string value

def OutputDefaultReal (string : String) (value : fpreal) (default_value : fpreal) :
    UT_JSONValueMap :=
  if value = default_value then [] else OutputReal string value

structure ExportSettings where
  exportNames : Bool := false
  deriving DecidableEq, Repr

/-- The members of `ROP_GLTF_ExportRoot` the serializer uses: the staged bytes
of every buffer, the document and the settings. -/
structure ROP_GLTF_ExportRoot where
  myBufferData : List (List Nat) := []
  myLoader : GLTF_Loader := {}
  mySettings : ExportSettings := {}
  deriving DecidableEq, Repr

namespace ROP_GLTF_ExportRoot

/-- The member `OutputName`; its key is always `name`. -/
def OutputName (root : ROP_GLTF_ExportRoot) (_string : String) (value : String) :
    UT_JSONValueMap :=
  if root.mySettings.exportNames then OutputDefaultString "name" value else []

/-- Growth of the staged bytes of buffer `bid` by `bytes` fresh bytes (the tail
of `BufferAlloc`): the offset of the fresh range and the root afterwards. -/
def bufferGrow (root : ROP_GLTF_ExportRoot) (bid : Nat) (bytes : Nat) :
    Outcome (Nat × ROP_GLTF_ExportRoot) :=
  match root.myBufferData[bid]? with
  | none => Outcome.undefined
  | some staged =>
    let old_size := staged.length % 4294967296
    Outcome.success (old_size,
      { root with myBufferData :=
          root.myBufferData.set bid (staged ++ List.replicate bytes 0) })

/-- The member `BufferAlloc`: the offset handed back and the root afterwards.
The recursive call that pads to the alignment runs with alignment 1 and so
goes straight to its tail. -/
def BufferAlloc (root : ROP_GLTF_ExportRoot) (bid : Nat) (bytes : Nat) (alignment : Nat) :
    Outcome (Nat × ROP_GLTF_ExportRoot) :=
  match root.myBufferData[bid]? with
  | none => Outcome.undefined
  | some staged =>
    if alignment = 0 then Outcome.undefined
    else
      let current_offset := staged.length % 4294967296
      let alignment_amount := current_offset % alignment
      if alignment_amount != 0 then
        match bufferGrow root bid (alignment - alignment_amount) with
        | Outcome.success (_, root1) => bufferGrow root1 bid bytes
        | Outcome.failure => Outcome.failure
        | Outcome.undefined => Outcome.undefined
      else bufferGrow root bid bytes

def CreateBuffer (root : ROP_GLTF_ExportRoot) : Nat × ROP_GLTF_ExportRoot :=
  (root.myLoader.myBuffers.length,
   { root with
      myBufferData := root.myBufferData ++ [[]]
      myLoader := { root.myLoader with myBuffers := root.myLoader.myBuffers ++ [{}] } })

def CreateNode (root : ROP_GLTF_ExportRoot) : Nat × ROP_GLTF_ExportRoot :=
  (root.myLoader.myNodes.length,
   { root with myLoader := { root.myLoader with myNodes := root.myLoader.myNodes ++ [{}] } })

def CreateMesh (root : ROP_GLTF_ExportRoot) : Nat × ROP_GLTF_ExportRoot :=
  (root.myLoader.myMeshes.length,
   { root with myLoader := { root.myLoader with myMeshes := root.myLoader.myMeshes ++ [{}] } })

def CreateScene (root : ROP_GLTF_ExportRoot) : Nat × ROP_GLTF_ExportRoot :=
  (root.myLoader.myScenes.length,
   { root with myLoader := { root.myLoader with myScenes := root.myLoader.myScenes ++ [{}] } })

def CreateImage (root : ROP_GLTF_ExportRoot) : Nat × ROP_GLTF_ExportRoot :=
  (root.myLoader.myImages.length,
   { root with myLoader := { root.myLoader with myImages := root.myLoader.myImages ++ [{}] } })

def CreateTexture (root : ROP_GLTF_ExportRoot) : Nat × ROP_GLTF_ExportRoot :=
  (root.myLoader.myTextures.length,
   { root with myLoader :=
      { root.myLoader with myTextures := root.myLoader.myTextures ++ [{}] } })

def CreateMaterial (root : ROP_GLTF_ExportRoot) : Nat × ROP_GLTF_ExportRoot :=
  (root.myLoader.myMaterials.length,
   { root with myLoader :=
      { root.myLoader with myMaterials := root.myLoader.myMaterials ++ [{}] } })

def CreateBufferview (root : ROP_GLTF_ExportRoot) : Nat × ROP_GLTF_ExportRoot :=
  (root.myLoader.myBufferViews.length,
   { root with myLoader :=
      { root.myLoader with myBufferViews := root.myLoader.myBufferViews ++ [{}] } })

def CreateAccessor (root : ROP_GLTF_ExportRoot) : Nat × ROP_GLTF_ExportRoot :=
  (root.myLoader.myAccesors.length,
   { root with myLoader :=
      { root.myLoader with myAccesors := root.myLoader.myAccesors ++ [{}] } })

def SerializeAsset (_root : ROP_GLTF_ExportRoot) : UT_JSONValueMap :=
  [("asset", .JSON_MAP (OutputString "version" (some GLTF_VERSION) ++
      OutputString "generator" (some GENERATOR_STRING)))]

/-- The `min` / `max` array of an accessor: reals for a float accessor,
integers (the value cut towards zero) otherwise. -/
def serializeBounds (componentType : GLTF_ComponentType) (vals : List fpreal) :
    UT_JSONValue :=
  .JSON_ARRAY (vals.map (fun val =>
    if componentType = GLTF_ComponentType.GLTF_COMPONENT_FLOAT then .JSON_REAL val
    else .JSON_INT (Int.tdiv val.num val.den)))

def serializeAccessor (accessor : GLTF_Accessor) : UT_JSONValue :=
  .JSON_MAP (
    OutputDefaultInt "bufferView" accessor.bufferView GLTF_INVALID_IDX ++
    OutputDefaultInt "byteOffset" accessor.byteOffset 0 ++
    OutputInt "componentType" accessor.componentType.toNat ++
    OutputDefaultBool "normalized" accessor.normalized false ++
    OutputInt "count" accessor.count ++
    OutputString "type" (GLTF_Util.typeGetName accessor.type) ++
    (if accessor.min.length > 0 then
      [("min", serializeBounds accessor.componentType accessor.min)] else []) ++
    (if accessor.max.length > 0 then
      [("max", serializeBounds accessor.componentType accessor.max)] else []))

def SerializeAccessors (root : ROP_GLTF_ExportRoot) : UT_JSONValueMap :=
  if root.myLoader.getNumAccessors = 0 then []
  else [("accessors", .JSON_ARRAY (root.myLoader.myAccesors.map serializeAccessor))]

def serializeBuffer (root : ROP_GLTF_ExportRoot) (buffer : GLTF_Buffer) : UT_JSONValue :=
  .JSON_MAP (
    OutputDefaultString "uri" buffer.myURI ++
    OutputInt "byteLength" buffer.myByteLength ++
    root.OutputName "name" buffer.name)

def SerializeBuffers (root : ROP_GLTF_ExportRoot) : UT_JSONValueMap :=
  if root.myLoader.getNumBuffers = 0 then []
  else [("buffers", .JSON_ARRAY (root.myLoader.myBuffers.map root.serializeBuffer))]

def serializeBufferView (root : ROP_GLTF_ExportRoot) (bufferView : GLTF_BufferView) :
    UT_JSONValue :=
  .JSON_MAP (
    OutputInt "buffer" bufferView.buffer ++
    OutputDefaultInt "byteOffset" bufferView.byteOffset 0 ++
    OutputInt "byteLength" bufferView.byteLength ++
    OutputDefaultInt "byteStride" bufferView.byteStride 0 ++
    OutputDefaultInt "target" bufferView.target GLTF_BUFFER_INVALID ++
    root.OutputName "name" bufferView.name)

def SerializeBufferViews (root : ROP_GLTF_ExportRoot) : UT_JSONValueMap :=
  if root.myLoader.getNumBuffers = 0 then []
  else [("bufferViews",
    .JSON_ARRAY (root.myLoader.myBufferViews.map root.serializeBufferView))]

def serializeNode (root : ROP_GLTF_ExportRoot) (node : GLTF_Node) : UT_JSONValue :=
  .JSON_MAP (
    (if node.children.length > 0 then
      [("children", .JSON_ARRAY (node.children.map (fun child => .JSON_INT (child : Int))))]
     else []) ++
    (if node.matrix ≠ identityMatrix then
      [("matrix", .JSON_ARRAY ((List.range 16).map
        (fun i => .JSON_REAL (node.matrix.getD i 0))))]
     else []) ++
    root.OutputName "name" node.name ++
    OutputDefaultInt "mesh" node.mesh GLTF_INVALID_IDX)

def SerializeNodes (root : ROP_GLTF_ExportRoot) : UT_JSONValueMap :=
  if root.myLoader.myNodes.length = 0 then []
  else [("nodes", .JSON_ARRAY (root.myLoader.myNodes.map root.serializeNode))]

def serializePrimitive (primitive : GLTF_Primitive) : UT_JSONValue :=
  .JSON_MAP (
    [("attributes", .JSON_MAP (primitive.attributes.map
      (fun attrib => (attrib.1, .JSON_INT (attrib.2 : Int)))))] ++
    OutputDefaultInt "indices" primitive.indices GLTF_INVALID_IDX ++
    OutputDefaultInt "material" primitive.material GLTF_INVALID_IDX ++
    OutputDefaultInt "mode" primitive.mode.toNat
      GLTF_RenderMode.GLTF_RENDERMODE_TRIANGLES.toNat)

def SerializePrimitives (primitives : List GLTF_Primitive) : UT_JSONValue :=
  .JSON_ARRAY (primitives.map serializePrimitive)

def serializeMesh (root : ROP_GLTF_ExportRoot) (mesh : GLTF_Mesh) : UT_JSONValue :=
  .JSON_MAP (
    [("primitives", SerializePrimitives mesh.primitives)] ++
    root.OutputName "name" mesh.name)

def SerializeMeshes (root : ROP_GLTF_ExportRoot) : UT_JSONValueMap :=
  if root.myLoader.getNumMeshes = 0 then []
  else [("meshes", .JSON_ARRAY (root.myLoader.myMeshes.map root.serializeMesh))]

def serializeTextureInfo (info : GLTF_TextureInfo) : UT_JSONValue :=
  .JSON_MAP (OutputInt "index" info.index ++ OutputDefaultInt "texCoord" info.texCoord 0)

def serializeMaterial (root : ROP_GLTF_ExportRoot) (material : GLTF_Material) :
    UT_JSONValue :=
  .JSON_MAP (
    root.OutputName "name" material.name ++
    (match material.metallicRoughness with
     | some metallic_roughness =>
       [("pbrMetallicRoughness", .JSON_MAP (
          (if metallic_roughness.baseColorFactor ≠ [1, 1, 1, 1] then
            [("baseColorFactor", .JSON_ARRAY ((List.range 4).map
              (fun idx => .JSON_REAL (metallic_roughness.baseColorFactor.getD idx 0))))]
           else []) ++
          OutputDefaultReal "metallicFactor" metallic_roughness.metallicFactor 1 ++
          OutputDefaultReal "roughnessFactor" metallic_roughness.roughnessFactor 1 ++
          (match metallic_roughness.baseColorTexture with
           | some base_color_texture =>
             [("baseColorTexture", serializeTextureInfo base_color_texture)]
           | none => []) ++
          (match metallic_roughness.metallicRoughnessTexture with
           | some mr_tex => [("metallicRoughnessTexture", serializeTextureInfo mr_tex)]
           | none => [])))]
     | none => []) ++
    (match material.normalTexture with
     | some normal_tex =>
       [("normalTexture", .JSON_MAP (
          OutputDefaultInt "index" normal_tex.index GLTF_INVALID_IDX ++
          OutputDefaultReal "scale" normal_tex.scale 1 ++
          OutputDefaultInt "texCoord" normal_tex.texCoord 0))]
     | none => []) ++
    (match material.emissiveTexture with
     | some emissive_tex =>
       [("emissiveTexture", .JSON_MAP (
          OutputDefaultInt "index" emissive_tex.index GLTF_INVALID_IDX ++
          OutputDefaultInt "texCoord" emissive_tex.texCoord 0))]
     | none => []) ++
    (OutputDefaultString "alphaMode" material.alphaMode ++
     (if material.alphaMode = "MASK" then
        OutputDefaultReal "alphaCutoff" material.alphaCutoff 0
      else [])) ++
    OutputDefaultVector3 "emissiveFactor" material.emissiveFactor [0, 0, 0])

def SerializeMaterials (root : ROP_GLTF_ExportRoot) : UT_JSONValueMap :=
  if root.myLoader.myMaterials.length = 0 then []
  else [("materials", .JSON_ARRAY (root.myLoader.myMaterials.map root.serializeMaterial))]

def serializeTexture (root : ROP_GLTF_ExportRoot) (texture : GLTF_Texture) : UT_JSONValue :=
  .JSON_MAP (
    OutputDefaultInt "sampler" texture.sampler GLTF_INVALID_IDX ++
    OutputDefaultInt "source" texture.source GLTF_INVALID_IDX ++
    root.OutputName "name" texture.name)

def SerializeTextures (root : ROP_GLTF_ExportRoot) : UT_JSONValueMap :=
  if root.myLoader.myTextures.length = 0 then []
  else [("textures", .JSON_ARRAY (root.myLoader.myTextures.map root.serializeTexture))]

def serializeImage (root : ROP_GLTF_ExportRoot) (image : GLTF_Image) : UT_JSONValue :=
  .JSON_MAP (
    OutputDefaultString "uri" image.uri ++
    OutputDefaultString "mimeType" image.mimeType ++
    OutputDefaultInt "bufferView" image.bufferView GLTF_INVALID_IDX ++
    root.OutputName "name" image.name)

def SerializeImages (root : ROP_GLTF_ExportRoot) : UT_JSONValueMap :=
  if root.myLoader.myImages.length = 0 then []
  else [("images", .JSON_ARRAY (root.myLoader.myImages.map root.serializeImage))]

def serializeScene (root : ROP_GLTF_ExportRoot) (scene : GLTF_Scene) : UT_JSONValue :=
  .JSON_MAP (
    (if scene.nodes.length > 0 then
      [("nodes", .JSON_ARRAY (scene.nodes.map (fun node => .JSON_INT (node : Int))))]
     else []) ++
    root.OutputName "name" scene.name)

def SerializeScenes (root : ROP_GLTF_ExportRoot) : UT_JSONValueMap :=
  if root.myLoader.myScenes.length = 0 then []
  else [("scenes", .JSON_ARRAY (root.myLoader.myScenes.map root.serializeScene))]

/-- The value the writer is driven through by `SerializeJSON`. -/
def SerializeJSON (root : ROP_GLTF_ExportRoot) : UT_JSONValue :=
  .JSON_MAP (
    root.SerializeAsset ++
    root.SerializeAccessors ++
    root.SerializeBuffers ++
    root.SerializeBufferViews ++
    root.SerializeNodes ++
    root.SerializeMeshes ++
    root.SerializeMaterials ++
    root.SerializeScenes ++
    root.SerializeTextures ++
    root.SerializeImages ++
    OutputDefaultInt "scene" root.myLoader.myScene GLTF_INVALID_IDX)

/-- The loop of `ResolveBufferLengths` from index `idx` on: `none` when
`getBuffer(idx)` is null, which the source dereferences. -/
def resolveLengths : List (List Nat) → List GLTF_Buffer → Option (List GLTF_Buffer)
  | [], buffers => some buffers
  | _ :: _, [] => none
  | staged :: datas, buffer :: buffers =>
    (resolveLengths datas buffers).map
      (fun rest => { buffer with myByteLength := staged.length % 4294967296 } :: rest)

def ResolveBufferLengths (root : ROP_GLTF_ExportRoot) : Outcome ROP_GLTF_ExportRoot :=
  match resolveLengths root.myBufferData root.myLoader.myBuffers with
  | some buffers =>
    Outcome.success { root with myLoader := { root.myLoader with myBuffers := buffers } }
  | none => Outcome.undefined

/-- The member `ConvertAbsolutePaths`, as far as it changes the document: every
image keeps the file name part of its URI. -/
def ConvertAbsolutePaths (root : ROP_GLTF_ExportRoot) (_base_path : String) :
    ROP_GLTF_ExportRoot :=
  { root with myLoader := { root.myLoader with
      myImages := root.myLoader.myImages.map
        (fun image => { image with uri := fileNamePart image.uri }) } }

/-- The bytes `OutputGLBBuffer` writes: the staged bytes of buffer 0. -/
def OutputGLBBuffer (root : ROP_GLTF_ExportRoot) : Outcome (List Nat) :=
  match root.myBufferData[0]? with
  | some buffer_data => Outcome.success buffer_data
  | none => Outcome.undefined

/-- The padding loop `while (os.tellp() % 4 != 0) os.put(c)`. -/
def padTo4 (os : List Nat) (c : Nat) : List Nat :=
  os ++ List.replicate ((4 - os.length % 4) % 4) c

/-- The calls `os.seekp(pos); os.write(bytes)` on a stream holding `os`. -/
def patch (os : List Nat) (pos : Nat) (bytes : List Nat) : List Nat :=
  os.take pos ++ List.replicate (pos - os.length) 0 ++ bytes ++ os.drop (pos + bytes.length)

/-- The twelve bytes of the GLB header as first written. -/
def glbHeader : List Nat := [103, 108, 84, 70, 2, 0, 0, 0, 0, 0, 0, 0]

/-- The JSON chunk header as first written. -/
def glbJsonHeader : List Nat := [0, 0, 0, 0, 74, 83, 79, 78]

/-- The BIN chunk header as first written. -/
def glbDataHeader : List Nat := [0, 0, 0, 0, 66, 73, 78, 0]

/-- What `ExportAsGLB` computes and writes once the output stream is open: the
three lengths it patches in, the bytes of the file, and the export root as the
pre-passes leave it. -/
structure GLBExport where
  json_chunk_size : Nat
  data_chunk_size : Nat
  total_size : Nat
  file : List Nat
  root : ROP_GLTF_ExportRoot

/-- The stream operations of `ExportAsGLB` from the header on, where `json` is
the text the writer emits for `SerializeJSON` and `buffer_data` the bytes
`OutputGLBBuffer` writes.  Every `uint32` local is reduced modulo `2 ^ 32`. -/
def writeGLB (json : List Nat) (buffer_data : List Nat) (root : ROP_GLTF_ExportRoot) :
    GLBExport :=
  let os1 := glbHeader
  let os2 := os1 ++ glbJsonHeader
  let json_chunk_start := os2.length % 4294967296
  let os3 := os2 ++ json
  let os4 := padTo4 os3 32
  let json_chunk_size := (os4.length % 4294967296 + 4294967296 - json_chunk_start) % 4294967296
  let os5 := os4 ++ glbDataHeader
  let data_chunk_start := os5.length % 4294967296
  let os6 := os5 ++ buffer_data
  let os7 := padTo4 os6 0
  let data_chunk_size :=
    (os7.length % 4294967296 + 4294967296 - data_chunk_start) % 4294967296
  let total_size := os7.length % 4294967296
  let os8 := patch os7 8 (writeLE32 total_size)
  let os9 := patch os8 (12 + 0) (writeLE32 json_chunk_size)
  let os10 := patch os9 ((12 + 8 + json_chunk_size + 0) % 4294967296)
    (writeLE32 data_chunk_size)
  { json_chunk_size := json_chunk_size, data_chunk_size := data_chunk_size,
    total_size := total_size, file := os10, root := root }

/-- The member `ExportAsGLB` once the output stream is open.  The files written
by `OutputBuffer` for the buffers of index 1 and up are separate files and are
not part of the result. -/
def ExportAsGLB (hdk : HDK) (root : ROP_GLTF_ExportRoot) (path : String) :
    Outcome GLBExport :=
  match root.ResolveBufferLengths with
  | Outcome.success root1 =>
    let root2 := root1.ConvertAbsolutePaths (dirPart path)
    match root2.OutputGLBBuffer with
    | Outcome.success buffer_data =>
      Outcome.success (writeGLB (hdk.jsonWrite root2.SerializeJSON) buffer_data root2)
    | Outcome.failure => Outcome.failure
    | Outcome.undefined => Outcome.undefined
  | Outcome.failure => Outcome.failure
  | Outcome.undefined => Outcome.undefined

end ROP_GLTF_ExportRoot

/-! ## Reference instances of the HDK services

Concrete stand-ins used to run the embedding on explicit inputs. -/

/-- The decimal text of a real, cut after six fractional digits. -/
def realText (r : fpreal) : List Nat :=
  ((if r < 0 then "-" else "") ++ toString (r.num.natAbs / r.den) ++ "." ++
    toString (r.num.natAbs * 1000000 / r.den % 1000000)).data.map Char.toNat

/-- The text of a JSON string: quotes around the characters, with a backslash
before a quote or a backslash. -/
def stringText (str : String) : List Nat :=
  [34] ++ (str.data.map (fun c =>
      if c.toNat = 34 ∨ c.toNat = 92 then [92, c.toNat] else [c.toNat])).flatten ++ [34]

mutual
/-- Compact JSON text of a value. -/
def jsonText : UT_JSONValue → List Nat
  | .JSON_NULL => [110, 117, 108, 108]
  | .JSON_BOOL true => [116, 114, 117, 101]
  | .JSON_BOOL false => [102, 97, 108, 115, 101]
  | .JSON_INT i => (toString i).data.map Char.toNat
  | .JSON_REAL r => realText r
  | .JSON_STRING str => stringText str
  | .JSON_ARRAY xs => [91] ++ jsonTextArray xs ++ [93]
  | .JSON_MAP kvs => [123] ++ jsonTextMap kvs ++ [125]
/-- The elements of an array, separated by commas. -/
def jsonTextArray : List UT_JSONValue → List Nat
  | [] => []
  | [x] => jsonText x
  | x :: y :: rest => jsonText x ++ [44] ++ jsonTextArray (y :: rest)
/-- The members of an object, separated by commas. -/
def jsonTextMap : List (String × UT_JSONValue) → List Nat
  | [] => []
  | [(k, v)] => stringText k ++ [58] ++ jsonText v
  | (k, v) :: y :: rest => stringText k ++ [58] ++ jsonText v ++ [44] ++ jsonTextMap (y :: rest)
end

/-- A JSON reader that knows the text of one document, with or without the
blanks that pad it to a multiple of four bytes. -/
def parseKnown (doc : UT_JSONValue) (text : List Nat) : Option UT_JSONValue :=
  if text = jsonText doc ∨ text = ROP_GLTF_ExportRoot.padTo4 (jsonText doc) 32 then some doc
  else none

/-- The value of a base64 digit. -/
def base64Digit (c : Char) : Option Nat :=
  if 65 ≤ c.toNat ∧ c.toNat ≤ 90 then some (c.toNat - 65)
  else if 97 ≤ c.toNat ∧ c.toNat ≤ 122 then some (c.toNat - 71)
  else if 48 ≤ c.toNat ∧ c.toNat ≤ 57 then some (c.toNat + 4)
  else if c.toNat = 43 then some 62
  else if c.toNat = 47 then some 63
  else none

/-- RFC 4648 decoding of padded base64 text, four digits at a time. -/
def base64Chars : List Char → Option (List Nat)
  | [] => some []
  | a :: b :: c :: d :: rest =>
    match base64Digit a, base64Digit b with
    | some x, some y =>
      if c = '=' ∧ d = '=' ∧ rest = [] then some [x * 4 + y / 16]
      else
        match base64Digit c with
        | some z =>
          if d = '=' ∧ rest = [] then some [x * 4 + y / 16, y % 16 * 16 + z / 4]
          else
            match base64Digit d, base64Chars rest with
            | some w, some tail =>
              some ([x * 4 + y / 16, y % 16 * 16 + z / 4, z % 4 * 64 + w] ++ tail)
            | _, _ => none
        | none => none
    | _, _ => none
  | _ => none

/-- Reference stand-in for `UT_Base64::decode`. -/
def base64Reference (text : String) : Option (List Nat) := base64Chars text.data

/-- Reference services: compact JSON text, a reader that knows the text of
`doc`, RFC 4648 base64, the files listed in `files`, and paths joined to the
base directory by a slash. -/
def referenceHDK (doc : UT_JSONValue) (files : List (String × List Nat)) : HDK where
  jsonWrite := jsonText
  jsonParse := parseKnown doc
  base64Decode := base64Reference
  openFile := fun path => files.lookup path
  makeAbsoluteFilePath := fun path base => base ++ "/" ++ path

/-! ## Explicit inputs -/

/-- The document `asset: {}`. -/
def assetOnlyDoc : UT_JSONValue := .JSON_MAP [("asset", .JSON_MAP [])]

/-- A 40 byte `.glb` stream whose header declares a total length of 100:
the header, a JSON chunk of 12 bytes holding the text of `assetOnlyDoc`, and
an empty BIN chunk. -/
def glbDeclaring100 : List Nat :=
  [103, 108, 84, 70, 2, 0, 0, 0, 100, 0, 0, 0] ++
  [12, 0, 0, 0, 74, 83, 79, 78] ++
  [123, 34, 97, 115, 115, 101, 116, 34, 58, 123, 125, 125] ++
  [0, 0, 0, 0, 66, 73, 78, 0]

/-- A 40 byte stream with twelve zero bytes where the header should be,
followed by the same two chunks as `glbDeclaring100`. -/
def glbWithoutMagic : List Nat :=
  [0, 0, 0, 0, 0, 0, 0, 0, 0, 0, 0, 0] ++
  [12, 0, 0, 0, 74, 83, 79, 78] ++
  [123, 34, 97, 115, 115, 101, 116, 34, 58, 123, 125, 125] ++
  [0, 0, 0, 0, 66, 73, 78, 0]

/-- A 40 byte stream whose JSON chunk declares 100 bytes. -/
def glbTruncated : List Nat :=
  [103, 108, 84, 70, 2, 0, 0, 0, 128, 0, 0, 0] ++
  [100, 0, 0, 0, 74, 83, 79, 78] ++
  [123, 34, 97, 115, 115, 101, 116, 34, 58, 123, 125, 125] ++
  [0, 0, 0, 0, 66, 73, 78, 0]

/-- Runs `LoadAccessorData` on the accessors in turn: the results of the calls
and the loader after the last one. -/
def loadAll (hdk : HDK) : GLTF_Loader → List GLTF_Accessor →
    List (Outcome AccessorData) × GLTF_Loader
  | s, [] => ([], s)
  | s, accessor :: rest =>
    ((GLTF_Loader.LoadAccessorData hdk s accessor).1 ::
        (loadAll hdk (GLTF_Loader.LoadAccessorData hdk s accessor).2 rest).1,
      (loadAll hdk (GLTF_Loader.LoadAccessorData hdk s accessor).2 rest).2)

/-- Whether a call of `LoadAccessorData` decoded a buffer. -/
def didDecode : Outcome AccessorData → Bool
  | Outcome.success d => d.decoded
  | _ => false

/-- The number of calls in a run that decoded a buffer. -/
def decodeCount (results : List (Outcome AccessorData)) : Nat :=
  (results.filter didDecode).length

/-- A document with one buffer, one buffer view on it and three accessors:
two on the buffer view (the first with `count` elements of type VEC3 / FLOAT)
and one without a `bufferView` key. -/
def bufferDoc (uri : String) (byteLength : Nat) (count : Nat) : UT_JSONValue :=
  .JSON_MAP [
    ("asset", .JSON_MAP [("version", .JSON_STRING "2.0")]),
    ("accessors", .JSON_ARRAY [
      .JSON_MAP [("bufferView", .JSON_INT 0), ("componentType", .JSON_INT 5126),
                 ("count", .JSON_INT count), ("type", .JSON_STRING "VEC3")],
      .JSON_MAP [("bufferView", .JSON_INT 0), ("byteOffset", .JSON_INT 4),
                 ("componentType", .JSON_INT 5123),
                 ("count", .JSON_INT 2), ("type", .JSON_STRING "SCALAR")],
      .JSON_MAP [("componentType", .JSON_INT 5126),
                 ("count", .JSON_INT 3), ("type", .JSON_STRING "VEC3")]]),
    ("buffers", .JSON_ARRAY [
      .JSON_MAP [("uri", .JSON_STRING uri), ("byteLength", .JSON_INT byteLength)]]),
    ("bufferViews", .JSON_ARRAY [
      .JSON_MAP [("buffer", .JSON_INT 0), ("byteLength", .JSON_INT byteLength)]])]

/-- The bytes of a `.glb` file holding the text of `doc` and a BIN chunk `bin`. -/
def glbFile (doc : UT_JSONValue) (bin : List Nat) : List Nat :=
  [103, 108, 84, 70, 2, 0, 0, 0] ++
  writeLE32 (28 + (ROP_GLTF_ExportRoot.padTo4 (jsonText doc) 32).length + bin.length) ++
  writeLE32 (ROP_GLTF_ExportRoot.padTo4 (jsonText doc) 32).length ++ [74, 83, 79, 78] ++
  ROP_GLTF_ExportRoot.padTo4 (jsonText doc) 32 ++
  writeLE32 bin.length ++ [66, 73, 78, 0] ++ bin

/-- A `.gltf` document whose buffer is twelve zero bytes in base64, with a first
accessor of 1000 VEC3 / FLOAT elements. -/
def oversizedDoc : UT_JSONValue :=
  bufferDoc "data:application/octet-stream;base64,AAAAAAAAAAAAAAAA" 12 1000

/-- Services for the file `scene.gltf` holding `oversizedDoc`. -/
def oversizedHDK : HDK :=
  referenceHDK oversizedDoc [("scene.gltf", jsonText oversizedDoc)]

/-- A document whose buffer declares 10 bytes and carries the payload `AAAA`. -/
def mismatchDoc : UT_JSONValue :=
  bufferDoc "data:application/octet-stream;base64,AAAA" 10 1

/-- Services for the file `scene.gltf` holding `mismatchDoc`. -/
def mismatchHDK : HDK :=
  referenceHDK mismatchDoc [("scene.gltf", jsonText mismatchDoc)]

/-- Services for the file `scene.glb` holding `mismatchDoc` and a BIN chunk of
ten bytes. -/
def mismatchGlbHDK : HDK :=
  referenceHDK mismatchDoc
    [("scene.glb", glbFile mismatchDoc [1, 2, 3, 4, 5, 6, 7, 8, 9, 10])]

/-- A document whose buffer has no URI: the buffer of a `.glb` file. -/
def embeddedDoc : UT_JSONValue := bufferDoc "" 12 1

/-- Services for the file `scene.glb` holding `embeddedDoc` and a BIN chunk of
twelve bytes. -/
def embeddedGlbHDK : HDK :=
  referenceHDK embeddedDoc
    [("scene.glb", glbFile embeddedDoc [1, 2, 3, 4, 5, 6, 7, 8, 9, 10, 11, 12])]

/-- The loader `Load` gives for `scene.gltf` of `mismatchHDK`. -/
def mismatchLoaded : GLTF_Loader :=
  { myFilename := "scene.gltf", myBasePath := "", myIsLoaded := true,
    myAccesors := [
      { bufferView := 0, componentType := .GLTF_COMPONENT_FLOAT, count := 1,
        type := .GLTF_TYPE_VEC3 },
      { bufferView := 0, byteOffset := 4,
        componentType := .GLTF_COMPONENT_UNSIGNED_SHORT, count := 2,
        type := .GLTF_TYPE_SCALAR },
      { componentType := .GLTF_COMPONENT_FLOAT, count := 3, type := .GLTF_TYPE_VEC3 }],
    myAsset := { version := "2.0" },
    myBuffers := [{ myURI := "data:application/octet-stream;base64,AAAA",
                    myByteLength := 10 }],
    myBufferViews := [{ buffer := 0, byteLength := 10, target := GLTF_BUFFER_ARRAY }],
    myBufferCache := [none, none] }

/-- The loader `Load` gives for `scene.gltf` of `oversizedHDK`. -/
def oversizedLoaded : GLTF_Loader :=
  { myFilename := "scene.gltf", myBasePath := "", myIsLoaded := true,
    myAccesors := [
      { bufferView := 0, componentType := .GLTF_COMPONENT_FLOAT, count := 1000,
        type := .GLTF_TYPE_VEC3 },
      { bufferView := 0, byteOffset := 4,
        componentType := .GLTF_COMPONENT_UNSIGNED_SHORT, count := 2,
        type := .GLTF_TYPE_SCALAR },
      { componentType := .GLTF_COMPONENT_FLOAT, count := 3, type := .GLTF_TYPE_VEC3 }],
    myAsset := { version := "2.0" },
    myBuffers := [{ myURI := "data:application/octet-stream;base64,AAAAAAAAAAAAAAAA",
                    myByteLength := 12 }],
    myBufferViews := [{ buffer := 0, byteLength := 12, target := GLTF_BUFFER_ARRAY }],
    myBufferCache := [none, none] }

/-- An export root after `CreateBuffer`, `CreateBufferview`, `CreateAccessor` and
`CreateMesh`, with 36 staged bytes from `BufferAlloc(0, 36, 4)`: one triangle of
three VEC3 / FLOAT positions.  The buffer view keeps the target it was created
with. -/
def triangleRoot : ROP_GLTF_ExportRoot :=
  { myBufferData := [List.replicate 36 0],
    myLoader :=
      { myBuffers := [{}],
        myBufferViews := [{ buffer := 0, byteOffset := 0, byteLength := 36 }],
        myAccesors := [{ bufferView := 0, componentType := .GLTF_COMPONENT_FLOAT, count := 3,
                         type := .GLTF_TYPE_VEC3 }],
        myMeshes := [{ primitives := [{ attributes := [("POSITION", 0)] }] }] },
    mySettings := { exportNames := true } }

/-- An export root after `CreateBuffer` and `BufferAlloc(0, 4294967268, 1)`:
buffer 0 has `2 ^ 32 - 28` staged bytes. -/
def hugeRoot : ROP_GLTF_ExportRoot :=
  { myBufferData := [List.replicate 4294967268 0],
    myLoader := { myBuffers := [{}] } }

/-! ## Documents that survive the round trip through a `.glb` file -/

/-- An accessor the loader reads back as written: `uint32` fields in range, a
component type on the allow list, and none of the members the serializer or
the loader skips (`min`, `max`, `name`). -/
def AccessorRoundTrips (a : GLTF_Accessor) : Prop :=
  a.bufferView < 4294967296 ∧ a.byteOffset < 4294967296 ∧ a.count < 4294967296 ∧
    a.componentType ≠ GLTF_ComponentType.GLTF_COMPONENT_INVALID ∧
    a.max = [] ∧ a.min = [] ∧ a.name = ""

instance (a : GLTF_Accessor) : Decidable (AccessorRoundTrips a) := by
  unfold AccessorRoundTrips
  infer_instance

/-- A buffer view the loader reads back as written: it references one of the
`numBuffers` buffers, its target is set, and its name is written or empty. -/
def BufferViewRoundTrips (exportNames : Bool) (numBuffers : Nat) (bv : GLTF_BufferView) :
    Prop :=
  bv.buffer < numBuffers ∧ bv.buffer < 4294967296 ∧ bv.byteOffset < 4294967296 ∧
    bv.byteLength < 4294967296 ∧ bv.byteStride < 4294967296 ∧
    bv.target ≠ GLTF_BUFFER_INVALID ∧ bv.target < 4294967296 ∧
    (exportNames = true ∨ bv.name = "")

instance (exportNames : Bool) (numBuffers : Nat) (bv : GLTF_BufferView) :
    Decidable (BufferViewRoundTrips exportNames numBuffers bv) := by
  unfold BufferViewRoundTrips
  infer_instance

/-- A primitive the loader reads back as written: indices in range, a render mode
on the allow list, and attribute keys that are pairwise different (as in a
`UT_StringMap`). -/
def PrimitiveRoundTrips (p : GLTF_Primitive) : Prop :=
  p.indices < 4294967296 ∧ p.material < 4294967296 ∧
    p.mode ≠ GLTF_RenderMode.GLTF_RENDERMODE_INVALID ∧
    (p.attributes.map Prod.fst).Nodup ∧ ∀ kv ∈ p.attributes, kv.2 < 4294967296

instance (p : GLTF_Primitive) : Decidable (PrimitiveRoundTrips p) := by
  unfold PrimitiveRoundTrips
  infer_instance

/-- A mesh the loader reads back as written. -/
def MeshRoundTrips (exportNames : Bool) (m : GLTF_Mesh) : Prop :=
  (∀ p ∈ m.primitives, PrimitiveRoundTrips p) ∧ (exportNames = true ∨ m.name = "")

instance (exportNames : Bool) (m : GLTF_Mesh) : Decidable (MeshRoundTrips exportNames m) := by
  unfold MeshRoundTrips
  infer_instance

/-- A material the loader reads back as written: the loader reads the name only,
and gives a material without a written name one of its own making. -/
def MaterialRoundTrips (exportNames : Bool) (m : GLTF_Material) : Prop :=
  exportNames = true ∧ m.name ≠ "" ∧ m = { name := m.name }

instance (exportNames : Bool) (m : GLTF_Material) :
    Decidable (MaterialRoundTrips exportNames m) := by
  unfold MaterialRoundTrips
  infer_instance

/-- The calls that build `triangleRoot`: `CreateBuffer`, `BufferAlloc(0, 36, 4)`,
`CreateBufferview`, `CreateAccessor` and `CreateMesh`, each followed by the
assignments to the fields of the entity handed back.  The target of the buffer
view is not assigned. -/
def buildTriangle : Outcome ROP_GLTF_ExportRoot := do
  let root0 : ROP_GLTF_ExportRoot := { mySettings := { exportNames := true } }
  let (bid, root1) := root0.CreateBuffer
  let (offset, root2) ← root1.BufferAlloc bid 36 4
  let (bufferview_idx, root3) := root2.CreateBufferview
  let root4 := { root3 with myLoader := { root3.myLoader with
    myBufferViews := root3.myLoader.myBufferViews.set bufferview_idx
      { buffer := bid, byteOffset := offset, byteLength := 36 } } }
  let (accessor_idx, root5) := root4.CreateAccessor
  let root6 := { root5 with myLoader := { root5.myLoader with
    myAccesors := root5.myLoader.myAccesors.set accessor_idx
      { bufferView := bufferview_idx, componentType := .GLTF_COMPONENT_FLOAT, count := 3,
        type := .GLTF_TYPE_VEC3 } } }
  let (mesh_idx, root7) := root6.CreateMesh
  pure { root7 with myLoader := { root7.myLoader with
    myMeshes := root7.myLoader.myMeshes.set mesh_idx
      { primitives := [{ attributes := [("POSITION", accessor_idx)] }] } } }

/-- The root `triangleRoot` with the target of its buffer view assigned and one
named material. -/
def arrayTriangleRoot : ROP_GLTF_ExportRoot :=
  { triangleRoot with
    myLoader := { triangleRoot.myLoader with
      myBufferViews := [{ buffer := 0, byteOffset := 0, byteLength := 36,
                          target := GLTF_BUFFER_ARRAY }],
      myMaterials := [{ name := "clay" }] } }

/-- The document `ExportAsGLB` serializes for `root` at `path`. -/
def exportedDocument (root : ROP_GLTF_ExportRoot) (path : String) : UT_JSONValue :=
  match root.ResolveBufferLengths with
  | Outcome.success root1 => (root1.ConvertAbsolutePaths (dirPart path)).SerializeJSON
  | _ => .JSON_NULL

/-- The bytes `ExportAsGLB` writes for `root` at `path` with the reference
JSON writer. -/
def exportedFile (root : ROP_GLTF_ExportRoot) (path : String) : List Nat :=
  match root.ExportAsGLB (referenceHDK .JSON_NULL []) path with
  | Outcome.success e => e.file
  | _ => []

/-- Reference services after `root` has been exported to `path`: the file is
there, and the reader knows the text of the document that was written. -/
def exportedHDK (root : ROP_GLTF_ExportRoot) (path : String) : HDK :=
  referenceHDK (exportedDocument root path) [(path, exportedFile root path)]

/-- A 32 byte `.glb` stream without a BIN chunk: the header and one JSON chunk of
12 bytes holding the text of `assetOnlyDoc`. -/
def glbWithoutBin : List Nat :=
  [103, 108, 84, 70, 2, 0, 0, 0, 32, 0, 0, 0] ++
  [12, 0, 0, 0, 74, 83, 79, 78] ++
  [123, 34, 97, 115, 115, 101, 116, 34, 58, 123, 125, 125]

/-- The object `m` is an element of the array that `root` holds under `key`. -/
def objectAt (root : UT_JSONValueMap) (key : String) (m : UT_JSONValueMap) : Prop :=
  ∃ arr, getKey root key = some (.JSON_ARRAY arr) ∧ UT_JSONValue.JSON_MAP m ∈ arr

/-- Some accessor of the document has no `componentType`, `count` or `type`. -/
def AccessorLacksRequired (root : UT_JSONValueMap) : Prop :=
  ∃ m, objectAt root "accessors" m ∧
    (getKey m "componentType" = none ∨ getKey m "count" = none ∨ getKey m "type" = none)

/-- Some buffer of the document has no `byteLength`. -/
def BufferLacksRequired (root : UT_JSONValueMap) : Prop :=
  ∃ m, objectAt root "buffers" m ∧ getKey m "byteLength" = none

/-- Some buffer view of the document has no `buffer` or `byteLength`. -/
def BufferViewLacksRequired (root : UT_JSONValueMap) : Prop :=
  ∃ m, objectAt root "bufferViews" m ∧
    (getKey m "buffer" = none ∨ getKey m "byteLength" = none)

/-- Some mesh of the document has no `primitives`, or a primitive without
`attributes`. -/
def MeshLacksRequired (root : UT_JSONValueMap) : Prop :=
  ∃ m, objectAt root "meshes" m ∧
    (getKey m "primitives" = none ∨
      ∃ p, objectAt m "primitives" p ∧ getKey p "attributes" = none)

/-- Every `attributes` member of every primitive of every mesh is an object. -/
def AttributesAreObjects (root : UT_JSONValueMap) : Prop :=
  ∀ m, objectAt root "meshes" m → ∀ p, objectAt m "primitives" p →
    ∀ v, getKey p "attributes" = some v → ∃ a, v = .JSON_MAP a

/-- A document whose first mesh has a primitive with `attributes: 5` and whose
second mesh has no `primitives`. -/
def nullAttributesDoc : UT_JSONValueMap :=
  [("asset", .JSON_MAP [("version", .JSON_STRING "2.0")]),
   ("meshes", .JSON_ARRAY [
      .JSON_MAP [("primitives", .JSON_ARRAY [.JSON_MAP [("attributes", .JSON_INT 5)]])],
      .JSON_MAP []])]

/-- A document whose only mesh has no `primitives`. -/
def meshWithoutPrimitivesDoc : UT_JSONValueMap :=
  [("asset", .JSON_MAP [("version", .JSON_STRING "2.0")]),
   ("meshes", .JSON_ARRAY [.JSON_MAP [("name", .JSON_STRING "empty")]])]

/-- The number a list of decimal digit characters stands for. -/
def decimalValue (digits : List Char) : Nat :=
  digits.foldl (fun acc c => acc * 10 + (c.toNat - 48)) 0

/-- An export root after `CreateBuffer` and `BufferAlloc(0, 4294967295, 1)`:
buffer 0 has `2 ^ 32 - 1` staged bytes. -/
def nearlyFullRoot : ROP_GLTF_ExportRoot :=
  { myBufferData := [List.replicate 4294967295 0],
    myLoader := { myBuffers := [{}] } }

namespace ROP_GLTF_ExportRoot

end ROP_GLTF_ExportRoot

/-- The value `SerializeJSON` emits under a top-level key, `none` when it does
not emit the key. -/
def ROP_GLTF_ExportRoot.emitted (root : ROP_GLTF_ExportRoot) (key : String) :
    Option UT_JSONValue :=
  match root.SerializeJSON with
  | .JSON_MAP top => getKey top key
  | _ => none

/-- An export root after `CreateBuffer` alone: one buffer and no buffer view. -/
def bufferOnlyRoot : ROP_GLTF_ExportRoot := (ROP_GLTF_ExportRoot.CreateBuffer {}).2

/-- An export root after `CreateBufferview` alone: one buffer view and no
buffer. -/
def bufferViewOnlyRoot : ROP_GLTF_ExportRoot := (ROP_GLTF_ExportRoot.CreateBufferview {}).2

/-- The accessor of `triangleRoot`: three VEC3 / FLOAT elements at byte offset
0, not normalized. -/
def triangleAccessor : GLTF_Accessor :=
  { bufferView := 0, componentType := .GLTF_COMPONENT_FLOAT, count := 3,
    type := .GLTF_TYPE_VEC3 }

/-! ## GLTF_Cache.C

`theThreadLock` is a recursive lock and the embedding runs one thread, so the
locks are no-ops. -/

def MAX_CACHE_FILES : Nat := 5

/-- The member `myLoaderMap`: the entries of the map, each key once.  A value
`none` is a null shared pointer.  The order in which a `UT_Map` iterates over
its entries is not the order of the list: the entry `begin()` denotes is an
argument of the functions that use it. -/
structure GLTF_Cache where
  myLoaderMap : List (String × Option GLTF_Loader) := []
  deriving DecidableEq, Repr

namespace GLTF_Cache

/-- The call `myLoaderMap.emplace(key, value)`: a key that is there keeps its
value. -/
def emplace (m : List (String × Option GLTF_Loader)) (key : String)
    (value : Option GLTF_Loader) : List (String × Option GLTF_Loader) :=
  if (m.lookup key).isSome then m else m ++ [(key, value)]

def GetLoader (cache : GLTF_Cache) (path : String) : Option GLTF_Loader :=
  match cache.myLoaderMap.lookup path with
  | none => none
  | some loader => loader

/-- The member `AutomaticEvict`; `first` is the position of the entry that
`myLoaderMap.begin()` denotes. -/
def AutomaticEvict (cache : GLTF_Cache) (first : Nat) : GLTF_Cache :=
  if cache.myLoaderMap.length = 0 then cache
  else { myLoaderMap := cache.myLoaderMap.eraseIdx (first % cache.myLoaderMap.length) }

/-- The member `EvictLoader`: the flag and the cache afterwards. -/
def EvictLoader (cache : GLTF_Cache) (path : String) : Bool × GLTF_Cache :=
  (decide ((cache.myLoaderMap.filter (fun entry => entry.1 = path)).length > 0),
   { myLoaderMap := cache.myLoaderMap.filter (fun entry => entry.1 ≠ path) })

/-- The member `LoadLoader`: the pointer handed back (`none` is null) and the
cache afterwards.  `first` is the position of the entry `begin()` denotes should
`AutomaticEvict` run. -/
def LoadLoader (hdk : HDK) (junk : Nat) (first : Nat) (cache : GLTF_Cache) (path : String) :
    Outcome (Option GLTF_Loader × GLTF_Cache) :=
  let loader := cache.GetLoader path
  match loader with
  | none =>
    let cache1 :=
      if cache.myLoaderMap.length > MAX_CACHE_FILES then cache.AutomaticEvict first
      else cache
    match GLTF_Loader.Load hdk junk (GLTF_Loader.create path) with
    | Outcome.success new_loader =>
      Outcome.success (some new_loader,
        { myLoaderMap := emplace cache1.myLoaderMap path loader })
    | Outcome.failure => Outcome.success (none, cache1)
    | Outcome.undefined => Outcome.undefined
  | some found => Outcome.success (some found, cache)

end GLTF_Cache

/-- A run of `LoadLoader` calls, each with its path and the position of the
entry `begin()` denotes at that time: the pointers handed back and the cache
after the last call. -/
def loadLoaders (hdk : HDK) (junk : Nat) :
    GLTF_Cache → List (String × Nat) → Outcome (List (Option GLTF_Loader) × GLTF_Cache)
  | cache, [] => Outcome.success ([], cache)
  | cache, (path, first) :: rest =>
    match GLTF_Cache.LoadLoader hdk junk first cache path with
    | Outcome.success (loader, cache1) =>
      (match loadLoaders hdk junk cache1 rest with
       | Outcome.success (loaders, cache2) => Outcome.success (loader :: loaders, cache2)
       | Outcome.failure => Outcome.failure
       | Outcome.undefined => Outcome.undefined)
    | Outcome.failure => Outcome.failure
    | Outcome.undefined => Outcome.undefined

/-- Reference services with six files, each holding the text of `assetOnlyDoc`. -/
def sixFilesHDK : HDK :=
  referenceHDK assetOnlyDoc
    [("a.gltf", jsonText assetOnlyDoc), ("b.gltf", jsonText assetOnlyDoc),
     ("c.gltf", jsonText assetOnlyDoc), ("d.gltf", jsonText assetOnlyDoc),
     ("e.gltf", jsonText assetOnlyDoc), ("f.gltf", jsonText assetOnlyDoc)]

/-- The six paths of `sixFilesHDK`, each with position 0 for `begin()`. -/
def sixPaths : List (String × Nat) :=
  [("a.gltf", 0), ("b.gltf", 0), ("c.gltf", 0), ("d.gltf", 0), ("e.gltf", 0), ("f.gltf", 0)]

/-! ## GLTF_Util::DecomposeMatrixToTRS -/

/-- The determinant of the 3 by 3 matrix with rows `a b c`, `d e f`, `g h i`. -/
def determinant3 (a b c d e f g h i : fpreal) : fpreal :=
  a * (e * i - f * h) - b * (d * i - f * g) + c * (d * h - e * g)

/-- The result of `UT_Matrix4F::determinant` on the matrix with the row-major
entries `mat`: the expansion along the first row. -/
def determinant (mat : List fpreal) : fpreal :=
  mat.getD 0 0 * determinant3 (mat.getD 5 0) (mat.getD 6 0) (mat.getD 7 0)
      (mat.getD 9 0) (mat.getD 10 0) (mat.getD 11 0)
      (mat.getD 13 0) (mat.getD 14 0) (mat.getD 15 0) -
    mat.getD 1 0 * determinant3 (mat.getD 4 0) (mat.getD 6 0) (mat.getD 7 0)
      (mat.getD 8 0) (mat.getD 10 0) (mat.getD 11 0)
      (mat.getD 12 0) (mat.getD 14 0) (mat.getD 15 0) +
    mat.getD 2 0 * determinant3 (mat.getD 4 0) (mat.getD 5 0) (mat.getD 7 0)
      (mat.getD 8 0) (mat.getD 9 0) (mat.getD 11 0)
      (mat.getD 12 0) (mat.getD 13 0) (mat.getD 15 0) -
    mat.getD 3 0 * determinant3 (mat.getD 4 0) (mat.getD 5 0) (mat.getD 6 0)
      (mat.getD 8 0) (mat.getD 9 0) (mat.getD 10 0)
      (mat.getD 12 0) (mat.getD 13 0) (mat.getD 14 0)

/-- What `UT_Matrix4F::explode` hands back. -/
structure Exploded where
  euler_rotation : fpreal × fpreal × fpreal
  scaleD : fpreal × fpreal × fpreal
  translationD : fpreal × fpreal × fpreal
  shears : fpreal × fpreal × fpreal
  deriving DecidableEq, Repr

/-- The test `v.length() > bound` for a bound that is not negative, without the
square root. -/
def lengthExceeds (v : fpreal × fpreal × fpreal) (bound : fpreal) : Prop :=
  v.1 * v.1 + v.2.1 * v.2.1 + v.2.2 * v.2.2 > bound * bound

instance (v : fpreal × fpreal × fpreal) (bound : fpreal) : Decidable (lengthExceeds v bound) := by
  unfold lengthExceeds
  infer_instance

namespace GLTF_Util

/-- The member `DecomposeMatrixToTRS`, with `UT_Matrix4F::explode` as an argument:
`none` is `false`; on `true` the translation written to the caller and the
Euler angles the rotation is set from.  The scale is a by-value argument and
reaches no caller. -/
def DecomposeMatrixToTRS (explode : List fpreal → Exploded) (mat : List fpreal) :
    Option ((fpreal × fpreal × fpreal) × (fpreal × fpreal × fpreal)) :=
  if determinant mat ≠ 0 then none
  else
    let parts := explode mat
    let EPSILON : fpreal := 1 / 1000000
    if lengthExceeds parts.shears EPSILON then none
    else some (parts.translationD, parts.euler_rotation)

end GLTF_Util

/-- A stand-in for `explode` on a matrix that scales along the axes and
translates: the diagonal is the scale, the last row the translation, and there
is no rotation and no shear. -/
def axisExplode (mat : List fpreal) : Exploded :=
  { euler_rotation := (0, 0, 0),
    scaleD := (mat.getD 0 0, mat.getD 5 0, mat.getD 10 0),
    translationD := (mat.getD 12 0, mat.getD 13 0, mat.getD 14 0),
    shears := (0, 0, 0) }

/-- The matrix that scales the first axis by 0: it flattens space onto a plane. -/
def flatMatrix : List fpreal := [0, 0, 0, 0, 0, 1, 0, 0, 0, 0, 1, 0, 0, 0, 0, 1]

/-- A sampler object with the four integer members `magFilter: 9728` (NEAREST),
`minFilter: 9987` (LINEAR_MIPMAP_LINEAR), `wrapS: 10497` (REPEAT) and
`wrapT: 33071` (CLAMP_TO_EDGE). -/
def fourValueSampler : UT_JSONValueMap :=
  [("magFilter", .JSON_INT 9728), ("minFilter", .JSON_INT 9987),
   ("wrapS", .JSON_INT 10497), ("wrapT", .JSON_INT 33071)]

/-- A document whose node has `children: [true]` and whose scene has
`nodes: ["x", 1.5, 2]`. -/
def badIndicesDoc : UT_JSONValueMap :=
  [("asset", .JSON_MAP [("version", .JSON_STRING "2.0")]),
   ("nodes", .JSON_ARRAY [.JSON_MAP [("children", .JSON_ARRAY [.JSON_BOOL true])]]),
   ("scenes", .JSON_ARRAY [.JSON_MAP [("nodes", .JSON_ARRAY
      [.JSON_STRING "x", .JSON_REAL (3 / 2), .JSON_INT 2])]])]

/-! ## ROP_GLTF::GetNonCollidingName (ROP_GLTF.C)

`myNameUsagesMap` is a `UT_Map<UT_StringHolder, GLTF_Handle>`; it is modelled as
an association list whose counters are `uint32` values. -/

abbrev NameUsagesMap := List (String × Nat)

/-- `map.find(k)`: the counter stored for `k`, `none` standing for `end()`. -/
def NameUsagesMap.find (map : NameUsagesMap) (k : String) : Option Nat :=
  map.lookup k

/-- `map.find(s)->second++`: the counter of `s` is incremented as a `uint32`. -/
def NameUsagesMap.postIncrement : NameUsagesMap → String → NameUsagesMap
  | [], _ => []
  | (k, v) :: rest, s =>
    if s = k then (k, (v + 1) % 4294967296) :: rest
    else (k, v) :: NameUsagesMap.postIncrement rest s

/-- `map.insert({k, v})`: nothing changes when `k` is already a key. -/
def NameUsagesMap.insert (map : NameUsagesMap) (k : String) (v : Nat) : NameUsagesMap :=
  match map.find k with
  | some _ => map
  | none => map ++ [(k, v)]

/-- The `while` loop of `GetNonCollidingName`.  The result is `none` when `fuel`
iterations did not leave the loop, and `Outcome.undefined` when `find(s)` is
dereferenced although it is `end()`. -/
def GetNonCollidingName.loop (s : String) :
    Nat → NameUsagesMap → String → Option (Outcome (String × NameUsagesMap))
  | 0, _, _ => none
  | fuel + 1, map, name =>
    match map.find name with
    | none => some (Outcome.success (name, map))
    | some _ =>
      match map.find s with
      | none => some Outcome.undefined
      | some times =>
        GetNonCollidingName.loop s fuel (map.postIncrement s) (name ++ toString times)

/-- `ROP_GLTF::GetNonCollidingName(s, out)`: the pair of `out` and the map after
the call.  The loop is given one iteration more than the map has entries. -/
def GetNonCollidingName (map : NameUsagesMap) (s : String) :
    Option (Outcome (String × NameUsagesMap)) :=
  match GetNonCollidingName.loop s (map.length + 1) map s with
  | some (Outcome.success (name, map1)) => some (Outcome.success (name, map1.insert s 1))
  | r => r

/-- A sequence of calls on one export root: the names returned, in call order,
and the map after the last call. -/
def GetNonCollidingNames :
    NameUsagesMap → List String → Option (Outcome (List String × NameUsagesMap))
  | map, [] => some (Outcome.success ([], map))
  | map, s :: rest =>
    match GetNonCollidingName map s with
    | some (Outcome.success (name, map1)) =>
      match GetNonCollidingNames map1 rest with
      | some (Outcome.success (names, map2)) => some (Outcome.success (name :: names, map2))
      | r => r
    | some Outcome.undefined => some Outcome.undefined
    | some Outcome.failure => some Outcome.failure
    | none => none

/-- A loaded document with one accessor, one buffer, one buffer view and one
mesh. -/
def oneOfEachLoader : GLTF_Loader :=
  { myAccesors := [{ bufferView := 0, componentType := .GLTF_COMPONENT_FLOAT, count := 3,
                     type := .GLTF_TYPE_VEC3 }],
    myBuffers := [{ myByteLength := 36, myURI := "triangle.bin" }],
    myBufferViews := [{ buffer := 0, byteLength := 36 }],
    myMeshes := [{}] }

/-! # Theorems -/

/-! ## Strides -/

/-- C3: `getStride s t c` is `s` when `s` is nonzero and
`typeGetElements t * componentTypeGetBytes c` when `s` is 0; in particular
`getStride 0 VEC3 FLOAT = 12` and `getStride 20 VEC3 FLOAT = 20`. -/
theorem getStride_declared_or_default (s : Nat) (t : GLTF_Type) (c : GLTF_ComponentType) :
    GLTF_Util.getStride s t c =
        (if s = 0 then GLTF_Util.typeGetElements t * GLTF_Util.componentTypeGetBytes c else s) ∧
      GLTF_Util.getStride 0 .GLTF_TYPE_VEC3 .GLTF_COMPONENT_FLOAT = 12 ∧
      GLTF_Util.getStride 20 .GLTF_TYPE_VEC3 .GLTF_COMPONENT_FLOAT = 20 := by
  refine ⟨?_, rfl, rfl⟩
  unfold GLTF_Util.getStride
  by_cases h : s = 0
  · simp [h, Nat.mul_comm]
  · simp [h]

/-- C4: `getDefaultStride t c` is the arity of `t` times the width of `c`, where
the arity (`typeGetElements`) is SCALAR 1, VEC2 2, VEC3 3, VEC4 4, MAT2 4, MAT3 9,
MAT4 16 and the width (`componentTypeGetBytes`) is 1 for BYTE and UNSIGNED_BYTE,
2 for SHORT and UNSIGNED_SHORT, 4 for UNSIGNED_INT and FLOAT. -/
theorem getDefaultStride_eq_arity_mul_width (t : GLTF_Type) (c : GLTF_ComponentType) :
    GLTF_Util.getDefaultStride t c =
        GLTF_Util.typeGetElements t * GLTF_Util.componentTypeGetBytes c ∧
      GLTF_Util.typeGetElements .GLTF_TYPE_SCALAR = 1 ∧
      GLTF_Util.typeGetElements .GLTF_TYPE_VEC2 = 2 ∧
      GLTF_Util.typeGetElements .GLTF_TYPE_VEC3 = 3 ∧
      GLTF_Util.typeGetElements .GLTF_TYPE_VEC4 = 4 ∧
      GLTF_Util.typeGetElements .GLTF_TYPE_MAT2 = 4 ∧
      GLTF_Util.typeGetElements .GLTF_TYPE_MAT3 = 9 ∧
      GLTF_Util.typeGetElements .GLTF_TYPE_MAT4 = 16 ∧
      GLTF_Util.componentTypeGetBytes .GLTF_COMPONENT_BYTE = 1 ∧
      GLTF_Util.componentTypeGetBytes .GLTF_COMPONENT_UNSIGNED_BYTE = 1 ∧
      GLTF_Util.componentTypeGetBytes .GLTF_COMPONENT_SHORT = 2 ∧
      GLTF_Util.componentTypeGetBytes .GLTF_COMPONENT_UNSIGNED_SHORT = 2 ∧
      GLTF_Util.componentTypeGetBytes .GLTF_COMPONENT_UNSIGNED_INT = 4 ∧
      GLTF_Util.componentTypeGetBytes .GLTF_COMPONENT_FLOAT = 4 := by
  refine ⟨?_, rfl, rfl, rfl, rfl, rfl, rfl, rfl, rfl, rfl, rfl, rfl, rfl, rfl⟩
  unfold GLTF_Util.getDefaultStride
  exact Nat.mul_comm _ _

/-! ## The GLB reader -/

theorem readLE32_take (l : List Nat) (n : Nat) (hn : 4 ≤ n) :
    readLE32 (l.take n) = readLE32 l := by
  unfold readLE32
  simp only [List.getD_eq_getElem?_getD]
  rw [List.getElem?_take_of_lt (by omega), List.getElem?_take_of_lt (by omega),
    List.getElem?_take_of_lt (by omega), List.getElem?_take_of_lt (by omega)]

theorem readLE32_lt (l : List Nat) : readLE32 l < 4294967296 := by
  unfold readLE32
  omega

/-- What `ReadGLB` does with an open stream: the chunk arithmetic, then the
JSON reader. -/
theorem ReadGLB_of_open (hdk : HDK) (junk : Nat) (s : GLTF_Loader) (is : List Nat)
    (hopen : hdk.openFile s.myFilename = some is)
    (hfit : 12 + 8 + readLE32 (is.drop 12) + 8 +
      readLE32 (is.drop (20 + readLE32 (is.drop 12))) ≤ is.length) :
    GLTF_Loader.ReadGLB hdk junk s =
      (match hdk.jsonParse ((is.drop 20).take (readLE32 (is.drop 12))) with
       | some (.JSON_MAP keymap) =>
         match GLTF_Loader.ReadJSON junk keymap s with
         | Outcome.success s1 =>
           Outcome.success { s1 with
             myBufferCache := s1.myBufferCache ++
               [some ((is.drop (28 + readLE32 (is.drop 12))).take
                 (readLE32 (is.drop (20 + readLE32 (is.drop 12)))))] }
         | Outcome.failure => Outcome.failure
         | Outcome.undefined => Outcome.undefined
       | _ => Outcome.failure) := by
  unfold GLTF_Loader.ReadGLB
  simp only [hopen, bread, List.drop_drop, List.length_take, List.length_drop]
  have h1 : readLE32 (List.take 8 (List.drop 12 is)) = readLE32 (is.drop 12) :=
    readLE32_take _ 8 (by omega)
  simp only [h1]
  have h2 : readLE32 (List.take 8 (List.drop (12 + 8 + readLE32 (is.drop 12)) is)) =
      readLE32 (is.drop (20 + readLE32 (is.drop 12))) := by
    rw [readLE32_take _ 8 (by omega)]
  simp only [h2]
  have e1 : (min 12 is.length != 12) = false := by simp; omega
  have e2 : (min 8 (is.length - 12) != 8) = false := by simp; omega
  have e3 : (min (readLE32 (is.drop 12)) (is.length - (12 + 8)) != readLE32 (is.drop 12))
      = false := by simp; omega
  have e4 : (min 8 (is.length - (12 + 8 + readLE32 (is.drop 12))) != 8) = false := by
    simp; omega
  have e5 : (min (readLE32 (is.drop (20 + readLE32 (is.drop 12))))
      (is.length - (12 + 8 + readLE32 (is.drop 12) + 8)) !=
      readLE32 (is.drop (20 + readLE32 (is.drop 12)))) = false := by simp; omega
  simp only [e1, e2, e3, e4, e5, Bool.false_eq_true, if_false]
  have e6 : 12 + 8 + readLE32 (is.drop 12) + 8 = 28 + readLE32 (is.drop 12) := by omega
  rw [e6]

/-- C9 (as amended): `ReadGLB` fails on every stream that ends before the
header, a chunk header or the declared length of the JSON or BIN chunk is
complete, and `Load` then returns no document; the total length declared in
the header takes no part in it. -/
theorem ReadGLB_fails_on_truncated_stream (hdk : HDK) (junk : Nat) (s : GLTF_Loader)
    (is : List Nat) (hopen : hdk.openFile s.myFilename = some is)
    (hext : (fileExtension s.myFilename).map Char.toLower = ".glb".data)
    (hshort : is.length < 12 + 8 + readLE32 (is.drop 12) + 8 +
      readLE32 (is.drop (20 + readLE32 (is.drop 12)))) :
    GLTF_Loader.ReadGLB hdk junk s = Outcome.failure ∧
      GLTF_Loader.Load hdk junk s = Outcome.failure := by
  have hread : GLTF_Loader.ReadGLB hdk junk s = Outcome.failure := by
    unfold GLTF_Loader.ReadGLB
    simp only [hopen, bread, List.drop_drop, List.length_take, List.length_drop]
    have h1 : readLE32 (List.take 8 (List.drop 12 is)) = readLE32 (is.drop 12) :=
      readLE32_take _ 8 (by omega)
    simp only [h1]
    have h2 : readLE32 (List.take 8 (List.drop (12 + 8 + readLE32 (is.drop 12)) is)) =
        readLE32 (is.drop (20 + readLE32 (is.drop 12))) := by
      rw [readLE32_take _ 8 (by omega)]
    simp only [h2]
    split_ifs with c1 c2 c3 c4 c5
    · rfl
    · rfl
    · rfl
    · rfl
    · rfl
    · exfalso
      simp only [bne_iff_ne, ne_eq, not_not] at c1 c2 c3 c4 c5
      omega
  refine ⟨hread, ?_⟩
  unfold GLTF_Loader.Load
  have hne : ¬ (".glb".data = ".gltf".data) := by decide
  simp only [hext, hne, if_false, if_true, hread]

set_option maxRecDepth 100000 in
/-- Witness for C9: a 40 byte stream whose JSON chunk declares 100 bytes. -/
theorem ReadGLB_fails_on_truncated_stream_witness :
    GLTF_Loader.ReadGLB (referenceHDK assetOnlyDoc [("scene.glb", glbTruncated)]) 0
        (GLTF_Loader.create "scene.glb") = Outcome.failure ∧
      GLTF_Loader.Load (referenceHDK assetOnlyDoc [("scene.glb", glbTruncated)]) 0
        (GLTF_Loader.create "scene.glb") = Outcome.failure :=
  ReadGLB_fails_on_truncated_stream (referenceHDK assetOnlyDoc [("scene.glb", glbTruncated)]) 0
    (GLTF_Loader.create "scene.glb") glbTruncated (by decide) (by decide) (by decide)

set_option maxRecDepth 100000 in
/-- C9 (counterexample): the 40 byte stream `glbDeclaring100` declares a total
length of 100 in its header, and `ReadGLB` and `Load` both succeed on it. -/
theorem ReadGLB_accepts_wrong_total_length :
    readLE32 (glbDeclaring100.drop 8) = 100 ∧ glbDeclaring100.length = 40 ∧
      (GLTF_Loader.ReadGLB (referenceHDK assetOnlyDoc [("scene.glb", glbDeclaring100)]) 0
        (GLTF_Loader.create "scene.glb")).isSuccess = true ∧
      (GLTF_Loader.Load (referenceHDK assetOnlyDoc [("scene.glb", glbDeclaring100)]) 0
        (GLTF_Loader.create "scene.glb")).isSuccess = true := by
  decide

/-- C10 (as amended): `ReadGLB` reads the twelve header bytes and never looks at
them: it fails on every stream of fewer than twelve bytes, and on two streams
of at least twelve bytes that differ only in those twelve bytes it gives the
same result, whether or not they spell the magic `glTF`. -/
theorem ReadGLB_ignores_header (hdk : HDK) (junk : Nat) (s : GLTF_Loader) :
    (∀ is : List Nat, hdk.openFile s.myFilename = some is → is.length < 12 →
      GLTF_Loader.ReadGLB hdk junk s = Outcome.failure) ∧
    (∀ header1 header2 rest : List Nat, header1.length = 12 → header2.length = 12 →
      GLTF_Loader.ReadGLB { hdk with openFile := fun _ => some (header1 ++ rest) } junk s =
        GLTF_Loader.ReadGLB { hdk with openFile := fun _ => some (header2 ++ rest) } junk s) := by
  constructor
  · intro is hopen hshort
    unfold GLTF_Loader.ReadGLB
    simp only [hopen, bread, List.length_take]
    have hne : (min 12 is.length != 12) = true := by
      simp only [bne_iff_ne, ne_eq]
      omega
    simp only [hne, if_true]
  · intro header1 header2 rest hlen1 hlen2
    unfold GLTF_Loader.ReadGLB
    simp only [bread, List.take_left' hlen1, List.take_left' hlen2, List.drop_left' hlen1,
      List.drop_left' hlen2, hlen1, hlen2]

set_option maxRecDepth 100000 in
/-- Witness for C10: a stream that holds the four bytes `glTF` and nothing else,
and twelve zero bytes against the header `glTF`, version 2, length 40. -/
theorem ReadGLB_ignores_header_witness :
    GLTF_Loader.ReadGLB (referenceHDK assetOnlyDoc [("scene.glb", [103, 108, 84, 70])]) 0
        (GLTF_Loader.create "scene.glb") = Outcome.failure ∧
    GLTF_Loader.ReadGLB { referenceHDK assetOnlyDoc [] with
        openFile := fun _ => some ([0, 0, 0, 0, 0, 0, 0, 0, 0, 0, 0, 0] ++ glbDeclaring100.drop 12) }
        0 (GLTF_Loader.create "scene.glb") =
      GLTF_Loader.ReadGLB { referenceHDK assetOnlyDoc [] with
        openFile := fun _ => some ([103, 108, 84, 70, 2, 0, 0, 0, 40, 0, 0, 0] ++
          glbDeclaring100.drop 12) }
        0 (GLTF_Loader.create "scene.glb") :=
  ⟨(ReadGLB_ignores_header (referenceHDK assetOnlyDoc [("scene.glb", [103, 108, 84, 70])]) 0
      (GLTF_Loader.create "scene.glb")).1 [103, 108, 84, 70] (by decide) (by decide),
    (ReadGLB_ignores_header (referenceHDK assetOnlyDoc []) 0 (GLTF_Loader.create "scene.glb")).2
      [0, 0, 0, 0, 0, 0, 0, 0, 0, 0, 0, 0] [103, 108, 84, 70, 2, 0, 0, 0, 40, 0, 0, 0]
      (glbDeclaring100.drop 12) rfl rfl⟩

set_option maxRecDepth 100000 in
/-- C10 (counterexample): the stream `glbWithoutMagic` starts with four zero
bytes, not with `glTF`, and `ReadGLB` succeeds on it. -/
theorem ReadGLB_accepts_missing_magic :
    readLE32 glbWithoutMagic ≠ GLTF_GLB_MAGIC ∧
      (GLTF_Loader.ReadGLB (referenceHDK assetOnlyDoc [("scene.glb", glbWithoutMagic)]) 0
        (GLTF_Loader.create "scene.glb")).isSuccess = true := by
  decide

/-! ## Buffer resolution -/

set_option maxRecDepth 100000 in
/-- C6 (the code at the failing input): on the loaded `scene.gltf` of
`oversizedHDK`, the third accessor has no `bufferView` key, so its handle is
`GLTF_INVALID_IDX`; `getBufferView` answers that handle with the null pointer,
while `LoadAccessorData` indexes `myBufferViews` with it. -/
theorem LoadAccessorData_indexes_out_of_range :
    (do
      let s ← GLTF_Loader.Load oversizedHDK 0 (GLTF_Loader.create "scene.gltf")
      let accessor ← s.getAccessor 2
      pure (accessor.bufferView, s.getNumBufferViews,
        s.getBufferView accessor.bufferView,
        (GLTF_Loader.LoadAccessorData oversizedHDK s accessor).1)) =
      Outcome.success (GLTF_INVALID_IDX, 1, Outcome.failure, Outcome.undefined) := by
  decide

set_option maxRecDepth 100000 in
/-- C5 (counterexample): on the loaded `scene.gltf` of `oversizedHDK` the buffer
holds 12 bytes and the first accessor addresses 1000 elements of 12 bytes through
a buffer view of 12 bytes; `LoadAccessorData` succeeds and hands back the pointer
to the start of the block. -/
theorem LoadAccessorData_accepts_oversized_accessor :
    (do
      let s ← GLTF_Loader.Load oversizedHDK 0 (GLTF_Loader.create "scene.gltf")
      let accessor ← s.getAccessor 0
      let bv ← s.getBufferView accessor.bufferView
      pure (accessor.count * GLTF_Util.getStride bv.byteStride accessor.type
              accessor.componentType, bv.byteLength,
            (GLTF_Loader.LoadAccessorData oversizedHDK s accessor).1)) =
      Outcome.success (12000, 12,
        Outcome.success { block := [0, 0, 0, 0, 0, 0, 0, 0, 0, 0, 0, 0], offset := 0,
                          decoded := true }) := by
  decide

/-- A filled cache slot answers `LoadBuffer` at its first test: the cached
bytes come back, nothing is decoded and the loader is unchanged. -/
theorem LoadBuffer_cached (hdk : HDK) (s : GLTF_Loader) (idx : Nat) (block : List Nat)
    (hslot : s.myBufferCache[idx]? = some (some block)) :
    GLTF_Loader.LoadBuffer hdk s idx =
      (Outcome.success { data := block, decoded := false }, s) := by
  unfold GLTF_Loader.LoadBuffer
  simp only [hslot]

/-- A successful `LoadBuffer` leaves the slot filled with the bytes it hands
back, changes nothing but the cache, and has decoded exactly when the slot was
empty before. -/
theorem LoadBuffer_success (hdk : HDK) (s s1 : GLTF_Loader) (idx : Nat) (hit : BufferHit)
    (h : GLTF_Loader.LoadBuffer hdk s idx = (Outcome.success hit, s1)) :
    s1.myBufferCache[idx]? = some (some hit.data) ∧
      s1.myBufferViews = s.myBufferViews ∧ s1.myBuffers = s.myBuffers ∧
      (hit.decoded = true ↔ s.myBufferCache[idx]? = some none) := by
  unfold GLTF_Loader.LoadBuffer at h
  split at h
  · simp at h
  · next cached hslot =>
    simp only [Prod.mk.injEq, Outcome.success.injEq] at h
    obtain ⟨h1, h2⟩ := h
    subst h1 h2
    simp [hslot]
  · next hslot =>
    have hlt : idx < s.myBufferCache.length := by
      by_contra hc
      have := List.getElem?_eq_none (l := s.myBufferCache) (n := idx) (by omega)
      simp [this] at hslot
    split at h
    · simp at h
    · next buffer hbuf =>
      split at h
      · dsimp only at h
        split at h
        · split at h
          · simp at h
          · simp only [Prod.mk.injEq, Outcome.success.injEq] at h
            obtain ⟨h1, h2⟩ := h
            subst h1 h2
            simp [hslot, hlt]
        · simp at h
      · dsimp only at h
        split at h
        · simp at h
        · split at h
          · simp at h
          · simp only [Prod.mk.injEq, Outcome.success.injEq] at h
            obtain ⟨h1, h2⟩ := h
            subst h1 h2
            simp [hslot, hlt]

/-- C7 (as amended): when the cache slot of a buffer is empty, its URI starts
with `data:application/octet-stream;base64,` and the payload decodes to a number
of bytes different from the declared `byteLength`, `LoadBuffer` returns failure
and leaves the loader, and so the empty slot, as it was. -/
theorem LoadBuffer_rejects_base64_length_mismatch (hdk : HDK) (s : GLTF_Loader) (idx : Nat)
    (buffer : GLTF_Buffer) (dst : List Nat)
    (hslot : s.myBufferCache[idx]? = some none)
    (hbuf : s.myBuffers[idx]? = some buffer)
    (huri : base64Header.data.isPrefixOf buffer.myURI.data = true)
    (hdec : hdk.base64Decode (String.mk (buffer.myURI.data.drop base64Header.length)) = some dst)
    (hlen : dst.length ≠ buffer.myByteLength) :
    GLTF_Loader.LoadBuffer hdk s idx = (Outcome.failure, s) ∧
      (GLTF_Loader.LoadBuffer hdk s idx).2.myBufferCache[idx]? = some none := by
  have h : GLTF_Loader.LoadBuffer hdk s idx = (Outcome.failure, s) := by
    unfold GLTF_Loader.LoadBuffer
    simp only [hslot, hbuf, huri, if_true, hdec]
    simp [hlen]
  rw [h]
  exact ⟨rfl, hslot⟩

set_option maxRecDepth 100000 in
theorem mismatchLoaded_eq :
    GLTF_Loader.Load mismatchHDK 0 (GLTF_Loader.create "scene.gltf") =
      Outcome.success mismatchLoaded := by
  decide

set_option maxRecDepth 100000 in
theorem oversizedLoaded_eq :
    GLTF_Loader.Load oversizedHDK 0 (GLTF_Loader.create "scene.gltf") =
      Outcome.success oversizedLoaded := by
  decide

set_option maxRecDepth 100000 in
/-- Witness for C7: the spec's case, payload `AAAA` (three bytes) against a
declared `byteLength` of 10, in the loaded `scene.gltf` of `mismatchHDK`. -/
theorem LoadBuffer_rejects_base64_length_mismatch_witness :
    GLTF_Loader.LoadBuffer mismatchHDK mismatchLoaded 0 = (Outcome.failure, mismatchLoaded) ∧
      (GLTF_Loader.LoadBuffer mismatchHDK mismatchLoaded 0).2.myBufferCache[0]? = some none :=
  LoadBuffer_rejects_base64_length_mismatch mismatchHDK mismatchLoaded 0
    { myURI := "data:application/octet-stream;base64,AAAA", myByteLength := 10 } [0, 0, 0]
    (by decide) (by decide) (by decide) (by decide) (by decide)

set_option maxRecDepth 100000 in
/-- C7 (counterexample): in `scene.glb` of `mismatchGlbHDK` buffer 0 has the URI
`data:application/octet-stream;base64,AAAA`, whose payload decodes to 3 bytes, and
declares 10 bytes; after `Load` the BIN chunk sits in cache slot 0 and
`LoadBuffer` returns it with success. -/
theorem LoadBuffer_returns_staged_chunk_despite_mismatch :
    (do
      let s ← GLTF_Loader.Load mismatchGlbHDK 0 (GLTF_Loader.create "scene.glb")
      let buffer ← s.getBuffer 0
      pure (buffer.myURI, buffer.myByteLength,
        (base64Reference "AAAA").map List.length,
        (GLTF_Loader.LoadBuffer mismatchGlbHDK s 0).1)) =
      Outcome.success ("data:application/octet-stream;base64,AAAA", 10, some 3,
        Outcome.success { data := [1, 2, 3, 4, 5, 6, 7, 8, 9, 10], decoded := false }) := by
  decide

/-- C5 (as amended): for an accessor whose buffer view exists, `LoadAccessorData`
returns failure exactly when `LoadBuffer` fails for the buffer of that view, and
whenever the buffer loads it succeeds with the pointer
`buffer + bufferView.byteOffset + accessor.byteOffset`; the count, the stride,
`bufferView.byteLength` and the length of the decoded bytes take no part. -/
theorem LoadAccessorData_fails_only_with_LoadBuffer (hdk : HDK) (s : GLTF_Loader)
    (accessor : GLTF_Accessor) (bv : GLTF_BufferView)
    (hbv : s.myBufferViews[accessor.bufferView]? = some bv) :
    ((GLTF_Loader.LoadAccessorData hdk s accessor).1 = Outcome.failure ↔
        (GLTF_Loader.LoadBuffer hdk s bv.buffer).1 = Outcome.failure) ∧
      (∀ hit, (GLTF_Loader.LoadBuffer hdk s bv.buffer).1 = Outcome.success hit →
        (GLTF_Loader.LoadAccessorData hdk s accessor).1 =
          Outcome.success { block := hit.data, offset := bv.byteOffset + accessor.byteOffset,
                            decoded := hit.decoded }) := by
  unfold GLTF_Loader.LoadAccessorData
  simp only [hbv]
  rcases hL : GLTF_Loader.LoadBuffer hdk s bv.buffer with ⟨r, s1⟩
  cases r <;> simp

set_option maxRecDepth 100000 in
/-- Witness for C5: the first accessor of the loaded `scene.gltf` of `oversizedHDK`. -/
theorem LoadAccessorData_fails_only_with_LoadBuffer_witness :
    ((GLTF_Loader.LoadAccessorData oversizedHDK oversizedLoaded
          { bufferView := 0, componentType := .GLTF_COMPONENT_FLOAT, count := 1000,
            type := .GLTF_TYPE_VEC3 }).1 = Outcome.failure ↔
        (GLTF_Loader.LoadBuffer oversizedHDK oversizedLoaded 0).1 = Outcome.failure) ∧
      (∀ hit, (GLTF_Loader.LoadBuffer oversizedHDK oversizedLoaded 0).1 = Outcome.success hit →
        (GLTF_Loader.LoadAccessorData oversizedHDK oversizedLoaded
          { bufferView := 0, componentType := .GLTF_COMPONENT_FLOAT, count := 1000,
            type := .GLTF_TYPE_VEC3 }).1 =
          Outcome.success { block := hit.data, offset := 0 + 0, decoded := hit.decoded }) :=
  LoadAccessorData_fails_only_with_LoadBuffer oversizedHDK oversizedLoaded
    { bufferView := 0, componentType := .GLTF_COMPONENT_FLOAT, count := 1000,
      type := .GLTF_TYPE_VEC3 }
    { buffer := 0, byteLength := 12, target := GLTF_BUFFER_ARRAY } (by decide)

/-- With the slot of buffer `b` filled, a run over accessors on `b` changes
nothing and every call returns the cached bytes without decoding. -/
theorem loadAll_cached (hdk : HDK) (b : Nat) (block : List Nat) (accessors : List GLTF_Accessor) :
    ∀ (s : GLTF_Loader),
      s.myBufferCache[b]? = some (some block) →
      (∀ x ∈ accessors, (s.myBufferViews[x.bufferView]?).map (fun bv => bv.buffer) = some b) →
      (loadAll hdk s accessors).2 = s ∧
        ∀ r ∈ (loadAll hdk s accessors).1,
          ∃ off, r = Outcome.success { block := block, offset := off, decoded := false } := by
  induction accessors with
  | nil =>
    intro s _ _
    simp [loadAll]
  | cons a rest ih =>
    intro s hslot hrefs
    have ha := hrefs a (List.mem_cons_self _ _)
    rcases hbv : s.myBufferViews[a.bufferView]? with _ | bv
    · simp [hbv] at ha
    · simp only [hbv, Option.map_some', Option.some.injEq] at ha
      have hcall : GLTF_Loader.LoadAccessorData hdk s a =
          (Outcome.success { block := block, offset := bv.byteOffset + a.byteOffset,
                             decoded := false }, s) := by
        unfold GLTF_Loader.LoadAccessorData
        simp only [hbv, ha, LoadBuffer_cached hdk s b block hslot]
      have ih1 := ih s hslot (fun x hx => hrefs x (List.mem_cons_of_mem _ hx))
      simp only [loadAll, hcall]
      refine ⟨ih1.1, ?_⟩
      intro r hr
      rcases List.mem_cons.mp hr with h | h
      · exact ⟨_, h⟩
      · exact ih1.2 r h

/-- C8 (as amended): in a run of successful `LoadAccessorData` calls on accessors
whose buffer views reference buffer `b`, the bytes of `b` are decoded at most
once: by the first call, exactly when slot `b` was empty before the run, and by
no call when the slot was already filled; after the first call the slot holds
the bytes, every call of the run returns those same bytes, and no later call
decodes or changes the loader. -/
theorem loadAll_decodes_at_most_once (hdk : HDK) (s : GLTF_Loader) (b : Nat)
    (a : GLTF_Accessor) (rest : List GLTF_Accessor)
    (hrefs : ∀ x ∈ a :: rest,
      (s.myBufferViews[x.bufferView]?).map (fun bv => bv.buffer) = some b)
    (hsucc : ∀ r ∈ (loadAll hdk s (a :: rest)).1, r.isSuccess = true) :
    ∃ block,
      (GLTF_Loader.LoadAccessorData hdk s a).2.myBufferCache[b]? = some (some block) ∧
      (loadAll hdk s (a :: rest)).2 = (GLTF_Loader.LoadAccessorData hdk s a).2 ∧
      (∀ r ∈ (loadAll hdk s (a :: rest)).1,
        ∃ off d, r = Outcome.success { block := block, offset := off, decoded := d }) ∧
      (∀ r ∈ (loadAll hdk (GLTF_Loader.LoadAccessorData hdk s a).2 rest).1,
        didDecode r = false) ∧
      (didDecode (GLTF_Loader.LoadAccessorData hdk s a).1 = true ↔
        s.myBufferCache[b]? = some none) ∧
      decodeCount (loadAll hdk s (a :: rest)).1 =
        (if s.myBufferCache[b]? = some none then 1 else 0) := by
  have ha := hrefs a (List.mem_cons_self _ _)
  rcases hbv : s.myBufferViews[a.bufferView]? with _ | bv
  · simp [hbv] at ha
  · simp only [hbv, Option.map_some', Option.some.injEq] at ha
    have h0 := hsucc (GLTF_Loader.LoadAccessorData hdk s a).1 (by simp [loadAll])
    rcases hL : GLTF_Loader.LoadBuffer hdk s b with ⟨r, s1⟩
    have hcall : GLTF_Loader.LoadAccessorData hdk s a =
        (match r with
         | Outcome.success hit =>
           (Outcome.success { block := hit.data, offset := bv.byteOffset + a.byteOffset,
                              decoded := hit.decoded }, s1)
         | Outcome.failure => (Outcome.failure, s1)
         | Outcome.undefined => (Outcome.undefined, s1)) := by
      unfold GLTF_Loader.LoadAccessorData
      simp only [hbv, ha, hL]
      cases r <;> rfl
    cases r with
    | undefined => simp [hcall, Outcome.isSuccess] at h0
    | failure => simp [hcall, Outcome.isSuccess] at h0
    | success hit =>
      simp only at hcall
      obtain ⟨hslot1, hviews, _, hdec⟩ := LoadBuffer_success hdk s s1 b hit hL
      have hrefs1 : ∀ x ∈ rest,
          (s1.myBufferViews[x.bufferView]?).map (fun bv => bv.buffer) = some b := by
        intro x hx
        rw [hviews]
        exact hrefs x (List.mem_cons_of_mem _ hx)
      obtain ⟨hstate, hlater⟩ := loadAll_cached hdk b hit.data rest s1 hslot1 hrefs1
      have hnone : ∀ r ∈ (loadAll hdk s1 rest).1, didDecode r = false := by
        intro r hr
        obtain ⟨off, hoff⟩ := hlater r hr
        simp [hoff, didDecode]
      refine ⟨hit.data, ?_, ?_, ?_, ?_, ?_, ?_⟩
      · simp only [hcall, hslot1]
      · simp only [loadAll, hcall, hstate]
      · intro r hr
        simp only [loadAll, hcall] at hr
        rcases List.mem_cons.mp hr with h | h
        · exact ⟨_, _, h⟩
        · obtain ⟨off, hoff⟩ := hlater r h
          exact ⟨off, false, hoff⟩
      · simpa only [hcall] using hnone
      · simp only [hcall, didDecode]
        exact hdec
      · have hfilter : (loadAll hdk s1 rest).1.filter didDecode = [] := by
          rw [List.filter_eq_nil_iff]
          intro r hr
          simp [hnone r hr]
        simp only [decodeCount, loadAll, hcall, List.filter_cons, didDecode, hfilter]
        by_cases hd : hit.decoded = true
        · simp [hd, hdec.mp hd]
        · have hne : ¬ s.myBufferCache[b]? = some none := fun h => hd (hdec.mpr h)
          simp [hd, hne]

set_option maxRecDepth 100000 in
/-- Witness for C8: the two accessors on buffer 0 of the loaded `scene.gltf` of
`oversizedHDK`, whose slot is empty after `Load`. -/
theorem loadAll_decodes_at_most_once_witness :
    ∃ block,
      (GLTF_Loader.LoadAccessorData oversizedHDK oversizedLoaded
        { bufferView := 0, componentType := .GLTF_COMPONENT_FLOAT, count := 1000,
          type := .GLTF_TYPE_VEC3 }).2.myBufferCache[0]? = some (some block) ∧
      (loadAll oversizedHDK oversizedLoaded
        [{ bufferView := 0, componentType := .GLTF_COMPONENT_FLOAT, count := 1000,
           type := .GLTF_TYPE_VEC3 },
         { bufferView := 0, byteOffset := 4, componentType := .GLTF_COMPONENT_UNSIGNED_SHORT,
           count := 2, type := .GLTF_TYPE_SCALAR }]).2 =
        (GLTF_Loader.LoadAccessorData oversizedHDK oversizedLoaded
          { bufferView := 0, componentType := .GLTF_COMPONENT_FLOAT, count := 1000,
            type := .GLTF_TYPE_VEC3 }).2 ∧
      (∀ r ∈ (loadAll oversizedHDK oversizedLoaded
        [{ bufferView := 0, componentType := .GLTF_COMPONENT_FLOAT, count := 1000,
           type := .GLTF_TYPE_VEC3 },
         { bufferView := 0, byteOffset := 4, componentType := .GLTF_COMPONENT_UNSIGNED_SHORT,
           count := 2, type := .GLTF_TYPE_SCALAR }]).1,
        ∃ off d, r = Outcome.success { block := block, offset := off, decoded := d }) ∧
      (∀ r ∈ (loadAll oversizedHDK
          (GLTF_Loader.LoadAccessorData oversizedHDK oversizedLoaded
            { bufferView := 0, componentType := .GLTF_COMPONENT_FLOAT, count := 1000,
              type := .GLTF_TYPE_VEC3 }).2
          [{ bufferView := 0, byteOffset := 4, componentType := .GLTF_COMPONENT_UNSIGNED_SHORT,
             count := 2, type := .GLTF_TYPE_SCALAR }]).1,
        didDecode r = false) ∧
      (didDecode (GLTF_Loader.LoadAccessorData oversizedHDK oversizedLoaded
          { bufferView := 0, componentType := .GLTF_COMPONENT_FLOAT, count := 1000,
            type := .GLTF_TYPE_VEC3 }).1 = true ↔
        oversizedLoaded.myBufferCache[0]? = some none) ∧
      decodeCount (loadAll oversizedHDK oversizedLoaded
        [{ bufferView := 0, componentType := .GLTF_COMPONENT_FLOAT, count := 1000,
           type := .GLTF_TYPE_VEC3 },
         { bufferView := 0, byteOffset := 4, componentType := .GLTF_COMPONENT_UNSIGNED_SHORT,
           count := 2, type := .GLTF_TYPE_SCALAR }]).1 =
        (if oversizedLoaded.myBufferCache[0]? = some none then 1 else 0) :=
  loadAll_decodes_at_most_once oversizedHDK oversizedLoaded 0
    { bufferView := 0, componentType := .GLTF_COMPONENT_FLOAT, count := 1000,
      type := .GLTF_TYPE_VEC3 }
    [{ bufferView := 0, byteOffset := 4, componentType := .GLTF_COMPONENT_UNSIGNED_SHORT,
       count := 2, type := .GLTF_TYPE_SCALAR }]
    (by decide) (by decide)

set_option maxRecDepth 100000 in
/-- C8 (counterexample): after `Load` of `scene.glb` of `embeddedGlbHDK`, before
any accessor is resolved, cache slot 0 already holds the BIN chunk; the first
`LoadAccessorData` on buffer 0 returns it without decoding, and a run of two
calls decodes zero times. -/
theorem LoadAccessorData_never_decodes_staged_chunk :
    (do
      let s ← GLTF_Loader.Load embeddedGlbHDK 0 (GLTF_Loader.create "scene.glb")
      let a0 ← s.getAccessor 0
      let a1 ← s.getAccessor 1
      pure (s.myBufferCache[0]?, (GLTF_Loader.LoadAccessorData embeddedGlbHDK s a0).1,
        decodeCount (loadAll embeddedGlbHDK s [a0, a1]).1)) =
      Outcome.success (some (some [1, 2, 3, 4, 5, 6, 7, 8, 9, 10, 11, 12]),
        Outcome.success { block := [1, 2, 3, 4, 5, 6, 7, 8, 9, 10, 11, 12], offset := 0,
                          decoded := false }, 0) := by
  decide

/-! ## The GLB writer -/

theorem padTo4_length (os : List Nat) (c : Nat) :
    (ROP_GLTF_ExportRoot.padTo4 os c).length = os.length + (4 - os.length % 4) % 4 := by
  simp [ROP_GLTF_ExportRoot.padTo4]

theorem patch_length (os : List Nat) (pos : Nat) (bytes : List Nat)
    (h : pos + bytes.length ≤ os.length) :
    (ROP_GLTF_ExportRoot.patch os pos bytes).length = os.length := by
  simp only [ROP_GLTF_ExportRoot.patch, List.length_append, List.length_take,
    List.length_replicate, List.length_drop]
  omega

theorem writeLE32_length (n : Nat) : (writeLE32 n).length = 4 := rfl

theorem patch_getElem? (os : List Nat) (pos : Nat) (bytes : List Nat) (i : Nat)
    (h : pos + bytes.length ≤ os.length) :
    (ROP_GLTF_ExportRoot.patch os pos bytes)[i]? =
      if i < pos then os[i]? else if i < pos + bytes.length then bytes[i - pos]? else os[i]? := by
  have hz : pos - os.length = 0 := by omega
  simp only [ROP_GLTF_ExportRoot.patch, hz, List.replicate_zero, List.append_nil]
  by_cases h1 : i < pos
  · simp only [h1, if_true]
    rw [List.append_assoc, List.getElem?_append_left (by simp; omega)]
    exact List.getElem?_take_of_lt h1
  · simp only [h1, if_false]
    have hl : (List.take pos os).length = pos := by simp; omega
    rw [List.append_assoc, List.getElem?_append_right (by omega), hl]
    by_cases h2 : i < pos + bytes.length
    · simp only [h2, if_true]
      rw [List.getElem?_append_left (by omega)]
    · simp only [h2, if_false]
      rw [List.getElem?_append_right (by omega), List.getElem?_drop]
      congr 1
      omega

theorem readLE32_drop (l : List Nat) (p : Nat) :
    readLE32 (l.drop p) =
      (l[p]?).getD 0 % 256 + 256 * ((l[p + 1]?).getD 0 % 256) +
        65536 * ((l[p + 2]?).getD 0 % 256) + 16777216 * ((l[p + 3]?).getD 0 % 256) := by
  simp [readLE32, List.getElem?_drop]

/-- Reading back a patched length. -/
theorem readLE32_patch_self (os : List Nat) (pos n : Nat) (h : pos + 4 ≤ os.length) :
    readLE32 ((ROP_GLTF_ExportRoot.patch os pos (writeLE32 n)).drop pos) = n % 4294967296 := by
  rw [readLE32_drop]
  rw [patch_getElem? os pos _ pos (by simpa [writeLE32_length] using h),
    patch_getElem? os pos _ (pos + 1) (by simpa [writeLE32_length] using h),
    patch_getElem? os pos _ (pos + 2) (by simpa [writeLE32_length] using h),
    patch_getElem? os pos _ (pos + 3) (by simpa [writeLE32_length] using h)]
  simp [writeLE32]
  omega

/-- A patch elsewhere leaves a length field as it was. -/
theorem readLE32_patch_other (os : List Nat) (pos p : Nat) (bytes : List Nat)
    (h : pos + bytes.length ≤ os.length) (hd : p + 4 ≤ pos ∨ pos + bytes.length ≤ p) :
    readLE32 ((ROP_GLTF_ExportRoot.patch os pos bytes).drop p) = readLE32 (os.drop p) := by
  rw [readLE32_drop, readLE32_drop]
  rw [patch_getElem? os pos _ p h, patch_getElem? os pos _ (p + 1) h,
    patch_getElem? os pos _ (p + 2) h, patch_getElem? os pos _ (p + 3) h]
  rcases hd with hd | hd
  · have h0 : p < pos := by omega
    have h1 : p + 1 < pos := by omega
    have h2 : p + 2 < pos := by omega
    have h3 : p + 3 < pos := by omega
    simp only [h0, h1, h2, h3, if_true]
  · have h0 : ¬ p < pos := by omega
    have h1 : ¬ p + 1 < pos := by omega
    have h2 : ¬ p + 2 < pos := by omega
    have h3 : ¬ p + 3 < pos := by omega
    have g0 : ¬ p < pos + bytes.length := by omega
    have g1 : ¬ p + 1 < pos + bytes.length := by omega
    have g2 : ¬ p + 2 < pos + bytes.length := by omega
    have g3 : ¬ p + 3 < pos + bytes.length := by omega
    simp only [h0, h1, h2, h3, g0, g1, g2, g3, if_false]

/-- The stream positions behind `writeGLB`: `os4` is the stream after the padded
JSON text, `os7` the stream after the padded buffer bytes. -/
theorem writeGLB_layout (json data : List Nat) (root : ROP_GLTF_ExportRoot) :
    ∃ os4 os7 : List Nat,
      os4 = ROP_GLTF_ExportRoot.padTo4
        (ROP_GLTF_ExportRoot.glbHeader ++ ROP_GLTF_ExportRoot.glbJsonHeader ++ json) 32 ∧
      os7 = ROP_GLTF_ExportRoot.padTo4 (os4 ++ ROP_GLTF_ExportRoot.glbDataHeader ++ data) 0 ∧
      os4.length % 4 = 0 ∧ 20 + json.length ≤ os4.length ∧
      os7.length % 4 = 0 ∧ os4.length + 8 + data.length ≤ os7.length ∧
      (ROP_GLTF_ExportRoot.writeGLB json data root).json_chunk_size =
        (os4.length - 20) % 4294967296 ∧
      (ROP_GLTF_ExportRoot.writeGLB json data root).data_chunk_size =
        (os7.length - os4.length - 8) % 4294967296 ∧
      (ROP_GLTF_ExportRoot.writeGLB json data root).total_size = os7.length % 4294967296 ∧
      (ROP_GLTF_ExportRoot.writeGLB json data root).file =
        ROP_GLTF_ExportRoot.patch
          (ROP_GLTF_ExportRoot.patch
            (ROP_GLTF_ExportRoot.patch os7 8 (writeLE32 (os7.length % 4294967296)))
            12 (writeLE32 ((os4.length - 20) % 4294967296)))
          ((20 + (os4.length - 20) % 4294967296) % 4294967296)
          (writeLE32 ((os7.length - os4.length - 8) % 4294967296)) := by
  refine ⟨ROP_GLTF_ExportRoot.padTo4
      (ROP_GLTF_ExportRoot.glbHeader ++ ROP_GLTF_ExportRoot.glbJsonHeader ++ json) 32,
    ROP_GLTF_ExportRoot.padTo4
      (ROP_GLTF_ExportRoot.padTo4
        (ROP_GLTF_ExportRoot.glbHeader ++ ROP_GLTF_ExportRoot.glbJsonHeader ++ json) 32 ++
        ROP_GLTF_ExportRoot.glbDataHeader ++ data) 0, rfl, rfl, ?_, ?_, ?_, ?_, ?_, ?_, ?_, ?_⟩
  · rw [padTo4_length]; omega
  · rw [padTo4_length]
    simp [ROP_GLTF_ExportRoot.glbHeader, ROP_GLTF_ExportRoot.glbJsonHeader]
    omega
  · rw [padTo4_length]; omega
  · rw [padTo4_length (_ ++ _ ++ data)]
    simp [ROP_GLTF_ExportRoot.glbDataHeader]
    omega
  · have h20 : 20 ≤ (ROP_GLTF_ExportRoot.padTo4
        (ROP_GLTF_ExportRoot.glbHeader ++ ROP_GLTF_ExportRoot.glbJsonHeader ++ json) 32).length := by
      rw [padTo4_length]
      simp [ROP_GLTF_ExportRoot.glbHeader, ROP_GLTF_ExportRoot.glbJsonHeader]
      omega
    simp only [ROP_GLTF_ExportRoot.writeGLB]
    have e20 : (ROP_GLTF_ExportRoot.glbHeader ++ ROP_GLTF_ExportRoot.glbJsonHeader).length
        % 4294967296 = 20 := rfl
    rw [e20]
    omega
  · have h8 : (ROP_GLTF_ExportRoot.padTo4
        (ROP_GLTF_ExportRoot.glbHeader ++ ROP_GLTF_ExportRoot.glbJsonHeader ++ json) 32).length + 8 ≤
        (ROP_GLTF_ExportRoot.padTo4
          (ROP_GLTF_ExportRoot.padTo4
            (ROP_GLTF_ExportRoot.glbHeader ++ ROP_GLTF_ExportRoot.glbJsonHeader ++ json) 32 ++
            ROP_GLTF_ExportRoot.glbDataHeader ++ data) 0).length := by
      rw [padTo4_length (_ ++ _ ++ data)]
      simp [ROP_GLTF_ExportRoot.glbDataHeader]
      omega
    simp only [ROP_GLTF_ExportRoot.writeGLB]
    have e8 : ∀ l : List Nat, (l ++ ROP_GLTF_ExportRoot.glbDataHeader).length = l.length + 8 := by
      intro l
      simp [ROP_GLTF_ExportRoot.glbDataHeader]
    rw [e8]
    omega
  · simp only [ROP_GLTF_ExportRoot.writeGLB]
  · have h20 : 20 ≤ (ROP_GLTF_ExportRoot.padTo4
        (ROP_GLTF_ExportRoot.glbHeader ++ ROP_GLTF_ExportRoot.glbJsonHeader ++ json) 32).length := by
      rw [padTo4_length]
      simp [ROP_GLTF_ExportRoot.glbHeader, ROP_GLTF_ExportRoot.glbJsonHeader]
      omega
    have h8 : (ROP_GLTF_ExportRoot.padTo4
        (ROP_GLTF_ExportRoot.glbHeader ++ ROP_GLTF_ExportRoot.glbJsonHeader ++ json) 32).length + 8 ≤
        (ROP_GLTF_ExportRoot.padTo4
          (ROP_GLTF_ExportRoot.padTo4
            (ROP_GLTF_ExportRoot.glbHeader ++ ROP_GLTF_ExportRoot.glbJsonHeader ++ json) 32 ++
            ROP_GLTF_ExportRoot.glbDataHeader ++ data) 0).length := by
      rw [padTo4_length (_ ++ _ ++ data)]
      simp [ROP_GLTF_ExportRoot.glbDataHeader]
      omega
    have e20 : (ROP_GLTF_ExportRoot.glbHeader ++ ROP_GLTF_ExportRoot.glbJsonHeader).length
        % 4294967296 = 20 := rfl
    have e8 : ∀ l : List Nat, (l ++ ROP_GLTF_ExportRoot.glbDataHeader).length = l.length + 8 := by
      intro l
      simp [ROP_GLTF_ExportRoot.glbDataHeader]
    have hj : ∀ a : Nat, 20 ≤ a →
        (a % 4294967296 + 4294967296 - 20) % 4294967296 = (a - 20) % 4294967296 := by
      intro a ha
      omega
    have hd : ∀ a b : Nat, a + 8 ≤ b →
        (b % 4294967296 + 4294967296 - (a + 8) % 4294967296) % 4294967296 =
          (b - a - 8) % 4294967296 := by
      intro a b hab
      omega
    have hp : ∀ x : Nat, 12 + 8 + x + 0 = 20 + x := by
      intro x
      omega
    simp only [ROP_GLTF_ExportRoot.writeGLB, e20, e8, hj _ h20, hd _ _ h8, hp, Nat.add_zero]

/-- The lengths `writeGLB` patches in: both chunk lengths are multiples of four,
the total is the file size modulo `2 ^ 32`, and below `2 ^ 32` bytes the three
length fields of the file hold the chunk lengths and the file size. -/
theorem writeGLB_lengths (json data : List Nat) (root : ROP_GLTF_ExportRoot) :
    (ROP_GLTF_ExportRoot.writeGLB json data root).json_chunk_size % 4 = 0 ∧
      (ROP_GLTF_ExportRoot.writeGLB json data root).data_chunk_size % 4 = 0 ∧
      (ROP_GLTF_ExportRoot.writeGLB json data root).total_size =
        (ROP_GLTF_ExportRoot.writeGLB json data root).file.length % 4294967296 ∧
      28 + json.length + data.length ≤
        (ROP_GLTF_ExportRoot.writeGLB json data root).file.length ∧
      ((ROP_GLTF_ExportRoot.writeGLB json data root).file.length < 4294967296 →
        (ROP_GLTF_ExportRoot.writeGLB json data root).total_size =
            12 + 8 + (ROP_GLTF_ExportRoot.writeGLB json data root).json_chunk_size + 8 +
              (ROP_GLTF_ExportRoot.writeGLB json data root).data_chunk_size ∧
          (ROP_GLTF_ExportRoot.writeGLB json data root).total_size =
            (ROP_GLTF_ExportRoot.writeGLB json data root).file.length ∧
          readLE32 ((ROP_GLTF_ExportRoot.writeGLB json data root).file.drop 8) =
            (ROP_GLTF_ExportRoot.writeGLB json data root).total_size ∧
          readLE32 ((ROP_GLTF_ExportRoot.writeGLB json data root).file.drop 12) =
            (ROP_GLTF_ExportRoot.writeGLB json data root).json_chunk_size ∧
          readLE32 ((ROP_GLTF_ExportRoot.writeGLB json data root).file.drop
              (12 + 8 + (ROP_GLTF_ExportRoot.writeGLB json data root).json_chunk_size)) =
            (ROP_GLTF_ExportRoot.writeGLB json data root).data_chunk_size) := by
  obtain ⟨os4, os7, _, _, h4, h20, h7, h8, hj, hd, ht, hf⟩ := writeGLB_layout json data root
  have hpos : (20 + (os4.length - 20) % 4294967296) % 4294967296 + 4 ≤ os7.length := by omega
  have l1 : (ROP_GLTF_ExportRoot.patch os7 8 (writeLE32 (os7.length % 4294967296))).length =
      os7.length := patch_length _ _ _ (by rw [writeLE32_length]; omega)
  have l2 : (ROP_GLTF_ExportRoot.patch
      (ROP_GLTF_ExportRoot.patch os7 8 (writeLE32 (os7.length % 4294967296)))
      12 (writeLE32 ((os4.length - 20) % 4294967296))).length = os7.length := by
    rw [patch_length _ _ _ (by rw [writeLE32_length, l1]; omega), l1]
  have l3 : (ROP_GLTF_ExportRoot.writeGLB json data root).file.length = os7.length := by
    rw [hf, patch_length _ _ _ (by rw [writeLE32_length, l2]; omega), l2]
  refine ⟨by omega, by omega, by omega, by omega, ?_⟩
  intro hlt
  rw [l3] at hlt
  have hjv : (os4.length - 20) % 4294967296 = os4.length - 20 := by omega
  have hdv : (os7.length - os4.length - 8) % 4294967296 = os7.length - os4.length - 8 := by
    omega
  have htv : os7.length % 4294967296 = os7.length := by omega
  have hpv : (20 + (os4.length - 20)) % 4294967296 = os4.length := by omega
  refine ⟨by omega, by omega, ?_, ?_, ?_⟩
  · rw [hf, ht, hjv, hdv, htv, hpv]
    rw [htv, hjv] at l2
    rw [htv] at l1
    rw [readLE32_patch_other _ _ 8 _ (by rw [writeLE32_length, l2]; omega)
      (by left; omega)]
    rw [readLE32_patch_other _ _ 8 _ (by rw [writeLE32_length, l1]; omega)
      (by left; omega)]
    rw [readLE32_patch_self _ _ _ (by omega)]
    omega
  · rw [hf, hj, hjv, hdv, htv, hpv]
    rw [htv, hjv] at l2
    rw [htv] at l1
    rw [readLE32_patch_other _ _ 12 _ (by rw [writeLE32_length, l2]; omega)
      (by left; omega)]
    rw [readLE32_patch_self _ _ _ (by rw [l1]; omega)]
    omega
  · rw [hj, hd, hf, hjv, hdv, htv, hpv]
    rw [htv, hjv] at l2
    have e : 12 + 8 + (os4.length - 20) = os4.length := by omega
    rw [e, readLE32_patch_self _ _ _ (by rw [l2]; omega)]
    omega

/-- On success `ExportAsGLB` has written what `writeGLB` writes for some JSON
text and some buffer bytes. -/
theorem ExportAsGLB_success (hdk : HDK) (root : ROP_GLTF_ExportRoot) (path : String)
    (e : ROP_GLTF_ExportRoot.GLBExport)
    (h : ROP_GLTF_ExportRoot.ExportAsGLB hdk root path = Outcome.success e) :
    ∃ json data root2, e = ROP_GLTF_ExportRoot.writeGLB json data root2 := by
  unfold ROP_GLTF_ExportRoot.ExportAsGLB at h
  split at h
  · dsimp only at h
    split at h
    · simp only [Outcome.success.injEq] at h
      exact ⟨_, _, _, h.symm⟩
    · simp at h
    · simp at h
  · simp at h
  · simp at h

/-- C2 (as amended): for every document written by `ExportAsGLB`, the JSON chunk
length and the BIN chunk length it patches in are multiples of 4 and the total
length it patches in is the file size modulo `2 ^ 32`; when the written file is
shorter than `2 ^ 32` bytes, the total length at byte offset 8 equals
`12 + 8 + jsonChunkLength + 8 + binChunkLength`, which is the size of the
written file, and the chunk lengths stand at offsets 12 and
`20 + jsonChunkLength`. -/
theorem ExportAsGLB_chunk_lengths (hdk : HDK) (root : ROP_GLTF_ExportRoot) (path : String)
    (e : ROP_GLTF_ExportRoot.GLBExport)
    (h : ROP_GLTF_ExportRoot.ExportAsGLB hdk root path = Outcome.success e) :
    e.json_chunk_size % 4 = 0 ∧ e.data_chunk_size % 4 = 0 ∧
      e.total_size = e.file.length % 4294967296 ∧
      (e.file.length < 4294967296 →
        e.total_size = 12 + 8 + e.json_chunk_size + 8 + e.data_chunk_size ∧
          e.total_size = e.file.length ∧
          readLE32 (e.file.drop 8) = e.total_size ∧
          readLE32 (e.file.drop 12) = e.json_chunk_size ∧
          readLE32 (e.file.drop (12 + 8 + e.json_chunk_size)) = e.data_chunk_size) := by
  obtain ⟨json, data, root2, rfl⟩ := ExportAsGLB_success hdk root path e h
  obtain ⟨h1, h2, h3, _, h5⟩ := writeGLB_lengths json data root2
  exact ⟨h1, h2, h3, h5⟩

/-- On success the buffer bytes `ExportAsGLB` writes are the staged bytes of
buffer 0, and the JSON text is the writer's text of `SerializeJSON` after the
pre-passes. -/
theorem ExportAsGLB_success_data (hdk : HDK) (root : ROP_GLTF_ExportRoot) (path : String)
    (e : ROP_GLTF_ExportRoot.GLBExport)
    (h : ROP_GLTF_ExportRoot.ExportAsGLB hdk root path = Outcome.success e) :
    ∃ data root1, root.myBufferData[0]? = some data ∧
      root.ResolveBufferLengths = Outcome.success root1 ∧
      e = ROP_GLTF_ExportRoot.writeGLB
        (hdk.jsonWrite (root1.ConvertAbsolutePaths (dirPart path)).SerializeJSON) data
        (root1.ConvertAbsolutePaths (dirPart path)) := by
  unfold ROP_GLTF_ExportRoot.ExportAsGLB at h
  split at h
  · next root1 hres =>
    dsimp only at h
    split at h
    · next data hout =>
      simp only [Outcome.success.injEq] at h
      refine ⟨data, root1, ?_, hres, h.symm⟩
      have hdata : root1.myBufferData = root.myBufferData := by
        unfold ROP_GLTF_ExportRoot.ResolveBufferLengths at hres
        split at hres
        · simp only [Outcome.success.injEq] at hres
          rw [← hres]
        · simp at hres
      unfold ROP_GLTF_ExportRoot.OutputGLBBuffer at hout
      simp only [ROP_GLTF_ExportRoot.ConvertAbsolutePaths, hdata] at hout
      split at hout
      · next d hd =>
        simp only [Outcome.success.injEq] at hout
        rw [hd, hout]
      · simp at hout
    · simp at h
    · simp at h
  · simp at h
  · simp at h

set_option maxRecDepth 100000 in
/-- Witness for C2: the GLB written for `triangleRoot`, a file shorter than
`2 ^ 32` bytes. -/
theorem ExportAsGLB_chunk_lengths_witness :
    ∃ e, ROP_GLTF_ExportRoot.ExportAsGLB (referenceHDK assetOnlyDoc []) triangleRoot
        "out/triangle.glb" = Outcome.success e ∧
      e.file.length < 4294967296 ∧
      e.json_chunk_size % 4 = 0 ∧ e.data_chunk_size % 4 = 0 ∧
      e.total_size = e.file.length % 4294967296 ∧
      e.total_size = 12 + 8 + e.json_chunk_size + 8 + e.data_chunk_size ∧
      e.total_size = e.file.length ∧
      readLE32 (e.file.drop 8) = e.total_size ∧
      readLE32 (e.file.drop 12) = e.json_chunk_size ∧
      readLE32 (e.file.drop (12 + 8 + e.json_chunk_size)) = e.data_chunk_size :=
  have h := ExportAsGLB_chunk_lengths (referenceHDK assetOnlyDoc []) triangleRoot
    "out/triangle.glb" _ rfl
  ⟨_, rfl, by decide, h.1, h.2.1, h.2.2.1, h.2.2.2 (by decide)⟩

/-- C2 (counterexample): buffer 0 of `hugeRoot` has `2 ^ 32 - 28` staged bytes, so
the file `ExportAsGLB` writes is at least `2 ^ 32` bytes long, while the total
length it patches in at offset 8 is a `uint32`: the two differ. -/
theorem ExportAsGLB_total_length_wraps :
    ∃ e, ROP_GLTF_ExportRoot.ExportAsGLB (referenceHDK assetOnlyDoc []) hugeRoot
        "out/huge.glb" = Outcome.success e ∧
      4294967296 ≤ e.file.length ∧ e.total_size < 4294967296 ∧
      e.total_size ≠ e.file.length := by
  have hex : ∃ e, ROP_GLTF_ExportRoot.ExportAsGLB (referenceHDK assetOnlyDoc []) hugeRoot
      "out/huge.glb" = Outcome.success e := ⟨_, rfl⟩
  obtain ⟨e, he⟩ := hex
  refine ⟨e, he, ?_⟩
  obtain ⟨data, root1, hdata, _, rfl⟩ := ExportAsGLB_success_data _ _ _ _ he
  have hd : hugeRoot.myBufferData[0]? = some (List.replicate 4294967268 0) := rfl
  rw [hd] at hdata
  have hlen : data.length = 4294967268 := by
    rw [← Option.some.inj hdata, List.length_replicate]
  obtain ⟨_, _, h3, h4, _⟩ := writeGLB_lengths
    ((referenceHDK assetOnlyDoc []).jsonWrite
      (root1.ConvertAbsolutePaths (dirPart "out/huge.glb")).SerializeJSON) data
    (root1.ConvertAbsolutePaths (dirPart "out/huge.glb"))
  omega

/-! ## Reading back what the serializer wrote -/

theorem toUInt32_cast (n : Nat) (h : n < 4294967296) : toUInt32 (n : Int) = n := by
  unfold toUInt32
  omega

@[simp] theorem Outcome.bind_success {α β : Type} (a : α) (f : α → Outcome β) :
    (Outcome.success a >>= f) = f a := rfl

@[simp] theorem Outcome.bind_failure {α β : Type} (f : α → Outcome β) :
    (Outcome.failure >>= f) = Outcome.failure := rfl

@[simp] theorem Outcome.pure_eq {α : Type} (a : α) :
    (pure a : Outcome α) = Outcome.success a := rfl

theorem toUInt32_componentType (c : GLTF_ComponentType) :
    toUInt32 (c.toNat : Int) = c.toNat := by
  cases c <;> rfl

theorem ConvertToComponentType_toNat (c : GLTF_ComponentType) :
    ConvertToComponentType c.toNat = c := by
  cases c <;> decide

theorem ConvertStringTogltf_type_typeGetName (t : GLTF_Type) :
    ConvertStringTogltf_type ((GLTF_Util.typeGetName t).getD "") = t := by
  cases t <;> decide

theorem ReadAccessor_serializeAccessor (s : GLTF_Loader) (a : GLTF_Accessor) (idx : Nat)
    (h : AccessorRoundTrips a) (m : UT_JSONValueMap)
    (hm : ROP_GLTF_ExportRoot.serializeAccessor a = .JSON_MAP m) :
    GLTF_Loader.ReadAccessor s m idx =
      Outcome.success { s with myAccesors := s.myAccesors ++ [a] } := by
  simp only [ROP_GLTF_ExportRoot.serializeAccessor, UT_JSONValue.JSON_MAP.injEq] at hm
  subst hm
  obtain ⟨bv, bo, ct, nz, cnt, ty, mx, mn, nm⟩ := a
  obtain ⟨h1, h2, h3, h4, h5, h6, h7⟩ := h
  simp only at h1 h2 h3 h4 h5 h6 h7
  subst h5 h6 h7
  have ht := ConvertStringTogltf_type_typeGetName ty
  have hc := ConvertToComponentType_toNat ct
  unfold GLTF_Loader.ReadAccessor
  simp only [getKey, List.lookup_append, OutputDefaultInt, OutputInt, OutputDefaultBool,
    OutputBool, OutputString, List.length_nil, gt_iff_lt, Nat.lt_irrefl, if_false,
    List.append_nil]
  by_cases c1 : bv = GLTF_INVALID_IDX <;> by_cases c2 : bo = 0 <;> cases nz <;>
    cases hty : GLTF_Util.typeGetName ty <;>
    simp [c1, c2, hty, List.lookup, ParseAsInteger, ParseAsBool, ParseAsString,
      Outcome.ofOption, toUInt32_cast, toUInt32_componentType, h1, h2, h3, hc, h4] <;>
    simp_all

theorem ReadBufferView_serializeBufferView (root : ROP_GLTF_ExportRoot) (s : GLTF_Loader)
    (bv : GLTF_BufferView) (idx : Nat)
    (h : BufferViewRoundTrips root.mySettings.exportNames s.myBuffers.length bv)
    (m : UT_JSONValueMap) (hm : root.serializeBufferView bv = .JSON_MAP m) :
    GLTF_Loader.ReadBufferView s m idx =
      Outcome.success { s with myBufferViews := s.myBufferViews ++ [bv] } := by
  simp only [ROP_GLTF_ExportRoot.serializeBufferView, UT_JSONValue.JSON_MAP.injEq] at hm
  subst hm
  obtain ⟨b, bo, bl, bs, tg, nm⟩ := bv
  obtain ⟨h1, h1', h2, h3, h4, h5, h6, h7⟩ := h
  simp only [GLTF_BUFFER_INVALID] at h1 h1' h2 h3 h4 h5 h6 h7
  have hnb : ¬ (s.myBuffers.length ≤ b) := by omega
  unfold GLTF_Loader.ReadBufferView
  simp only [getKey, List.lookup_append, OutputDefaultInt, OutputInt,
    ROP_GLTF_ExportRoot.OutputName, OutputDefaultString, GLTF_BUFFER_INVALID]
  by_cases c2 : bo = 0 <;> by_cases c3 : bs = 0 <;> by_cases c4 : nm = "" <;>
    rcases h7 with h7 | h7 <;>
    simp [c2, c3, c4, h5, h7, List.lookup, ParseAsInteger, ParseAsString, Outcome.ofOption,
      toUInt32_cast, h1', h2, h3, h4, h6, hnb, GLTF_BUFFER_ARRAY]

theorem lookup_attributes (attrs : List (String × Nat)) (k : String) :
    List.lookup k (attrs.map (fun attrib => (attrib.1, UT_JSONValue.JSON_INT (attrib.2 : Int)))) =
      (List.lookup k attrs).map (fun v => UT_JSONValue.JSON_INT (v : Int)) := by
  induction attrs with
  | nil => rfl
  | cons a rest ih =>
    obtain ⟨k1, v1⟩ := a
    simp only [List.map_cons, List.lookup_cons]
    cases h : (k == k1) <;> simp [ih]

theorem lookup_eq_none_of_not_mem (attrs : List (String × Nat)) (k : String)
    (h : k ∉ attrs.map Prod.fst) : List.lookup k attrs = none := by
  induction attrs with
  | nil => rfl
  | cons a rest ih =>
    obtain ⟨k1, v1⟩ := a
    simp only [List.map_cons, List.mem_cons, not_or] at h
    simp only [List.lookup_cons]
    have : (k == k1) = false := by simpa using h.1
    simp [this, ih h.2]

/-- The attribute loop rebuilds a map with pairwise different keys entry by entry. -/
theorem readAttributes_roundtrip (suf : List (String × Nat)) :
    ∀ (pre : List (String × Nat)),
      ((pre ++ suf).map Prod.fst).Nodup →
      (∀ kv ∈ pre ++ suf, kv.2 < 4294967296) →
      GLTF_Loader.readAttributes
        ((pre ++ suf).map (fun attrib => (attrib.1, UT_JSONValue.JSON_INT (attrib.2 : Int))))
        (suf.map Prod.fst) pre = some (pre ++ suf) := by
  induction suf with
  | nil =>
    intro pre _ _
    simp [GLTF_Loader.readAttributes]
  | cons a rest ih =>
    intro pre hnd hlt
    obtain ⟨k, v⟩ := a
    have hv : v < 4294967296 := hlt (k, v) (by simp)
    have hnd' := hnd
    simp only [List.map_append, List.map_cons, List.nodup_append, List.nodup_cons] at hnd'
    obtain ⟨hpre, ⟨hk, hrest⟩, hdis⟩ := hnd'
    have hkpre : k ∉ pre.map Prod.fst := by
      intro hmem
      exact hdis hmem (List.mem_cons_self _ _)
    have hlook : List.lookup k (pre ++ (k, v) :: rest) = some v := by
      rw [List.lookup_append, lookup_eq_none_of_not_mem pre k hkpre]
      simp [List.lookup_cons]
    have hget : getKey ((pre ++ (k, v) :: rest).map
        (fun attrib => (attrib.1, UT_JSONValue.JSON_INT (attrib.2 : Int)))) k =
        some (UT_JSONValue.JSON_INT (v : Int)) := by
      rw [getKey, lookup_attributes, hlook]
      rfl
    have e : pre ++ (k, v) :: rest = (pre ++ [(k, v)]) ++ rest := by simp
    have hrec := ih (pre ++ [(k, v)]) (by rw [← e]; exact hnd) (by rw [← e]; exact hlt)
    rw [← e] at hrec
    simp only [List.map_cons, GLTF_Loader.readAttributes, hget, ParseAsInteger,
      toUInt32_cast v hv, GLTF_Loader.stringMapInsert, lookup_eq_none_of_not_mem pre k hkpre,
      Option.isSome_none, Bool.false_eq_true, if_false]
    exact hrec

theorem ReadPrimitive_serializePrimitive (p : GLTF_Primitive) (h : PrimitiveRoundTrips p) :
    GLTF_Loader.ReadPrimitive (ROP_GLTF_ExportRoot.serializePrimitive p) {} =
      Outcome.success p := by
  obtain ⟨attrs, ind, mat, mode⟩ := p
  obtain ⟨h1, h2, h3, h4, h5⟩ := h
  simp only at h1 h2 h3 h4 h5
  have hattr := readAttributes_roundtrip attrs [] (by simpa using h4) (by simpa using h5)
  simp only [List.nil_append] at hattr
  have hkeys : List.map (Prod.fst ∘ fun attrib : String × Nat =>
      (attrib.1, UT_JSONValue.JSON_INT (attrib.2 : Int))) attrs = attrs.map Prod.fst :=
    List.map_congr_left (fun _ _ => rfl)
  unfold GLTF_Loader.ReadPrimitive ROP_GLTF_ExportRoot.serializePrimitive
  simp only [getKey, List.lookup_append, OutputDefaultInt, OutputInt, List.lookup_cons,
    beq_self_eq_true, List.map_map, hkeys, hattr, Outcome.ofOption, Outcome.bind_success]
  by_cases c1 : ind = GLTF_INVALID_IDX <;> by_cases c2 : mat = GLTF_INVALID_IDX <;>
    cases mode <;>
    simp [c1, c2, List.lookup, ParseAsInteger, Outcome.ofOption, toUInt32_cast, h1, h2,
      GLTF_RenderMode.toNat, ConvertToRenderMode, toUInt32, hkeys, hattr] at h3 ⊢ <;>
    omega

open GLTF_Loader ROP_GLTF_ExportRoot

theorem readPrimitives_roundtrip (ps : List GLTF_Primitive)
    (h : ∀ p ∈ ps, PrimitiveRoundTrips p) :
    readPrimitives (ps.map serializePrimitive) = Outcome.success ps := by
  induction ps with
  | nil => rfl
  | cons p rest ih =>
    simp only [List.map_cons, readPrimitives,
      ReadPrimitive_serializePrimitive p (h p (List.mem_cons_self _ _)),
      ih (fun q hq => h q (List.mem_cons_of_mem _ hq))]

theorem ReadMesh_serializeMesh (root : ROP_GLTF_ExportRoot) (s : GLTF_Loader) (mesh : GLTF_Mesh)
    (idx : Nat) (h : MeshRoundTrips root.mySettings.exportNames mesh)
    (m : UT_JSONValueMap) (hm : root.serializeMesh mesh = .JSON_MAP m) :
    ReadMesh s m idx = Outcome.success { s with myMeshes := s.myMeshes ++ [mesh] } := by
  simp only [serializeMesh, UT_JSONValue.JSON_MAP.injEq] at hm
  subst hm
  obtain ⟨prims, nm⟩ := mesh
  obtain ⟨h1, h2⟩ := h
  simp only at h1 h2
  unfold ReadMesh
  simp only [getKey, List.lookup_append, List.lookup_cons, beq_self_eq_true, SerializePrimitives,
    readPrimitives_roundtrip prims h1, OutputName, OutputDefaultString]
  by_cases c : nm = "" <;> rcases h2 with h2 | h2 <;>
    simp [c, h2, List.lookup, ParseAsString, Outcome.ofOption,
      readPrimitives_roundtrip prims h1]

theorem ReadMaterial_serializeMaterial (root : ROP_GLTF_ExportRoot) (s : GLTF_Loader)
    (mat : GLTF_Material) (idx : Nat) (h : MaterialRoundTrips root.mySettings.exportNames mat)
    (m : UT_JSONValueMap) (hm : root.serializeMaterial mat = .JSON_MAP m) :
    ReadMaterial s m idx = Outcome.success { s with myMaterials := s.myMaterials ++ [mat] } := by
  simp only [serializeMaterial, UT_JSONValue.JSON_MAP.injEq] at hm
  subst hm
  obtain ⟨h1, h2, h3⟩ := h
  rw [h3]
  unfold ReadMaterial
  simp [getKey, OutputName, OutputDefaultString, h1, h2, OutputDefaultVector3, OutputDefaultReal,
    List.lookup, ParseAsString, Outcome.ofOption]

theorem ReadBuffer_serializeBuffer (root : ROP_GLTF_ExportRoot) (s : GLTF_Loader)
    (buffer : GLTF_Buffer) (idx : Nat)
    (m : UT_JSONValueMap) (hm : root.serializeBuffer buffer = .JSON_MAP m) :
    ∃ b, ReadBuffer s m idx = Outcome.success { s with myBuffers := s.myBuffers ++ [b] } := by
  simp only [serializeBuffer, UT_JSONValue.JSON_MAP.injEq] at hm
  subst hm
  unfold ReadBuffer
  simp only [getKey, List.lookup_append, OutputDefaultString, OutputInt, OutputName]
  by_cases c1 : buffer.myURI = "" <;> by_cases c2 : buffer.name = "" <;>
    cases root.mySettings.exportNames <;>
    simp [c1, c2, List.lookup, ParseAsInteger, ParseAsString, Outcome.ofOption]

theorem ReadTexture_serializeTexture (root : ROP_GLTF_ExportRoot) (s : GLTF_Loader)
    (texture : GLTF_Texture) (idx : Nat)
    (m : UT_JSONValueMap) (hm : root.serializeTexture texture = .JSON_MAP m) :
    ∃ t, ReadTexture s m idx = Outcome.success { s with myTextures := s.myTextures ++ [t] } := by
  simp only [serializeTexture, UT_JSONValue.JSON_MAP.injEq] at hm
  subst hm
  unfold ReadTexture
  simp only [getKey, List.lookup_append, OutputDefaultString, OutputDefaultInt, OutputInt,
    OutputName]
  by_cases c1 : texture.sampler = GLTF_INVALID_IDX <;>
    by_cases c2 : texture.source = GLTF_INVALID_IDX <;> by_cases c3 : texture.name = "" <;>
    cases root.mySettings.exportNames <;>
    simp [c1, c2, c3, List.lookup, ParseAsInteger, ParseAsString, Outcome.ofOption]

theorem ReadImage_serializeImage (root : ROP_GLTF_ExportRoot) (s : GLTF_Loader)
    (image : GLTF_Image) (idx : Nat)
    (m : UT_JSONValueMap) (hm : root.serializeImage image = .JSON_MAP m) :
    ∃ t, ReadImage s m idx = Outcome.success { s with myImages := s.myImages ++ [t] } := by
  simp only [serializeImage, UT_JSONValue.JSON_MAP.injEq] at hm
  subst hm
  unfold ReadImage
  simp only [getKey, List.lookup_append, OutputDefaultString, OutputDefaultInt, OutputInt,
    OutputName]
  by_cases c1 : image.uri = "" <;> by_cases c2 : image.mimeType = "" <;>
    by_cases c3 : image.bufferView = GLTF_INVALID_IDX <;> by_cases c4 : image.name = "" <;>
    cases root.mySettings.exportNames <;>
    simp [c1, c2, c3, c4, List.lookup, ParseAsInteger, ParseAsString, Outcome.ofOption]

theorem ReadScene_serializeScene (root : ROP_GLTF_ExportRoot) (junk : Nat) (s : GLTF_Loader)
    (scene : GLTF_Scene) (idx : Nat)
    (m : UT_JSONValueMap) (hm : root.serializeScene scene = .JSON_MAP m) :
    ∃ t, ReadScene junk s m idx = Outcome.success { s with myScenes := s.myScenes ++ [t] } := by
  simp only [serializeScene, UT_JSONValue.JSON_MAP.injEq] at hm
  subst hm
  unfold ReadScene
  simp only [getKey, List.lookup_append, OutputDefaultString, OutputName]
  by_cases c1 : scene.nodes.length > 0 <;> by_cases c2 : scene.name = "" <;>
    cases root.mySettings.exportNames <;>
    simp [c1, c2, List.lookup, ParseAsString, Outcome.ofOption]

theorem parseFloats_map_real (f : Nat → fpreal) (l : List Nat) :
    parseFloats (l.map (fun i => UT_JSONValue.JSON_REAL (f i))) = some (l.map f) := by
  induction l with
  | nil => rfl
  | cons x rest ih => simp [parseFloats, ih]

theorem ReadNode_serializeNode (root : ROP_GLTF_ExportRoot) (junk : Nat) (s : GLTF_Loader)
    (node : GLTF_Node) (idx : Nat)
    (m : UT_JSONValueMap) (hm : root.serializeNode node = .JSON_MAP m) :
    ∃ t, ReadNode junk s m idx = Outcome.success { s with myNodes := s.myNodes ++ [t] } := by
  simp only [serializeNode, UT_JSONValue.JSON_MAP.injEq] at hm
  subst hm
  unfold ReadNode
  simp only [getKey, List.lookup_append, OutputDefaultString, OutputDefaultInt, OutputInt,
    OutputName]
  by_cases c1 : node.children.length > 0 <;> by_cases c2 : node.matrix ≠ identityMatrix <;>
    by_cases c3 : node.name = "" <;> by_cases c4 : node.mesh = GLTF_INVALID_IDX <;>
    cases root.mySettings.exportNames <;>
    simp [c1, c2, c3, c4, List.lookup, ParseAsInteger, ParseAsString, ParseAsFloatMat,
      ParseAsFloatVec, Outcome.ofOption, parseFloats_map_real]

/-- The element loop over serialized entities whose reader appends exactly the
entity that was written. -/
theorem readMaps_exact {α : Type}
    (func : GLTF_Loader → UT_JSONValueMap → Nat → Outcome GLTF_Loader)
    (ser : α → UT_JSONValue) (upd : GLTF_Loader → List α → GLTF_Loader)
    (P : GLTF_Loader → α → Prop)
    (hnil : ∀ s, upd s [] = s)
    (happ : ∀ s l1 l2, upd (upd s l1) l2 = upd s (l1 ++ l2))
    (hP : ∀ s l x, P s x → P (upd s l) x)
    (hstep : ∀ s x i, P s x → ∃ m, ser x = .JSON_MAP m ∧ func s m i = Outcome.success (upd s [x]))
    (xs : List α) :
    ∀ (s : GLTF_Loader) (i : Nat), (∀ x ∈ xs, P s x) →
      readMaps func (xs.map ser) i s = Outcome.success (upd s xs) := by
  induction xs with
  | nil =>
    intro s i _
    simp [readMaps, hnil]
  | cons x rest ih =>
    intro s i h
    obtain ⟨m, hm, hf⟩ := hstep s x i (h x (List.mem_cons_self _ _))
    have hrest := ih (upd s [x]) (i + 1)
      (fun y hy => hP s [x] y (h y (List.mem_cons_of_mem _ hy)))
    simp only [List.map_cons, hm, readMaps, hf, hrest, happ, List.singleton_append]

/-- The element loop over serialized entities whose reader appends some entity
for each one written. -/
theorem readMaps_some {α β : Type}
    (func : GLTF_Loader → UT_JSONValueMap → Nat → Outcome GLTF_Loader)
    (ser : α → UT_JSONValue) (upd : GLTF_Loader → List β → GLTF_Loader)
    (hnil : ∀ s, upd s [] = s)
    (happ : ∀ s l1 l2, upd (upd s l1) l2 = upd s (l1 ++ l2))
    (hstep : ∀ s x i, ∃ m b, ser x = .JSON_MAP m ∧ func s m i = Outcome.success (upd s [b]))
    (xs : List α) :
    ∀ (s : GLTF_Loader) (i : Nat),
      ∃ bs : List β, bs.length = xs.length ∧
        readMaps func (xs.map ser) i s = Outcome.success (upd s bs) := by
  induction xs with
  | nil =>
    intro s i
    exact ⟨[], rfl, by simp [readMaps, hnil]⟩
  | cons x rest ih =>
    intro s i
    obtain ⟨m, b, hm, hf⟩ := hstep s x i
    obtain ⟨bs, hlen, hrest⟩ := ih (upd s [b]) (i + 1)
    refine ⟨b :: bs, by simp [hlen], ?_⟩
    simp only [List.map_cons, hm, readMaps, hf, hrest, happ, List.singleton_append]

/-- `ReadArrayOfMaps` on the value of a key the serializer writes only for a
nonempty array. -/
theorem ReadArrayOfMaps_optional
    (func : GLTF_Loader → UT_JSONValueMap → Nat → Outcome GLTF_Loader)
    (c : Prop) [Decidable c] (elems : List UT_JSONValue) (s : GLTF_Loader) (hc : c → elems = []) :
    ReadArrayOfMaps (if c then none else some (.JSON_ARRAY elems)) false func s =
      readMaps func elems 0 s := by
  by_cases h : c
  · simp [h, hc h, ReadArrayOfMaps, readMaps]
  · simp [h, ReadArrayOfMaps]

theorem lookup_optional (k k1 : String) (c : Prop) [Decidable c] (v : UT_JSONValue) :
    List.lookup k (if c then [] else [(k1, v)]) =
      if k = k1 then (if c then none else some v) else none := by
  by_cases h : c <;> by_cases hk : k = k1
  · simp [h, hk]
  · simp [h, hk]
  · simp [h, hk, List.lookup]
  · have hb : (k == k1) = false := by simpa using hk
    simp [h, hk, List.lookup, hb]


theorem readMaps_accessors (xs : List GLTF_Accessor) (s : GLTF_Loader) (i : Nat)
    (h : ∀ a ∈ xs, AccessorRoundTrips a) :
    readMaps ReadAccessor (xs.map serializeAccessor) i s =
      Outcome.success { s with myAccesors := s.myAccesors ++ xs } :=
  readMaps_exact ReadAccessor serializeAccessor
    (fun s l => { s with myAccesors := s.myAccesors ++ l }) (fun _ a => AccessorRoundTrips a)
    (fun s => by simp) (fun s l1 l2 => by simp) (fun _ _ _ hx => hx)
    (fun s x i hx => ⟨_, rfl, ReadAccessor_serializeAccessor s x i hx _ rfl⟩) xs s i h

theorem readMaps_bufferViews (root : ROP_GLTF_ExportRoot) (xs : List GLTF_BufferView)
    (s : GLTF_Loader) (i : Nat)
    (h : ∀ bv ∈ xs, BufferViewRoundTrips root.mySettings.exportNames s.myBuffers.length bv) :
    readMaps ReadBufferView (xs.map root.serializeBufferView) i s =
      Outcome.success { s with myBufferViews := s.myBufferViews ++ xs } :=
  readMaps_exact ReadBufferView root.serializeBufferView
    (fun s l => { s with myBufferViews := s.myBufferViews ++ l })
    (fun s bv => BufferViewRoundTrips root.mySettings.exportNames s.myBuffers.length bv)
    (fun s => by simp) (fun s l1 l2 => by simp) (fun _ _ _ hx => hx)
    (fun s x i hx => ⟨_, rfl, ReadBufferView_serializeBufferView root s x i hx _ rfl⟩) xs s i h

theorem readMaps_meshes (root : ROP_GLTF_ExportRoot) (xs : List GLTF_Mesh)
    (s : GLTF_Loader) (i : Nat)
    (h : ∀ mesh ∈ xs, MeshRoundTrips root.mySettings.exportNames mesh) :
    readMaps ReadMesh (xs.map root.serializeMesh) i s =
      Outcome.success { s with myMeshes := s.myMeshes ++ xs } :=
  readMaps_exact ReadMesh root.serializeMesh
    (fun s l => { s with myMeshes := s.myMeshes ++ l })
    (fun _ mesh => MeshRoundTrips root.mySettings.exportNames mesh)
    (fun s => by simp) (fun s l1 l2 => by simp) (fun _ _ _ hx => hx)
    (fun s x i hx => ⟨_, rfl, ReadMesh_serializeMesh root s x i hx _ rfl⟩) xs s i h

theorem readMaps_materials (root : ROP_GLTF_ExportRoot) (xs : List GLTF_Material)
    (s : GLTF_Loader) (i : Nat)
    (h : ∀ mat ∈ xs, MaterialRoundTrips root.mySettings.exportNames mat) :
    readMaps ReadMaterial (xs.map root.serializeMaterial) i s =
      Outcome.success { s with myMaterials := s.myMaterials ++ xs } :=
  readMaps_exact ReadMaterial root.serializeMaterial
    (fun s l => { s with myMaterials := s.myMaterials ++ l })
    (fun _ mat => MaterialRoundTrips root.mySettings.exportNames mat)
    (fun s => by simp) (fun s l1 l2 => by simp) (fun _ _ _ hx => hx)
    (fun s x i hx => ⟨_, rfl, ReadMaterial_serializeMaterial root s x i hx _ rfl⟩) xs s i h

theorem readMaps_buffers (root : ROP_GLTF_ExportRoot) (xs : List GLTF_Buffer)
    (s : GLTF_Loader) (i : Nat) :
    ∃ bs : List GLTF_Buffer, bs.length = xs.length ∧
      readMaps ReadBuffer (xs.map root.serializeBuffer) i s =
        Outcome.success { s with myBuffers := s.myBuffers ++ bs } :=
  readMaps_some ReadBuffer root.serializeBuffer
    (fun s l => { s with myBuffers := s.myBuffers ++ l })
    (fun s => by simp) (fun s l1 l2 => by simp)
    (fun s x i => by
      obtain ⟨b, hb⟩ := ReadBuffer_serializeBuffer root s x i _ rfl
      exact ⟨_, b, rfl, hb⟩) xs s i

theorem readMaps_nodes (root : ROP_GLTF_ExportRoot) (junk : Nat) (xs : List GLTF_Node)
    (s : GLTF_Loader) (i : Nat) :
    ∃ bs : List GLTF_Node, bs.length = xs.length ∧
      readMaps (ReadNode junk) (xs.map root.serializeNode) i s =
        Outcome.success { s with myNodes := s.myNodes ++ bs } :=
  readMaps_some (ReadNode junk) root.serializeNode
    (fun s l => { s with myNodes := s.myNodes ++ l })
    (fun s => by simp) (fun s l1 l2 => by simp)
    (fun s x i => by
      obtain ⟨b, hb⟩ := ReadNode_serializeNode root junk s x i _ rfl
      exact ⟨_, b, rfl, hb⟩) xs s i

theorem readMaps_textures (root : ROP_GLTF_ExportRoot) (xs : List GLTF_Texture)
    (s : GLTF_Loader) (i : Nat) :
    ∃ bs : List GLTF_Texture, bs.length = xs.length ∧
      readMaps ReadTexture (xs.map root.serializeTexture) i s =
        Outcome.success { s with myTextures := s.myTextures ++ bs } :=
  readMaps_some ReadTexture root.serializeTexture
    (fun s l => { s with myTextures := s.myTextures ++ l })
    (fun s => by simp) (fun s l1 l2 => by simp)
    (fun s x i => by
      obtain ⟨b, hb⟩ := ReadTexture_serializeTexture root s x i _ rfl
      exact ⟨_, b, rfl, hb⟩) xs s i

theorem readMaps_images (root : ROP_GLTF_ExportRoot) (xs : List GLTF_Image)
    (s : GLTF_Loader) (i : Nat) :
    ∃ bs : List GLTF_Image, bs.length = xs.length ∧
      readMaps ReadImage (xs.map root.serializeImage) i s =
        Outcome.success { s with myImages := s.myImages ++ bs } :=
  readMaps_some ReadImage root.serializeImage
    (fun s l => { s with myImages := s.myImages ++ l })
    (fun s => by simp) (fun s l1 l2 => by simp)
    (fun s x i => by
      obtain ⟨b, hb⟩ := ReadImage_serializeImage root s x i _ rfl
      exact ⟨_, b, rfl, hb⟩) xs s i

theorem readMaps_scenes (root : ROP_GLTF_ExportRoot) (junk : Nat) (xs : List GLTF_Scene)
    (s : GLTF_Loader) (i : Nat) :
    ∃ bs : List GLTF_Scene, bs.length = xs.length ∧
      readMaps (ReadScene junk) (xs.map root.serializeScene) i s =
        Outcome.success { s with myScenes := s.myScenes ++ bs } :=
  readMaps_some (ReadScene junk) root.serializeScene
    (fun s l => { s with myScenes := s.myScenes ++ l })
    (fun s => by simp) (fun s l1 l2 => by simp)
    (fun s x i => by
      obtain ⟨b, hb⟩ := ReadScene_serializeScene root junk s x i _ rfl
      exact ⟨_, b, rfl, hb⟩) xs s i

theorem ReadArrayOfMaps_optional_map {α : Type}
    (func : GLTF_Loader → UT_JSONValueMap → Nat → Outcome GLTF_Loader)
    (l : List α) (f : α → UT_JSONValue) (s : GLTF_Loader) :
    ReadArrayOfMaps (if l.length = 0 then none else some (.JSON_ARRAY (l.map f))) false func s =
      readMaps func (l.map f) 0 s := by
  cases l with
  | nil => simp [ReadArrayOfMaps, readMaps]
  | cons a r => simp [ReadArrayOfMaps]

theorem length_zero_map_nil {α β : Type} (l : List α) (f : α → β) (h : l.length = 0) :
    l.map f = [] := by
  cases l with
  | nil => rfl
  | cons a r => simp at h

/-- The JSON reader on what `SerializeJSON` wrote for a document whose entities
all round trip. -/
theorem ReadJSON_SerializeJSON (root : ROP_GLTF_ExportRoot) (junk : Nat) (s : GLTF_Loader)
    (hs : s.myAccesors = [] ∧ s.myBuffers = [] ∧ s.myBufferViews = [] ∧ s.myMeshes = [] ∧
      s.myMaterials = [])
    (hA : ∀ a ∈ root.myLoader.myAccesors, AccessorRoundTrips a)
    (hV : ∀ bv ∈ root.myLoader.myBufferViews,
      BufferViewRoundTrips root.mySettings.exportNames root.myLoader.myBuffers.length bv)
    (hM : ∀ mesh ∈ root.myLoader.myMeshes, MeshRoundTrips root.mySettings.exportNames mesh)
    (hT : ∀ mat ∈ root.myLoader.myMaterials,
      MaterialRoundTrips root.mySettings.exportNames mat)
    (m : UT_JSONValueMap) (hm : root.SerializeJSON = .JSON_MAP m) :
    ∃ s1, ReadJSON junk m s = Outcome.success s1 ∧
      s1.myAccesors = root.myLoader.myAccesors ∧
      s1.myBufferViews = root.myLoader.myBufferViews ∧
      s1.myMeshes = root.myLoader.myMeshes ∧
      s1.myMaterials = root.myLoader.myMaterials ∧
      s1.myBuffers.length = root.myLoader.myBuffers.length := by
  simp only [SerializeJSON, UT_JSONValue.JSON_MAP.injEq] at hm
  subst hm
  obtain ⟨hs1, hs2, hs3, hs4, hs5⟩ := hs
  have k0 : getKey (root.SerializeAsset ++ root.SerializeAccessors ++ root.SerializeBuffers ++
      root.SerializeBufferViews ++ root.SerializeNodes ++ root.SerializeMeshes ++
      root.SerializeMaterials ++ root.SerializeScenes ++ root.SerializeTextures ++
      root.SerializeImages ++ OutputDefaultInt "scene" root.myLoader.myScene GLTF_INVALID_IDX)
      "asset" = some (.JSON_MAP (OutputString "version" (some GLTF_VERSION) ++
        OutputString "generator" (some GENERATOR_STRING))) := by
    simp [getKey, List.lookup_append, SerializeAsset, List.lookup]
  have k1 : getKey (root.SerializeAsset ++ root.SerializeAccessors ++ root.SerializeBuffers ++
      root.SerializeBufferViews ++ root.SerializeNodes ++ root.SerializeMeshes ++
      root.SerializeMaterials ++ root.SerializeScenes ++ root.SerializeTextures ++
      root.SerializeImages ++ OutputDefaultInt "scene" root.myLoader.myScene GLTF_INVALID_IDX)
      "accessors" = (if root.myLoader.myAccesors.length = 0 then none
        else some (.JSON_ARRAY (root.myLoader.myAccesors.map serializeAccessor))) := by
    simp [getKey, List.lookup_append, SerializeAsset, SerializeAccessors, SerializeBuffers,
      SerializeBufferViews, SerializeNodes, SerializeMeshes, SerializeMaterials,
      SerializeScenes, SerializeTextures, SerializeImages, OutputDefaultInt, OutputInt,
      lookup_optional, List.lookup, getNumAccessors, getNumBuffers, getNumMeshes]
  have k2 : getKey (root.SerializeAsset ++ root.SerializeAccessors ++ root.SerializeBuffers ++
      root.SerializeBufferViews ++ root.SerializeNodes ++ root.SerializeMeshes ++
      root.SerializeMaterials ++ root.SerializeScenes ++ root.SerializeTextures ++
      root.SerializeImages ++ OutputDefaultInt "scene" root.myLoader.myScene GLTF_INVALID_IDX)
      "buffers" = (if root.myLoader.myBuffers.length = 0 then none
        else some (.JSON_ARRAY (root.myLoader.myBuffers.map root.serializeBuffer))) := by
    simp [getKey, List.lookup_append, SerializeAsset, SerializeAccessors, SerializeBuffers,
      SerializeBufferViews, SerializeNodes, SerializeMeshes, SerializeMaterials,
      SerializeScenes, SerializeTextures, SerializeImages, OutputDefaultInt, OutputInt,
      lookup_optional, List.lookup, getNumAccessors, getNumBuffers, getNumMeshes]
  have k3 : getKey (root.SerializeAsset ++ root.SerializeAccessors ++ root.SerializeBuffers ++
      root.SerializeBufferViews ++ root.SerializeNodes ++ root.SerializeMeshes ++
      root.SerializeMaterials ++ root.SerializeScenes ++ root.SerializeTextures ++
      root.SerializeImages ++ OutputDefaultInt "scene" root.myLoader.myScene GLTF_INVALID_IDX)
      "bufferViews" = (if root.myLoader.myBuffers.length = 0 then none
        else some (.JSON_ARRAY (root.myLoader.myBufferViews.map root.serializeBufferView))) := by
    simp [getKey, List.lookup_append, SerializeAsset, SerializeAccessors, SerializeBuffers,
      SerializeBufferViews, SerializeNodes, SerializeMeshes, SerializeMaterials,
      SerializeScenes, SerializeTextures, SerializeImages, OutputDefaultInt, OutputInt,
      lookup_optional, List.lookup, getNumAccessors, getNumBuffers, getNumMeshes]
  have k4 : getKey (root.SerializeAsset ++ root.SerializeAccessors ++ root.SerializeBuffers ++
      root.SerializeBufferViews ++ root.SerializeNodes ++ root.SerializeMeshes ++
      root.SerializeMaterials ++ root.SerializeScenes ++ root.SerializeTextures ++
      root.SerializeImages ++ OutputDefaultInt "scene" root.myLoader.myScene GLTF_INVALID_IDX)
      "meshes" = (if root.myLoader.myMeshes.length = 0 then none
        else some (.JSON_ARRAY (root.myLoader.myMeshes.map root.serializeMesh))) := by
    simp [getKey, List.lookup_append, SerializeAsset, SerializeAccessors, SerializeBuffers,
      SerializeBufferViews, SerializeNodes, SerializeMeshes, SerializeMaterials,
      SerializeScenes, SerializeTextures, SerializeImages, OutputDefaultInt, OutputInt,
      lookup_optional, List.lookup, getNumAccessors, getNumBuffers, getNumMeshes]
  have k5 : getKey (root.SerializeAsset ++ root.SerializeAccessors ++ root.SerializeBuffers ++
      root.SerializeBufferViews ++ root.SerializeNodes ++ root.SerializeMeshes ++
      root.SerializeMaterials ++ root.SerializeScenes ++ root.SerializeTextures ++
      root.SerializeImages ++ OutputDefaultInt "scene" root.myLoader.myScene GLTF_INVALID_IDX)
      "nodes" = (if root.myLoader.myNodes.length = 0 then none
        else some (.JSON_ARRAY (root.myLoader.myNodes.map root.serializeNode))) := by
    simp [getKey, List.lookup_append, SerializeAsset, SerializeAccessors, SerializeBuffers,
      SerializeBufferViews, SerializeNodes, SerializeMeshes, SerializeMaterials,
      SerializeScenes, SerializeTextures, SerializeImages, OutputDefaultInt, OutputInt,
      lookup_optional, List.lookup, getNumAccessors, getNumBuffers, getNumMeshes]
  have k6 : getKey (root.SerializeAsset ++ root.SerializeAccessors ++ root.SerializeBuffers ++
      root.SerializeBufferViews ++ root.SerializeNodes ++ root.SerializeMeshes ++
      root.SerializeMaterials ++ root.SerializeScenes ++ root.SerializeTextures ++
      root.SerializeImages ++ OutputDefaultInt "scene" root.myLoader.myScene GLTF_INVALID_IDX)
      "textures" = (if root.myLoader.myTextures.length = 0 then none
        else some (.JSON_ARRAY (root.myLoader.myTextures.map root.serializeTexture))) := by
    simp [getKey, List.lookup_append, SerializeAsset, SerializeAccessors, SerializeBuffers,
      SerializeBufferViews, SerializeNodes, SerializeMeshes, SerializeMaterials,
      SerializeScenes, SerializeTextures, SerializeImages, OutputDefaultInt, OutputInt,
      lookup_optional, List.lookup, getNumAccessors, getNumBuffers, getNumMeshes]
  have k7 : getKey (root.SerializeAsset ++ root.SerializeAccessors ++ root.SerializeBuffers ++
      root.SerializeBufferViews ++ root.SerializeNodes ++ root.SerializeMeshes ++
      root.SerializeMaterials ++ root.SerializeScenes ++ root.SerializeTextures ++
      root.SerializeImages ++ OutputDefaultInt "scene" root.myLoader.myScene GLTF_INVALID_IDX)
      "samplers" = none := by
    simp [getKey, List.lookup_append, SerializeAsset, SerializeAccessors, SerializeBuffers,
      SerializeBufferViews, SerializeNodes, SerializeMeshes, SerializeMaterials,
      SerializeScenes, SerializeTextures, SerializeImages, OutputDefaultInt, OutputInt,
      lookup_optional, List.lookup, getNumAccessors, getNumBuffers, getNumMeshes]
  have k8 : getKey (root.SerializeAsset ++ root.SerializeAccessors ++ root.SerializeBuffers ++
      root.SerializeBufferViews ++ root.SerializeNodes ++ root.SerializeMeshes ++
      root.SerializeMaterials ++ root.SerializeScenes ++ root.SerializeTextures ++
      root.SerializeImages ++ OutputDefaultInt "scene" root.myLoader.myScene GLTF_INVALID_IDX)
      "images" = (if root.myLoader.myImages.length = 0 then none
        else some (.JSON_ARRAY (root.myLoader.myImages.map root.serializeImage))) := by
    simp [getKey, List.lookup_append, SerializeAsset, SerializeAccessors, SerializeBuffers,
      SerializeBufferViews, SerializeNodes, SerializeMeshes, SerializeMaterials,
      SerializeScenes, SerializeTextures, SerializeImages, OutputDefaultInt, OutputInt,
      lookup_optional, List.lookup, getNumAccessors, getNumBuffers, getNumMeshes]
  have k9 : getKey (root.SerializeAsset ++ root.SerializeAccessors ++ root.SerializeBuffers ++
      root.SerializeBufferViews ++ root.SerializeNodes ++ root.SerializeMeshes ++
      root.SerializeMaterials ++ root.SerializeScenes ++ root.SerializeTextures ++
      root.SerializeImages ++ OutputDefaultInt "scene" root.myLoader.myScene GLTF_INVALID_IDX)
      "scenes" = (if root.myLoader.myScenes.length = 0 then none
        else some (.JSON_ARRAY (root.myLoader.myScenes.map root.serializeScene))) := by
    simp [getKey, List.lookup_append, SerializeAsset, SerializeAccessors, SerializeBuffers,
      SerializeBufferViews, SerializeNodes, SerializeMeshes, SerializeMaterials,
      SerializeScenes, SerializeTextures, SerializeImages, OutputDefaultInt, OutputInt,
      lookup_optional, List.lookup, getNumAccessors, getNumBuffers, getNumMeshes]
  have k10 : getKey (root.SerializeAsset ++ root.SerializeAccessors ++ root.SerializeBuffers ++
      root.SerializeBufferViews ++ root.SerializeNodes ++ root.SerializeMeshes ++
      root.SerializeMaterials ++ root.SerializeScenes ++ root.SerializeTextures ++
      root.SerializeImages ++ OutputDefaultInt "scene" root.myLoader.myScene GLTF_INVALID_IDX)
      "materials" = (if root.myLoader.myMaterials.length = 0 then none
        else some (.JSON_ARRAY (root.myLoader.myMaterials.map root.serializeMaterial))) := by
    simp [getKey, List.lookup_append, SerializeAsset, SerializeAccessors, SerializeBuffers,
      SerializeBufferViews, SerializeNodes, SerializeMeshes, SerializeMaterials,
      SerializeScenes, SerializeTextures, SerializeImages, OutputDefaultInt, OutputInt,
      lookup_optional, List.lookup, getNumAccessors, getNumBuffers, getNumMeshes]
  have k11 : ∃ sc, ParseAsInteger (getKey (root.SerializeAsset ++ root.SerializeAccessors ++
      root.SerializeBuffers ++
      root.SerializeBufferViews ++ root.SerializeNodes ++ root.SerializeMeshes ++
      root.SerializeMaterials ++ root.SerializeScenes ++ root.SerializeTextures ++
      root.SerializeImages ++ OutputDefaultInt "scene" root.myLoader.myScene GLTF_INVALID_IDX)
      "scene") false s.myScene = some sc := by
    by_cases c : root.myLoader.myScene = GLTF_INVALID_IDX <;>
    simp [getKey, List.lookup_append, SerializeAsset, SerializeAccessors, SerializeBuffers,
      SerializeBufferViews, SerializeNodes, SerializeMeshes, SerializeMaterials,
      SerializeScenes, SerializeTextures, SerializeImages, OutputDefaultInt, OutputInt,
      lookup_optional, List.lookup, c, ParseAsInteger, getNumAccessors, getNumBuffers,
      getNumMeshes]
  obtain ⟨sc, hsc⟩ := k11
  choose fb hfb using (fun s i => readMaps_buffers root root.myLoader.myBuffers s i)
  choose fn hfn using (fun s i => readMaps_nodes root junk root.myLoader.myNodes s i)
  choose ft hft using (fun s i => readMaps_textures root root.myLoader.myTextures s i)
  choose fi hfi using (fun s i => readMaps_images root root.myLoader.myImages s i)
  choose fs hfs using (fun s i => readMaps_scenes root junk root.myLoader.myScenes s i)
  have hvnil : root.myLoader.myBuffers.length = 0 → root.myLoader.myBufferViews = [] := by
    intro h0
    cases hbv : root.myLoader.myBufferViews with
    | nil => rfl
    | cons bv rest =>
      have := (hV bv (by rw [hbv]; exact List.mem_cons_self _ _)).1
      omega
  unfold ReadJSON
  simp only [k0, k1, k2, k3, k4, k5, k6, k7, k8, k9, k10, hsc]
  rw [ReadArrayOfMaps_optional_map, readMaps_accessors _ _ _ hA]
  simp only [Outcome.bind_success]
  rw [ReadArrayOfMaps_optional_map, (hfb _ _).2]
  simp only [Outcome.bind_success]
  rw [ReadArrayOfMaps_optional _ _ _ _
    (fun h => by rw [hvnil h]; rfl), readMaps_bufferViews root]
  · simp only [Outcome.bind_success]
    rw [ReadArrayOfMaps_optional_map, readMaps_meshes root _ _ _ hM]
    simp only [Outcome.bind_success]
    rw [ReadArrayOfMaps_optional_map, (hfn _ _).2]
    simp only [Outcome.bind_success]
    rw [ReadArrayOfMaps_optional_map, (hft _ _).2]
    simp only [Outcome.bind_success]
    rw [show ReadArrayOfMaps none false ReadSampler _ = Outcome.success _ from rfl]
    simp only [Outcome.bind_success]
    rw [ReadArrayOfMaps_optional_map, (hfi _ _).2]
    simp only [Outcome.bind_success]
    rw [ReadArrayOfMaps_optional_map, (hfs _ _).2]
    simp only [Outcome.bind_success]
    rw [ReadArrayOfMaps_optional_map, readMaps_materials root _ _ _ hT]
    simp only [Outcome.bind_success, Outcome.ofOption, Outcome.pure_eq, hsc]
    refine ⟨_, rfl, ?_, ?_, ?_, ?_, ?_⟩
    · simp [hs1]
    · simp [hs3]
    · simp [hs4]
    · simp [hs5]
    · simp [hs2, (hfb _ _).1]
  · intro bv hbv
    simp only [hs2, List.nil_append, (hfb _ _).1]
    exact hV bv hbv

/-- A patch elsewhere leaves a slice of the stream as it was. -/
theorem patch_slice (os : List Nat) (pos a n : Nat) (bytes : List Nat)
    (h : pos + bytes.length ≤ os.length) (hd : a + n ≤ pos ∨ pos + bytes.length ≤ a) :
    ((patch os pos bytes).drop a).take n = (os.drop a).take n := by
  apply List.ext_getElem?
  intro i
  rw [List.getElem?_take, List.getElem?_take]
  by_cases hi : i < n
  · simp only [hi, if_true, List.getElem?_drop]
    rw [patch_getElem? os pos bytes (a + i) h]
    rcases hd with hd | hd
    · have h1 : a + i < pos := by omega
      simp only [h1, if_true]
    · have h1 : ¬ a + i < pos := by omega
      have h2 : ¬ a + i < pos + bytes.length := by omega
      simp only [h1, h2, if_false]
  · simp only [hi, if_false]

theorem padTo4_append_header (json : List Nat) :
    padTo4 (glbHeader ++ glbJsonHeader ++ json) 32 =
      glbHeader ++ glbJsonHeader ++ padTo4 json 32 := by
  have hl : (glbHeader ++ glbJsonHeader).length = 20 := rfl
  have e : (4 - (glbHeader ++ glbJsonHeader ++ json).length % 4) % 4 =
      (4 - json.length % 4) % 4 := by
    rw [List.length_append, hl]
    omega
  unfold padTo4
  rw [e]
  simp only [List.append_assoc]

/-- In a file below `2 ^ 32` bytes, the bytes of the JSON chunk are the JSON text
padded with blanks. -/
theorem writeGLB_json_chunk (json data : List Nat) (root : ROP_GLTF_ExportRoot)
    (hlt : (writeGLB json data root).file.length < 4294967296) :
    ((writeGLB json data root).file.drop 20).take (writeGLB json data root).json_chunk_size =
      padTo4 json 32 := by
  obtain ⟨h1, h2, h3, _, h5⟩ := writeGLB_lengths json data root
  obtain ⟨os4, os7, e4, e7, h4, h20, h7, h8, hj, hd, ht, hf⟩ := writeGLB_layout json data root
  have l1 : (patch os7 8 (writeLE32 (os7.length % 4294967296))).length = os7.length :=
    patch_length _ _ _ (by rw [writeLE32_length]; omega)
  have l2 : (patch (patch os7 8 (writeLE32 (os7.length % 4294967296)))
      12 (writeLE32 ((os4.length - 20) % 4294967296))).length = os7.length := by
    rw [patch_length _ _ _ (by rw [writeLE32_length, l1]; omega), l1]
  have l3 : (writeGLB json data root).file.length = os7.length := by
    rw [hf, patch_length _ _ _ (by rw [writeLE32_length, l2]; omega), l2]
  rw [l3] at hlt
  have hjv : (os4.length - 20) % 4294967296 = os4.length - 20 := by omega
  have hpv : (20 + (os4.length - 20)) % 4294967296 = os4.length := by omega
  rw [hj, hf, hjv, hpv]
  rw [hjv] at l2
  rw [patch_slice _ _ 20 _ _ (by rw [writeLE32_length, l2]; omega) (by left; omega)]
  rw [patch_slice _ _ 20 _ _ (by rw [writeLE32_length, l1]; omega)
    (by right; rw [writeLE32_length]; omega)]
  rw [patch_slice _ _ 20 _ _ (by rw [writeLE32_length]; omega)
    (by right; rw [writeLE32_length]; omega)]
  have e4' : os4 = (glbHeader ++ glbJsonHeader) ++ padTo4 json 32 := by
    rw [e4, padTo4_append_header]
  have hl20 : (glbHeader ++ glbJsonHeader).length = 20 := rfl
  have hp : (padTo4 json 32).length = os4.length - 20 := by
    rw [e4', List.length_append, hl20]
    omega
  rw [e7, padTo4, List.append_assoc, List.append_assoc,
    List.drop_append_of_le_length (by omega)]
  rw [List.take_left' (by rw [List.length_drop])]
  rw [e4', List.drop_left' hl20]

theorem resolveLengths_length (datas : List (List Nat)) :
    ∀ (buffers bs : List GLTF_Buffer), resolveLengths datas buffers = some bs →
      bs.length = buffers.length := by
  induction datas with
  | nil =>
    intro buffers bs h
    simp only [resolveLengths, Option.some.injEq] at h
    rw [h]
  | cons d rest ih =>
    intro buffers bs h
    cases buffers with
    | nil => simp [resolveLengths] at h
    | cons b bufs =>
      simp only [resolveLengths, Option.map_eq_some'] at h
      obtain ⟨r, hr, hbs⟩ := h
      rw [← hbs, List.length_cons, List.length_cons, ih bufs r hr]

/-- `ResolveBufferLengths` changes the declared lengths of the buffers and nothing else. -/
theorem ResolveBufferLengths_success (root root1 : ROP_GLTF_ExportRoot)
    (h : root.ResolveBufferLengths = Outcome.success root1) :
    root1.mySettings = root.mySettings ∧
      root1.myLoader.myAccesors = root.myLoader.myAccesors ∧
      root1.myLoader.myBufferViews = root.myLoader.myBufferViews ∧
      root1.myLoader.myMeshes = root.myLoader.myMeshes ∧
      root1.myLoader.myMaterials = root.myLoader.myMaterials ∧
      root1.myLoader.myBuffers.length = root.myLoader.myBuffers.length := by
  unfold ResolveBufferLengths at h
  split at h
  · next bs hbs =>
    simp only [Outcome.success.injEq] at h
    subst h
    exact ⟨rfl, rfl, rfl, rfl, rfl, resolveLengths_length _ _ _ hbs⟩
  · simp at h

/-- C1 (as amended): when `ExportAsGLB` succeeds with a file shorter than
`2 ^ 32` bytes, the file is what `path` (ending in `.glb`) opens to, and the
JSON reader gives back the document whose padded text the writer produced,
then for a document whose accessors, buffer views, meshes and materials are
all of the kind the loader reads back as written, `ResolveBufferLengths`
succeeds on the original and `Load` of the written file succeeds with
accessors, buffer views, meshes and materials equal to those of the original
after `ResolveBufferLengths`. -/
theorem ExportAsGLB_then_Load_roundtrip (hdk : HDK) (junk : Nat) (root : ROP_GLTF_ExportRoot)
    (path : String) (e : GLBExport)
    (hexport : root.ExportAsGLB hdk path = Outcome.success e)
    (hsize : e.file.length < 4294967296)
    (hfile : hdk.openFile path = some e.file)
    (hext : (fileExtension path).map Char.toLower = ".glb".data)
    (hcodec : hdk.jsonParse (padTo4 (hdk.jsonWrite e.root.SerializeJSON) 32) =
      some e.root.SerializeJSON)
    (hA : ∀ a ∈ root.myLoader.myAccesors, AccessorRoundTrips a)
    (hV : ∀ bv ∈ root.myLoader.myBufferViews,
      BufferViewRoundTrips root.mySettings.exportNames root.myLoader.myBuffers.length bv)
    (hM : ∀ mesh ∈ root.myLoader.myMeshes, MeshRoundTrips root.mySettings.exportNames mesh)
    (hT : ∀ mat ∈ root.myLoader.myMaterials,
      MaterialRoundTrips root.mySettings.exportNames mat) :
    ∃ root1 s, root.ResolveBufferLengths = Outcome.success root1 ∧
      Load hdk junk (GLTF_Loader.create path) = Outcome.success s ∧
      s.myAccesors = root1.myLoader.myAccesors ∧
      s.myBufferViews = root1.myLoader.myBufferViews ∧
      s.myMeshes = root1.myLoader.myMeshes ∧
      s.myMaterials = root1.myLoader.myMaterials := by
  obtain ⟨data, root1, hdata, hres, he⟩ := ExportAsGLB_success_data hdk root path e hexport
  obtain ⟨r1, r2, r3, r4, r5, r6⟩ := ResolveBufferLengths_success root root1 hres
  have hroot : e.root = root1.ConvertAbsolutePaths (dirPart path) := by rw [he]; rfl
  -- the document that was serialized
  have hA' : ∀ a ∈ e.root.myLoader.myAccesors, AccessorRoundTrips a := by
    rw [hroot]
    simpa only [ConvertAbsolutePaths, r2] using hA
  have hV' : ∀ bv ∈ e.root.myLoader.myBufferViews,
      BufferViewRoundTrips e.root.mySettings.exportNames e.root.myLoader.myBuffers.length bv := by
    rw [hroot]
    simpa only [ConvertAbsolutePaths, r1, r3, r6] using hV
  have hM' : ∀ mesh ∈ e.root.myLoader.myMeshes,
      MeshRoundTrips e.root.mySettings.exportNames mesh := by
    rw [hroot]
    simpa only [ConvertAbsolutePaths, r1, r4] using hM
  have hT' : ∀ mat ∈ e.root.myLoader.myMaterials,
      MaterialRoundTrips e.root.mySettings.exportNames mat := by
    rw [hroot]
    simpa only [ConvertAbsolutePaths, r1, r5] using hT
  obtain ⟨s1, hs1, a1, a2, a3, a4, _⟩ := ReadJSON_SerializeJSON e.root junk
    (GLTF_Loader.create path) ⟨rfl, rfl, rfl, rfl, rfl⟩ hA' hV' hM' hT' _ rfl
  -- the bytes of the file
  have hjson : hdk.jsonWrite e.root.SerializeJSON =
      hdk.jsonWrite (root1.ConvertAbsolutePaths (dirPart path)).SerializeJSON := by rw [hroot]
  obtain ⟨_, _, _, _, h5⟩ := writeGLB_lengths
    (hdk.jsonWrite (root1.ConvertAbsolutePaths (dirPart path)).SerializeJSON) data
    (root1.ConvertAbsolutePaths (dirPart path))
  rw [← he] at h5
  obtain ⟨t1, t2, _, t4, t5⟩ := h5 hsize
  have hchunk := writeGLB_json_chunk
    (hdk.jsonWrite (root1.ConvertAbsolutePaths (dirPart path)).SerializeJSON) data
    (root1.ConvertAbsolutePaths (dirPart path)) (by rw [← he]; exact hsize)
  rw [← he, ← hjson] at hchunk
  have hopen : hdk.openFile (GLTF_Loader.create path).myFilename = some e.file := hfile
  have hread := ReadGLB_of_open hdk junk (GLTF_Loader.create path) e.file hopen
    (by rw [t4, t5]; omega)
  rw [t4, hchunk, hcodec] at hread
  simp only [SerializeJSON] at hread hs1
  rw [hs1] at hread
  simp only at hread
  have hload : ∃ s, Load hdk junk (GLTF_Loader.create path) = Outcome.success s ∧
      s.myAccesors = s1.myAccesors ∧ s.myBufferViews = s1.myBufferViews ∧
      s.myMeshes = s1.myMeshes ∧ s.myMaterials = s1.myMaterials := by
    unfold Load
    have hne : ¬ (".glb".data = ".gltf".data) := by decide
    have hext' : (fileExtension (GLTF_Loader.create path).myFilename).map Char.toLower =
        ".glb".data := hext
    simp only [hext', hne, if_false, if_true, hread]
    exact ⟨_, rfl, rfl, rfl, rfl, rfl⟩
  obtain ⟨s, hs, b1, b2, b3, b4⟩ := hload
  refine ⟨root1, s, hres, hs, ?_⟩
  simp only [b1, b2, b3, b4, a1, a2, a3, a4, hroot, ConvertAbsolutePaths, and_self]

set_option maxRecDepth 100000 in
/-- Witness for C1: `arrayTriangleRoot` written to `out/triangle.glb` and loaded
again from there. -/
theorem ExportAsGLB_then_Load_roundtrip_witness :
    ∃ root1 s, arrayTriangleRoot.ResolveBufferLengths = Outcome.success root1 ∧
      Load (exportedHDK arrayTriangleRoot "out/triangle.glb") 0
        (GLTF_Loader.create "out/triangle.glb") = Outcome.success s ∧
      s.myAccesors = root1.myLoader.myAccesors ∧
      s.myBufferViews = root1.myLoader.myBufferViews ∧
      s.myMeshes = root1.myLoader.myMeshes ∧
      s.myMaterials = root1.myLoader.myMaterials :=
  ExportAsGLB_then_Load_roundtrip (exportedHDK arrayTriangleRoot "out/triangle.glb") 0
    arrayTriangleRoot "out/triangle.glb" _ rfl (by decide) (by decide) (by decide) rfl
    (by decide) (by decide) (by decide) (by decide)

set_option maxRecDepth 100000 in
/-- C1 (counterexample): `triangleRoot` is built by the exporter's `Create*`
calls and `BufferAlloc` and has a mesh; it is written and loaded again without
failure, from the very bytes that were written, but the buffer view that was
created with the target left at `GLTF_BUFFER_INVALID` comes back with
`GLTF_BUFFER_ARRAY`, so the buffer views are not those of the original after
`ResolveBufferLengths`. -/
theorem ExportAsGLB_then_Load_changes_unset_target :
    buildTriangle = Outcome.success triangleRoot ∧
    (do
      let root1 ← triangleRoot.ResolveBufferLengths
      let e ← triangleRoot.ExportAsGLB (exportedHDK triangleRoot "out/triangle.glb")
        "out/triangle.glb"
      let s ← Load (exportedHDK triangleRoot "out/triangle.glb") 0
        (GLTF_Loader.create "out/triangle.glb")
      pure ((exportedHDK triangleRoot "out/triangle.glb").openFile "out/triangle.glb" ==
          some e.file,
        root1.myLoader.myBufferViews, s.myBufferViews)) =
      Outcome.success (true,
        [{ buffer := 0, byteOffset := 0, byteLength := 36, target := GLTF_BUFFER_INVALID }],
        [{ buffer := 0, byteOffset := 0, byteLength := 36, target := GLTF_BUFFER_ARRAY }]) := by
  decide

theorem readLE32_writeLE32_append (n : Nat) (l : List Nat) (h : n < 4294967296) :
    readLE32 (writeLE32 n ++ l) = n := by
  simp only [readLE32, writeLE32, List.cons_append, List.nil_append, List.getD_cons_zero,
    List.getD_cons_succ]
  omega

/-- What `ReadGLB` does once the header and the JSON chunk are read. -/
theorem ReadGLB_after_json_chunk (hdk : HDK) (junk : Nat) (s : GLTF_Loader)
    (header json_header json tail : List Nat)
    (hheader : header.length = 12) (hjh : json_header.length = 8)
    (hsize : readLE32 json_header = json.length)
    (hopen : hdk.openFile s.myFilename = some (header ++ (json_header ++ (json ++ tail)))) :
    ReadGLB hdk junk s =
      if (tail.take 8).length != 8 then Outcome.failure
      else if ((tail.drop 8).take (readLE32 (tail.take 8))).length != readLE32 (tail.take 8) then
        Outcome.failure
      else
        match hdk.jsonParse json with
        | some (.JSON_MAP keymap) =>
          match ReadJSON junk keymap s with
          | Outcome.success s1 =>
            Outcome.success { s1 with myBufferCache := s1.myBufferCache ++
              [some ((tail.drop 8).take (readLE32 (tail.take 8)))] }
          | Outcome.failure => Outcome.failure
          | Outcome.undefined => Outcome.undefined
        | _ => Outcome.failure := by
  unfold ReadGLB
  simp only [hopen, bread, List.take_left' hheader, List.drop_left' hheader,
    List.take_left' hjh, List.drop_left' hjh, hheader, hjh, hsize,
    List.take_left' rfl, List.drop_left' rfl]
  simp

/-- C11 (as amended): a stream made of a 12-byte header and one JSON chunk is
rejected by `ReadGLB` when fewer than eight bytes follow the chunk, whatever the
JSON text is; when the eight bytes of a BIN chunk header and the bytes it
declares follow, the result is that of `ReadJSON` on the document, with the bytes
of the BIN chunk staged in the buffer cache. -/
theorem ReadGLB_requires_bin_chunk (hdk : HDK) (junk : Nat) (s : GLTF_Loader)
    (header json_tag json bin_tag bin rest : List Nat)
    (hheader : header.length = 12) (hjson_tag : json_tag.length = 4)
    (hbin_tag : bin_tag.length = 4)
    (hjson : json.length < 4294967296) (hbin : bin.length < 4294967296) :
    (rest.length < 8 →
      hdk.openFile s.myFilename = some (header ++ ((writeLE32 json.length ++ json_tag) ++
        (json ++ rest))) →
      ReadGLB hdk junk s = Outcome.failure) ∧
    (hdk.openFile s.myFilename = some (header ++ ((writeLE32 json.length ++ json_tag) ++
        (json ++ ((writeLE32 bin.length ++ bin_tag) ++ bin)))) →
      ReadGLB hdk junk s =
        match hdk.jsonParse json with
        | some (.JSON_MAP keymap) =>
          match ReadJSON junk keymap s with
          | Outcome.success s1 =>
            Outcome.success { s1 with myBufferCache := s1.myBufferCache ++ [some bin] }
          | Outcome.failure => Outcome.failure
          | Outcome.undefined => Outcome.undefined
        | _ => Outcome.failure) := by
  have hjh : (writeLE32 json.length ++ json_tag).length = 8 := by
    rw [List.length_append, writeLE32_length, hjson_tag]
  have hbh : (writeLE32 bin.length ++ bin_tag).length = 8 := by
    rw [List.length_append, writeLE32_length, hbin_tag]
  have hjs : readLE32 (writeLE32 json.length ++ json_tag) = json.length :=
    readLE32_writeLE32_append _ _ hjson
  have hbs : readLE32 (writeLE32 bin.length ++ bin_tag) = bin.length :=
    readLE32_writeLE32_append _ _ hbin
  constructor
  · intro hrest hopen
    rw [ReadGLB_after_json_chunk hdk junk s header _ json rest hheader hjh hjs hopen]
    have h8 : ((List.take 8 rest).length != 8) = true := by
      rw [List.length_take, bne_iff_ne]; omega
    rw [if_pos h8]
  · intro hopen
    rw [ReadGLB_after_json_chunk hdk junk s header _ json _ hheader hjh hjs hopen]
    simp only [List.take_left' hbh, List.drop_left' hbh, hbh, hbs, List.take_left' rfl]
    simp

set_option maxRecDepth 100000 in
/-- Witness for C11: the stream `glbWithoutBin`, and the same stream followed by
the header of an empty BIN chunk. -/
theorem ReadGLB_requires_bin_chunk_witness :
    ReadGLB (referenceHDK assetOnlyDoc [("scene.glb", glbWithoutBin)]) 0
        (GLTF_Loader.create "scene.glb") = Outcome.failure ∧
      (ReadGLB (referenceHDK assetOnlyDoc
          [("scene.glb", glbWithoutBin ++ [0, 0, 0, 0, 66, 73, 78, 0])]) 0
        (GLTF_Loader.create "scene.glb")).isSuccess = true :=
  ⟨(ReadGLB_requires_bin_chunk (referenceHDK assetOnlyDoc [("scene.glb", glbWithoutBin)]) 0
      (GLTF_Loader.create "scene.glb") [103, 108, 84, 70, 2, 0, 0, 0, 32, 0, 0, 0]
      [74, 83, 79, 78] [123, 34, 97, 115, 115, 101, 116, 34, 58, 123, 125, 125]
      [66, 73, 78, 0] [] [] rfl rfl rfl (by decide) (by decide)).1 (by decide) rfl,
    by decide⟩

set_option maxRecDepth 100000 in
/-- C11 (counterexample): `glbWithoutBin` is a 12-byte header with the magic
`glTF`, version 2 and the right total length, followed by exactly one JSON chunk
whose text the reader accepts and `ReadJSON` parses; `ReadGLB` and `Load` reject
the file because no BIN chunk header follows. -/
theorem ReadGLB_rejects_stream_without_bin_chunk :
    readLE32 glbWithoutBin = GLTF_GLB_MAGIC ∧ readLE32 (glbWithoutBin.drop 4) = 2 ∧
      readLE32 (glbWithoutBin.drop 8) = glbWithoutBin.length ∧
      readLE32 (glbWithoutBin.drop 12) = 12 ∧
      readLE32 (glbWithoutBin.drop 16) = GLTF_GLB_JSON ∧
      glbWithoutBin.length = 12 + 8 + 12 ∧
      (match (referenceHDK assetOnlyDoc []).jsonParse ((glbWithoutBin.drop 20).take 12) with
        | some (.JSON_MAP keymap) =>
          (ReadJSON 0 keymap (GLTF_Loader.create "scene.glb")).isSuccess
        | _ => false) = true ∧
      ReadGLB (referenceHDK assetOnlyDoc [("scene.glb", glbWithoutBin)]) 0
        (GLTF_Loader.create "scene.glb") = Outcome.failure ∧
      Load (referenceHDK assetOnlyDoc [("scene.glb", glbWithoutBin)]) 0
        (GLTF_Loader.create "scene.glb") = Outcome.failure := by
  decide

theorem Outcome.bind_eq_failure {α β : Type} (x : Outcome α) (f : α → Outcome β)
    (hx : x ≠ Outcome.undefined) (hf : ∀ a, f a = Outcome.failure) :
    (x >>= f) = Outcome.failure := by
  cases x with
  | undefined => exact absurd rfl hx
  | failure => rfl
  | success a => exact hf a

theorem Outcome.bind_ne_undefined {α β : Type} (x : Outcome α) (f : α → Outcome β)
    (hx : x ≠ Outcome.undefined) (hf : ∀ a, f a ≠ Outcome.undefined) :
    (x >>= f) ≠ Outcome.undefined := by
  cases x with
  | undefined => exact absurd rfl hx
  | failure => intro h; cases h
  | success a => exact hf a

theorem Outcome.bind_ne_success {α β : Type} (x : Outcome α) (f : α → Outcome β)
    (hf : ∀ a b, f a ≠ Outcome.success b) (b : β) :
    (x >>= f) ≠ Outcome.success b := by
  cases x with
  | undefined => intro h; cases h
  | failure => intro h; cases h
  | success a => exact hf a b

theorem Outcome.ofOption_ne_undefined {α : Type} (o : Option α) :
    Outcome.ofOption o ≠ Outcome.undefined := by
  cases o <;> intro h <;> cases h

theorem ReadAccessor_ne_undefined (s : GLTF_Loader) (m : UT_JSONValueMap) (i : Nat) :
    ReadAccessor s m i ≠ Outcome.undefined := by
  unfold ReadAccessor
  refine Outcome.bind_ne_undefined _ _ (Outcome.ofOption_ne_undefined _) (fun _ => ?_)
  refine Outcome.bind_ne_undefined _ _ (Outcome.ofOption_ne_undefined _) (fun _ => ?_)
  refine Outcome.bind_ne_undefined _ _ (Outcome.ofOption_ne_undefined _) (fun _ => ?_)
  refine Outcome.bind_ne_undefined _ _ (Outcome.ofOption_ne_undefined _) (fun _ => ?_)
  refine Outcome.bind_ne_undefined _ _ (Outcome.ofOption_ne_undefined _) (fun _ => ?_)
  refine Outcome.bind_ne_undefined _ _ (Outcome.ofOption_ne_undefined _) (fun _ => ?_)
  refine Outcome.bind_ne_undefined _ _ (Outcome.ofOption_ne_undefined _) (fun _ => ?_)
  dsimp only
  split_ifs <;> simp

theorem ReadBuffer_ne_undefined (s : GLTF_Loader) (m : UT_JSONValueMap) (i : Nat) :
    ReadBuffer s m i ≠ Outcome.undefined := by
  unfold ReadBuffer
  refine Outcome.bind_ne_undefined _ _ (Outcome.ofOption_ne_undefined _) (fun _ => ?_)
  refine Outcome.bind_ne_undefined _ _ (Outcome.ofOption_ne_undefined _) (fun _ => ?_)
  refine Outcome.bind_ne_undefined _ _ (Outcome.ofOption_ne_undefined _) (fun _ => ?_)
  intro h; cases h

theorem ReadBufferView_ne_undefined (s : GLTF_Loader) (m : UT_JSONValueMap) (i : Nat) :
    ReadBufferView s m i ≠ Outcome.undefined := by
  unfold ReadBufferView
  refine Outcome.bind_ne_undefined _ _ (Outcome.ofOption_ne_undefined _) (fun _ => ?_)
  refine Outcome.bind_ne_undefined _ _ (Outcome.ofOption_ne_undefined _) (fun _ => ?_)
  refine Outcome.bind_ne_undefined _ _ (Outcome.ofOption_ne_undefined _) (fun _ => ?_)
  refine Outcome.bind_ne_undefined _ _ (Outcome.ofOption_ne_undefined _) (fun _ => ?_)
  refine Outcome.bind_ne_undefined _ _ (Outcome.ofOption_ne_undefined _) (fun _ => ?_)
  refine Outcome.bind_ne_undefined _ _ (Outcome.ofOption_ne_undefined _) (fun _ => ?_)
  dsimp only
  split_ifs <;> simp

theorem ReadAccessor_missing_required (s : GLTF_Loader) (m : UT_JSONValueMap) (i : Nat)
    (h : getKey m "componentType" = none ∨ getKey m "count" = none ∨ getKey m "type" = none) :
    ReadAccessor s m i = Outcome.failure := by
  unfold ReadAccessor
  refine Outcome.bind_eq_failure _ _ (Outcome.ofOption_ne_undefined _) (fun _ => ?_)
  refine Outcome.bind_eq_failure _ _ (Outcome.ofOption_ne_undefined _) (fun _ => ?_)
  rcases h with h | h | h
  · rw [h]; rfl
  · refine Outcome.bind_eq_failure _ _ (Outcome.ofOption_ne_undefined _) (fun _ => ?_)
    refine Outcome.bind_eq_failure _ _ (Outcome.ofOption_ne_undefined _) (fun _ => ?_)
    rw [h]; rfl
  · refine Outcome.bind_eq_failure _ _ (Outcome.ofOption_ne_undefined _) (fun _ => ?_)
    refine Outcome.bind_eq_failure _ _ (Outcome.ofOption_ne_undefined _) (fun _ => ?_)
    refine Outcome.bind_eq_failure _ _ (Outcome.ofOption_ne_undefined _) (fun _ => ?_)
    rw [h]; rfl

theorem ReadBuffer_missing_required (s : GLTF_Loader) (m : UT_JSONValueMap) (i : Nat)
    (h : getKey m "byteLength" = none) : ReadBuffer s m i = Outcome.failure := by
  unfold ReadBuffer
  refine Outcome.bind_eq_failure _ _ (Outcome.ofOption_ne_undefined _) (fun _ => ?_)
  rw [h]; rfl

theorem ReadBufferView_missing_required (s : GLTF_Loader) (m : UT_JSONValueMap) (i : Nat)
    (h : getKey m "buffer" = none ∨ getKey m "byteLength" = none) :
    ReadBufferView s m i = Outcome.failure := by
  unfold ReadBufferView
  rcases h with h | h
  · rw [h]; rfl
  · refine Outcome.bind_eq_failure _ _ (Outcome.ofOption_ne_undefined _) (fun _ => ?_)
    refine Outcome.bind_eq_failure _ _ (Outcome.ofOption_ne_undefined _) (fun _ => ?_)
    rw [h]; rfl

theorem ReadPrimitive_ne_undefined (x : UT_JSONValue) (prim : GLTF_Primitive)
    (h : ∀ p, x = .JSON_MAP p → ∀ v, getKey p "attributes" = some v → ∃ a, v = .JSON_MAP a) :
    ReadPrimitive x prim ≠ Outcome.undefined := by
  cases x with
  | JSON_MAP p =>
    unfold ReadPrimitive
    cases hattr : getKey p "attributes" with
    | none => simp [hattr]
    | some v =>
      obtain ⟨a, rfl⟩ := h p rfl v hattr
      simp only [hattr]
      refine Outcome.bind_ne_undefined _ _ (Outcome.ofOption_ne_undefined _) (fun _ => ?_)
      refine Outcome.bind_ne_undefined _ _ (Outcome.ofOption_ne_undefined _) (fun _ => ?_)
      refine Outcome.bind_ne_undefined _ _ (Outcome.ofOption_ne_undefined _) (fun _ => ?_)
      refine Outcome.bind_ne_undefined _ _ ?_ (fun _ => ?_)
      · split
        · simp
        · exact Outcome.ofOption_ne_undefined _
      · dsimp only
        split_ifs <;> simp
  | _ => simp [ReadPrimitive]

theorem ReadPrimitive_missing_attributes (p : UT_JSONValueMap) (prim : GLTF_Primitive)
    (h : getKey p "attributes" = none) :
    ReadPrimitive (.JSON_MAP p) prim = Outcome.failure := by
  unfold ReadPrimitive
  simp only [h]

theorem readPrimitives_ne_success (prims : List UT_JSONValue) (p : UT_JSONValueMap)
    (hp : UT_JSONValue.JSON_MAP p ∈ prims) (h : getKey p "attributes" = none)
    (l : List GLTF_Primitive) : readPrimitives prims ≠ Outcome.success l := by
  induction prims generalizing l with
  | nil => cases hp
  | cons x rest ih =>
    unfold readPrimitives
    rcases List.mem_cons.mp hp with hx | hrest
    · subst hx
      rw [ReadPrimitive_missing_attributes p _ h]
      simp
    · cases hx : ReadPrimitive x {} with
      | undefined => simp
      | failure => simp
      | success prim =>
        cases hr : readPrimitives rest with
        | undefined => simp
        | failure => simp
        | success prims => exact absurd hr (ih hrest prims)

theorem readPrimitives_ne_undefined (prims : List UT_JSONValue)
    (h : ∀ p, UT_JSONValue.JSON_MAP p ∈ prims →
      ∀ v, getKey p "attributes" = some v → ∃ a, v = .JSON_MAP a) :
    readPrimitives prims ≠ Outcome.undefined := by
  induction prims with
  | nil => simp [readPrimitives]
  | cons x rest ih =>
    unfold readPrimitives
    have hx : ReadPrimitive x {} ≠ Outcome.undefined :=
      ReadPrimitive_ne_undefined x {} (fun p hp => h p (by rw [hp]; exact List.mem_cons_self _ _))
    have hrest := ih (fun p hp => h p (List.mem_cons_of_mem _ hp))
    cases hx1 : ReadPrimitive x {} with
    | undefined => exact absurd hx1 hx
    | failure => simp
    | success prim =>
      cases hr : readPrimitives rest with
      | undefined => exact absurd hr hrest
      | failure => simp
      | success prims => simp

theorem ReadMesh_ne_success (s : GLTF_Loader) (m : UT_JSONValueMap) (i : Nat)
    (h : getKey m "primitives" = none ∨
      ∃ p, objectAt m "primitives" p ∧ getKey p "attributes" = none)
    (s1 : GLTF_Loader) : ReadMesh s m i ≠ Outcome.success s1 := by
  unfold ReadMesh
  rcases h with h | ⟨p, ⟨prims, hprims, hp⟩, hattr⟩
  · simp [h]
  · rw [hprims]
    dsimp only
    cases hr : readPrimitives prims with
    | undefined => intro h; cases h
    | failure => intro h; cases h
    | success l => exact absurd hr (readPrimitives_ne_success prims p hp hattr l)

theorem ReadMesh_ne_undefined (s : GLTF_Loader) (m : UT_JSONValueMap) (i : Nat)
    (h : ∀ p, objectAt m "primitives" p →
      ∀ v, getKey p "attributes" = some v → ∃ a, v = .JSON_MAP a) :
    ReadMesh s m i ≠ Outcome.undefined := by
  unfold ReadMesh
  split
  · next prims hprims =>
    refine Outcome.bind_ne_undefined _ _ ?_ (fun _ => ?_)
    · exact readPrimitives_ne_undefined prims (fun p hp => h p ⟨prims, hprims, hp⟩)
    · refine Outcome.bind_ne_undefined _ _ (Outcome.ofOption_ne_undefined _) (fun _ => ?_)
      simp
  · simp

theorem readMaps_ne_undefined
    (func : GLTF_Loader → UT_JSONValueMap → Nat → Outcome GLTF_Loader)
    (arr : List UT_JSONValue)
    (hfunc : ∀ m, UT_JSONValue.JSON_MAP m ∈ arr → ∀ s i, func s m i ≠ Outcome.undefined) :
    ∀ (i : Nat) (s : GLTF_Loader), readMaps func arr i s ≠ Outcome.undefined := by
  induction arr with
  | nil => intro i s; simp [readMaps]
  | cons x rest ih =>
    intro i s
    have hrest := ih (fun m hm => hfunc m (List.mem_cons_of_mem _ hm))
    cases x with
    | JSON_MAP m =>
      unfold readMaps
      have hm := hfunc m (List.mem_cons_self _ _) s i
      cases hf : func s m i with
      | undefined => exact absurd hf hm
      | failure => simp
      | success s1 => exact hrest (i + 1) s1
    | _ => simp [readMaps]

theorem readMaps_ne_success
    (func : GLTF_Loader → UT_JSONValueMap → Nat → Outcome GLTF_Loader)
    (arr : List UT_JSONValue) (m : UT_JSONValueMap) (hm : UT_JSONValue.JSON_MAP m ∈ arr)
    (hfunc : ∀ s i s1, func s m i ≠ Outcome.success s1) :
    ∀ (i : Nat) (s s1 : GLTF_Loader), readMaps func arr i s ≠ Outcome.success s1 := by
  induction arr with
  | nil => cases hm
  | cons x rest ih =>
    intro i s s1
    cases x with
    | JSON_MAP m1 =>
      unfold readMaps
      cases hf : func s m1 i with
      | undefined => simp
      | failure => simp
      | success s2 =>
        rcases List.mem_cons.mp hm with hx | hrest
        · simp only [UT_JSONValue.JSON_MAP.injEq] at hx
          subst hx
          exact absurd hf (hfunc s i s2)
        · exact ih hrest (i + 1) s2 s1
    | _ => simp [readMaps]

theorem Outcome.eq_failure_of_ne {α : Type} (x : Outcome α) (h1 : x ≠ Outcome.undefined)
    (h2 : ∀ a, x ≠ Outcome.success a) : x = Outcome.failure := by
  cases x with
  | undefined => exact absurd rfl h1
  | failure => rfl
  | success a => exact absurd rfl (h2 a)

theorem ReadArrayOfMaps_ne_undefined
    (func : GLTF_Loader → UT_JSONValueMap → Nat → Outcome GLTF_Loader)
    (v : Option UT_JSONValue) (s : GLTF_Loader)
    (hfunc : ∀ arr, v = some (.JSON_ARRAY arr) → ∀ m, UT_JSONValue.JSON_MAP m ∈ arr →
      ∀ s i, func s m i ≠ Outcome.undefined) :
    ReadArrayOfMaps v false func s ≠ Outcome.undefined := by
  unfold ReadArrayOfMaps
  simp only [Bool.false_and, Bool.false_eq_true, if_false]
  split
  · simp
  · next arr => exact readMaps_ne_undefined func arr (hfunc arr rfl) 0 s
  · simp

theorem ReadArrayOfMaps_ne_success
    (func : GLTF_Loader → UT_JSONValueMap → Nat → Outcome GLTF_Loader)
    (root : UT_JSONValueMap) (key : String) (m : UT_JSONValueMap) (hm : objectAt root key m)
    (hfunc : ∀ s i s1, func s m i ≠ Outcome.success s1) (s s1 : GLTF_Loader) :
    ReadArrayOfMaps (getKey root key) false func s ≠ Outcome.success s1 := by
  obtain ⟨arr, harr, hmem⟩ := hm
  rw [harr]
  unfold ReadArrayOfMaps
  simp only [Bool.false_and, Bool.false_eq_true, if_false]
  exact readMaps_ne_success func arr m hmem hfunc 0 s s1

theorem Outcome.bind_ne_success_left {α β : Type} (x : Outcome α) (f : α → Outcome β)
    (hx : ∀ a, x ≠ Outcome.success a) (b : β) : (x >>= f) ≠ Outcome.success b := by
  cases x with
  | undefined => intro h; cases h
  | failure => intro h; cases h
  | success a => exact absurd rfl (hx a)

/-- The step of `ReadJSON` for one top-level array fails when an element of the
array is rejected whatever the loader holds, and no element can leave the run
without a result. -/
theorem ReadArrayOfMaps_eq_failure
    (func : GLTF_Loader → UT_JSONValueMap → Nat → Outcome GLTF_Loader)
    (root : UT_JSONValueMap) (key : String) (m : UT_JSONValueMap) (hm : objectAt root key m)
    (hfunc : ∀ s i, func s m i = Outcome.failure)
    (hdef : ∀ m, objectAt root key m → ∀ s i, func s m i ≠ Outcome.undefined)
    (s : GLTF_Loader) :
    ReadArrayOfMaps (getKey root key) false func s = Outcome.failure := by
  apply Outcome.eq_failure_of_ne
  · exact ReadArrayOfMaps_ne_undefined func _ s
      (fun arr harr m1 hm1 => hdef m1 ⟨arr, harr, hm1⟩)
  · intro s1
    exact ReadArrayOfMaps_ne_success func root key m hm
      (fun s i s1 => by rw [hfunc s i]; intro h; cases h) s s1

theorem ReadJSON_accessor_lacks (junk : Nat) (root : UT_JSONValueMap) (s : GLTF_Loader)
    (h : AccessorLacksRequired root) : ReadJSON junk root s = Outcome.failure := by
  obtain ⟨m, hm, hlack⟩ := h
  have hstep := ReadArrayOfMaps_eq_failure ReadAccessor root "accessors" m hm
    (fun s i => ReadAccessor_missing_required s m i hlack)
    (fun m _ s i => ReadAccessor_ne_undefined s m i)
  unfold ReadJSON
  split
  · simp only [hstep]
    rfl
  · rfl

theorem ReadJSON_buffer_lacks (junk : Nat) (root : UT_JSONValueMap) (s : GLTF_Loader)
    (h : BufferLacksRequired root) : ReadJSON junk root s = Outcome.failure := by
  obtain ⟨m, hm, hlack⟩ := h
  have hstep := ReadArrayOfMaps_eq_failure ReadBuffer root "buffers" m hm
    (fun s i => ReadBuffer_missing_required s m i hlack)
    (fun m _ s i => ReadBuffer_ne_undefined s m i)
  unfold ReadJSON
  split
  · refine Outcome.bind_eq_failure _ _ (ReadArrayOfMaps_ne_undefined _ _ _
      (fun _ _ m _ s i => ReadAccessor_ne_undefined s m i)) (fun _ => ?_)
    simp only [hstep]
    rfl
  · rfl

theorem ReadJSON_bufferView_lacks (junk : Nat) (root : UT_JSONValueMap) (s : GLTF_Loader)
    (h : BufferViewLacksRequired root) : ReadJSON junk root s = Outcome.failure := by
  obtain ⟨m, hm, hlack⟩ := h
  have hstep := ReadArrayOfMaps_eq_failure ReadBufferView root "bufferViews" m hm
    (fun s i => ReadBufferView_missing_required s m i hlack)
    (fun m _ s i => ReadBufferView_ne_undefined s m i)
  unfold ReadJSON
  split
  · refine Outcome.bind_eq_failure _ _ (ReadArrayOfMaps_ne_undefined _ _ _
      (fun _ _ m _ s i => ReadAccessor_ne_undefined s m i)) (fun _ => ?_)
    refine Outcome.bind_eq_failure _ _ (ReadArrayOfMaps_ne_undefined _ _ _
      (fun _ _ m _ s i => ReadBuffer_ne_undefined s m i)) (fun _ => ?_)
    simp only [hstep]
    rfl
  · rfl

theorem ReadJSON_mesh_lacks_ne_success (junk : Nat) (root : UT_JSONValueMap) (s : GLTF_Loader)
    (h : MeshLacksRequired root) (s1 : GLTF_Loader) :
    ReadJSON junk root s ≠ Outcome.success s1 := by
  obtain ⟨m, hm, hlack⟩ := h
  unfold ReadJSON
  split
  · refine Outcome.bind_ne_success _ _ (fun _ => ?_) s1
    refine Outcome.bind_ne_success _ _ (fun _ => ?_)
    refine Outcome.bind_ne_success _ _ (fun s3 => ?_)
    exact Outcome.bind_ne_success_left _ _
      (fun a => ReadArrayOfMaps_ne_success ReadMesh root "meshes" m hm
        (fun s i s1 => ReadMesh_ne_success s m i hlack s1) s3 a)
  · intro h; cases h

theorem ReadJSON_mesh_lacks (junk : Nat) (root : UT_JSONValueMap) (s : GLTF_Loader)
    (h : MeshLacksRequired root) (hattr : AttributesAreObjects root) :
    ReadJSON junk root s = Outcome.failure := by
  obtain ⟨m, hm, hlack⟩ := h
  have hstep : ∀ s, ReadArrayOfMaps (getKey root "meshes") false ReadMesh s =
      Outcome.failure := by
    intro s
    apply Outcome.eq_failure_of_ne
    · exact ReadArrayOfMaps_ne_undefined ReadMesh _ s
        (fun arr harr m1 hm1 s i => ReadMesh_ne_undefined s m1 i
          (fun p hp => hattr m1 ⟨arr, harr, hm1⟩ p hp))
    · exact fun s1 => ReadArrayOfMaps_ne_success ReadMesh root "meshes" m hm
        (fun s i s1 => ReadMesh_ne_success s m i hlack s1) s s1
  unfold ReadJSON
  split
  · refine Outcome.bind_eq_failure _ _ (ReadArrayOfMaps_ne_undefined _ _ _
      (fun _ _ m _ s i => ReadAccessor_ne_undefined s m i)) (fun _ => ?_)
    refine Outcome.bind_eq_failure _ _ (ReadArrayOfMaps_ne_undefined _ _ _
      (fun _ _ m _ s i => ReadBuffer_ne_undefined s m i)) (fun _ => ?_)
    refine Outcome.bind_eq_failure _ _ (ReadArrayOfMaps_ne_undefined _ _ _
      (fun _ _ m _ s i => ReadBufferView_ne_undefined s m i)) (fun _ => ?_)
    simp only [hstep]
    rfl
  · rfl

/-- When `ReadJSON` rejects every document the JSON reader can give back,
`Load` returns `false`. -/
theorem Load_failure_of_ReadJSON (hdk : HDK) (junk : Nat) (s : GLTF_Loader)
    (h : ∀ text keymap, hdk.jsonParse text = some (.JSON_MAP keymap) →
      ReadJSON junk keymap s = Outcome.failure) :
    Load hdk junk s = Outcome.failure := by
  have hgltf : ReadGLTF hdk junk s = Outcome.failure := by
    unfold ReadGLTF
    split
    · rfl
    · split
      · next keymap hk => exact h _ _ hk
      · rfl
  have hglb : ReadGLB hdk junk s = Outcome.failure := by
    unfold ReadGLB
    split
    · rfl
    · dsimp only
      split_ifs
      · rfl
      · rfl
      · rfl
      · rfl
      · rfl
      · split
        · next keymap hk => rw [h _ _ hk]
        · rfl
  unfold Load
  simp only [hgltf, hglb]
  split_ifs <;> rfl

/-- C12 (as far as it holds): a document that has an accessor without
`componentType`, `count` or `type`, a buffer without `byteLength`, a buffer view
without `buffer` or `byteLength`, or a mesh without `primitives` or with a
primitive without `attributes` is never accepted by `ReadJSON`.  `ReadJSON`
returns `false` when the defect is in an accessor, a buffer or a buffer view, and
also when every `attributes` member of every primitive is an object; `Load` then
returns `false` for a file holding that document. -/
theorem ReadJSON_rejects_missing_required (hdk : HDK) (junk : Nat) (root : UT_JSONValueMap)
    (s : GLTF_Loader)
    (h : AccessorLacksRequired root ∨ BufferLacksRequired root ∨
      BufferViewLacksRequired root ∨ MeshLacksRequired root) :
    (∀ s1, ReadJSON junk root s ≠ Outcome.success s1) ∧
    (AccessorLacksRequired root ∨ BufferLacksRequired root ∨
        BufferViewLacksRequired root ∨ AttributesAreObjects root →
      ReadJSON junk root s = Outcome.failure ∧
      ((∀ text keymap, hdk.jsonParse text = some (.JSON_MAP keymap) → keymap = root) →
        Load hdk junk s = Outcome.failure)) := by
  have hfail : AccessorLacksRequired root ∨ BufferLacksRequired root ∨
      BufferViewLacksRequired root ∨ AttributesAreObjects root →
      ReadJSON junk root s = Outcome.failure := by
    intro h2
    rcases h2 with h2 | h2 | h2 | h2
    · exact ReadJSON_accessor_lacks junk root s h2
    · exact ReadJSON_buffer_lacks junk root s h2
    · exact ReadJSON_bufferView_lacks junk root s h2
    · rcases h with h | h | h | h
      · exact ReadJSON_accessor_lacks junk root s h
      · exact ReadJSON_buffer_lacks junk root s h
      · exact ReadJSON_bufferView_lacks junk root s h
      · exact ReadJSON_mesh_lacks junk root s h h2
  constructor
  · intro s1
    rcases h with h | h | h | h
    · rw [ReadJSON_accessor_lacks junk root s h]; intro h; cases h
    · rw [ReadJSON_buffer_lacks junk root s h]; intro h; cases h
    · rw [ReadJSON_bufferView_lacks junk root s h]; intro h; cases h
    · exact ReadJSON_mesh_lacks_ne_success junk root s h s1
  · intro h2
    refine ⟨hfail h2, fun hparse => ?_⟩
    apply Load_failure_of_ReadJSON
    intro text keymap hk
    rw [hparse text keymap hk]
    exact hfail h2

theorem meshWithoutPrimitivesDoc_lacks : MeshLacksRequired meshWithoutPrimitivesDoc :=
  ⟨[("name", .JSON_STRING "empty")], ⟨_, rfl, List.mem_cons_self _ _⟩, Or.inl rfl⟩

theorem meshWithoutPrimitivesDoc_attributes : AttributesAreObjects meshWithoutPrimitivesDoc := by
  intro m hm p hp
  obtain ⟨arr, harr, hmem⟩ := hm
  obtain ⟨prims, hprims, _⟩ := hp
  have hdoc : getKey meshWithoutPrimitivesDoc "meshes" =
      some (.JSON_ARRAY [.JSON_MAP [("name", .JSON_STRING "empty")]]) := rfl
  rw [hdoc] at harr
  simp only [Option.some.injEq, UT_JSONValue.JSON_ARRAY.injEq] at harr
  subst harr
  simp only [List.mem_singleton, UT_JSONValue.JSON_MAP.injEq] at hmem
  subst hmem
  have hnone : getKey [("name", UT_JSONValue.JSON_STRING "empty")] "primitives" = none := rfl
  rw [hnone] at hprims
  cases hprims

set_option maxRecDepth 100000 in
/-- Witness for C12: the document `meshWithoutPrimitivesDoc` in the file
`scene.gltf`. -/
theorem ReadJSON_rejects_missing_required_witness :
    (∀ s1, ReadJSON 0 meshWithoutPrimitivesDoc (GLTF_Loader.create "scene.gltf") ≠
        Outcome.success s1) ∧
      ReadJSON 0 meshWithoutPrimitivesDoc (GLTF_Loader.create "scene.gltf") = Outcome.failure ∧
      Load (referenceHDK (.JSON_MAP meshWithoutPrimitivesDoc)
          [("scene.gltf", jsonText (.JSON_MAP meshWithoutPrimitivesDoc))]) 0
        (GLTF_Loader.create "scene.gltf") = Outcome.failure :=
  have t := ReadJSON_rejects_missing_required
    (referenceHDK (.JSON_MAP meshWithoutPrimitivesDoc)
      [("scene.gltf", jsonText (.JSON_MAP meshWithoutPrimitivesDoc))]) 0
    meshWithoutPrimitivesDoc (GLTF_Loader.create "scene.gltf")
    (Or.inr (Or.inr (Or.inr meshWithoutPrimitivesDoc_lacks)))
  have t2 := t.2 (Or.inr (Or.inr (Or.inr meshWithoutPrimitivesDoc_attributes)))
  ⟨t.1, t2.1, t2.2 (by
    intro text keymap hk
    simp only [referenceHDK, parseKnown] at hk
    split at hk
    · simp only [Option.some.injEq, UT_JSONValue.JSON_MAP.injEq] at hk
      exact hk.symm
    · cases hk)⟩

set_option maxRecDepth 100000 in
/-- C12 (the code at the failing input): the second mesh of `nullAttributesDoc`
has no `primitives`, but the run has no defined result: the first mesh has a
primitive whose `attributes` is the number 5, and `ReadPrimitive` dereferences
the null pointer `getMap()` gives it. -/
theorem ReadJSON_dereferences_null_attributes :
    MeshLacksRequired nullAttributesDoc ∧
      ReadJSON 0 nullAttributesDoc (GLTF_Loader.create "scene.gltf") = Outcome.undefined ∧
      Load (referenceHDK (.JSON_MAP nullAttributesDoc)
          [("scene.gltf", jsonText (.JSON_MAP nullAttributesDoc))]) 0
        (GLTF_Loader.create "scene.gltf") = Outcome.undefined :=
  ⟨⟨[], ⟨_, rfl, List.mem_cons_of_mem _ (List.mem_cons_self _ _)⟩, Or.inl rfl⟩,
    by decide, by decide⟩

theorem getKey_cons_ne (k k1 : String) (v : UT_JSONValue) (m : UT_JSONValueMap)
    (h : k1 ≠ k) : getKey ((k, v) :: m) k1 = getKey m k1 := by
  have hb : (k1 == k) = false := by simpa using h
  simp [getKey, List.lookup, hb]

theorem ConvertToComponentType_allowed (v : Nat)
    (h : v ∈ [5120, 5121, 5122, 5123, 5125, 5126]) :
    (ConvertToComponentType v).toNat = v ∧
      ConvertToComponentType v ≠ GLTF_ComponentType.GLTF_COMPONENT_INVALID := by
  simp only [List.mem_cons, List.mem_singleton, List.not_mem_nil, or_false] at h
  rcases h with h | h | h | h | h | h <;> subst h <;> decide

theorem ConvertToComponentType_other (v : Nat)
    (h : v ∉ [5120, 5121, 5122, 5123, 5125, 5126]) :
    ConvertToComponentType v = GLTF_ComponentType.GLTF_COMPONENT_INVALID := by
  simp only [List.mem_cons, List.mem_singleton, List.not_mem_nil, or_false, not_or] at h
  obtain ⟨h0, h1, h2, h3, h5, h6⟩ := h
  unfold ConvertToComponentType
  split
  · next hr =>
    simp only [GLTF_ComponentType.toNat] at hr
    omega
  · rfl

/-- C14: `ReadAccessor` accepts the integer `componentType` of an accessor exactly
when its 32-bit value `v` is one of 5120, 5121, 5122, 5123, 5125, 5126, and then
stores the component type with code `v`; for every other value (5124 and 0
among them) `ConvertToComponentType` gives `GLTF_COMPONENT_INVALID` and
`ReadAccessor` returns `false`, whatever the other members are. -/
theorem ReadAccessor_componentType_allow_list (s : GLTF_Loader)
    (accessor_json : UT_JSONValueMap) (idx : Nat) (i : Int)
    (hct : getKey accessor_json "componentType" = some (.JSON_INT i)) :
    (toUInt32 i ∉ [5120, 5121, 5122, 5123, 5125, 5126] →
      ConvertToComponentType (toUInt32 i) = GLTF_ComponentType.GLTF_COMPONENT_INVALID ∧
      ReadAccessor s accessor_json idx = Outcome.failure) ∧
    (toUInt32 i ∈ [5120, 5121, 5122, 5123, 5125, 5126] →
      ∀ (bufferView byteOffset count : Nat) (normalized : Bool) (type name : String),
      ParseAsInteger (getKey accessor_json "bufferView") false GLTF_INVALID_IDX =
        some bufferView →
      ParseAsInteger (getKey accessor_json "byteOffset") false 0 = some byteOffset →
      ParseAsBool (getKey accessor_json "normalized") false false = some normalized →
      ParseAsInteger (getKey accessor_json "count") true 0 = some count →
      ParseAsString (getKey accessor_json "type") true "" = some type →
      ParseAsString (getKey accessor_json "name") false "" = some name →
      ReadAccessor s accessor_json idx =
          Outcome.success { s with myAccesors := s.myAccesors ++
            [{ bufferView := bufferView, byteOffset := byteOffset,
               componentType := ConvertToComponentType (toUInt32 i),
               normalized := normalized, count := count,
               type := ConvertStringTogltf_type type, name := name }] } ∧
        (ConvertToComponentType (toUInt32 i)).toNat = toUInt32 i) ∧
    ConvertToComponentType 5124 = GLTF_ComponentType.GLTF_COMPONENT_INVALID ∧
    ConvertToComponentType 0 = GLTF_ComponentType.GLTF_COMPONENT_INVALID := by
  refine ⟨?_, ?_, rfl, rfl⟩
  · intro hv
    have hinv := ConvertToComponentType_other _ hv
    refine ⟨hinv, ?_⟩
    unfold ReadAccessor
    refine Outcome.bind_eq_failure _ _ (Outcome.ofOption_ne_undefined _) (fun _ => ?_)
    refine Outcome.bind_eq_failure _ _ (Outcome.ofOption_ne_undefined _) (fun _ => ?_)
    rw [hct]
    simp only [ParseAsInteger, Outcome.ofOption, Outcome.bind_success]
    refine Outcome.bind_eq_failure _ _ (Outcome.ofOption_ne_undefined _) (fun _ => ?_)
    refine Outcome.bind_eq_failure _ _ (Outcome.ofOption_ne_undefined _) (fun _ => ?_)
    refine Outcome.bind_eq_failure _ _ (Outcome.ofOption_ne_undefined _) (fun _ => ?_)
    refine Outcome.bind_eq_failure _ _ (Outcome.ofOption_ne_undefined _) (fun _ => ?_)
    simp only [hinv, if_true]
  · intro hv bufferView byteOffset count normalized type name h1 h2 h3 h4 h5 h6
    obtain ⟨hnat, hne⟩ := ConvertToComponentType_allowed _ hv
    refine ⟨?_, hnat⟩
    have hp : ParseAsInteger (getKey accessor_json "componentType") true 0 =
        some (toUInt32 i) := by rw [hct]; rfl
    unfold ReadAccessor
    simp only [hp, h1, h2, h3, h4, h5, h6, Outcome.ofOption, Outcome.bind_success,
      hne, if_false, Outcome.pure_eq]

/-- Witness for C14: an accessor with `componentType: 5124`, and one with
`componentType: 5126`. -/
theorem ReadAccessor_componentType_allow_list_witness :
    ReadAccessor {} [("componentType", .JSON_INT 5124), ("count", .JSON_INT 3),
        ("type", .JSON_STRING "VEC3")] 0 = Outcome.failure ∧
      ReadAccessor {} [("componentType", .JSON_INT 5126), ("count", .JSON_INT 3),
        ("type", .JSON_STRING "VEC3")] 0 =
        Outcome.success { myAccesors :=
          [{ componentType := .GLTF_COMPONENT_FLOAT, count := 3, type := .GLTF_TYPE_VEC3 }] } :=
  ⟨((ReadAccessor_componentType_allow_list {} [("componentType", .JSON_INT 5124),
      ("count", .JSON_INT 3), ("type", .JSON_STRING "VEC3")] 0 5124 rfl).1 (by decide)).2,
    ((ReadAccessor_componentType_allow_list {} [("componentType", .JSON_INT 5126),
      ("count", .JSON_INT 3), ("type", .JSON_STRING "VEC3")] 0 5126 rfl).2.1 (by decide)
      GLTF_INVALID_IDX 0 3 false "VEC3" "" rfl rfl rfl rfl rfl rfl).1⟩

theorem Outcome.bind_eq_success {α β : Type} (x : Outcome α) (f : α → Outcome β) (b : β)
    (h : (x >>= f) = Outcome.success b) : ∃ a, x = Outcome.success a ∧ f a = Outcome.success b := by
  cases x with
  | undefined => cases h
  | failure => cases h
  | success a => exact ⟨a, rfl, h⟩

theorem Outcome.ofOption_eq_success {α : Type} (o : Option α) (a : α)
    (h : Outcome.ofOption o = Outcome.success a) : o = some a := by
  cases o with
  | none => cases h
  | some b => cases h; rfl

/-- C15 (as amended): for every buffer view object that `ReadBufferView` accepts,
the stored target is `GLTF_BUFFER_ARRAY` (34962) when `target` is absent or 0, and
is otherwise the 32-bit value of the integer `target` itself, whether or not it
is 34962 or 34963; the stored target is never `GLTF_BUFFER_INVALID`. -/
theorem ReadBufferView_stored_target (s s1 : GLTF_Loader) (bufferview_json : UT_JSONValueMap)
    (idx : Nat) (h : ReadBufferView s bufferview_json idx = Outcome.success s1) :
    ∃ bufferview, s1 = { s with myBufferViews := s.myBufferViews ++ [bufferview] } ∧
      bufferview.target ≠ GLTF_BUFFER_INVALID ∧
      (getKey bufferview_json "target" = none → bufferview.target = GLTF_BUFFER_ARRAY) ∧
      (∀ t, getKey bufferview_json "target" = some (.JSON_INT t) →
        bufferview.target = if toUInt32 t = 0 then GLTF_BUFFER_ARRAY else toUInt32 t) ∧
      (getKey bufferview_json "target" = none ∨
        ∃ t, getKey bufferview_json "target" = some (.JSON_INT t)) := by
  unfold ReadBufferView at h
  obtain ⟨buffer, _, h⟩ := Outcome.bind_eq_success _ _ _ h
  obtain ⟨byteOffset, _, h⟩ := Outcome.bind_eq_success _ _ _ h
  obtain ⟨byteLength, _, h⟩ := Outcome.bind_eq_success _ _ _ h
  obtain ⟨byteStride, _, h⟩ := Outcome.bind_eq_success _ _ _ h
  obtain ⟨target1, ht, h⟩ := Outcome.bind_eq_success _ _ _ h
  obtain ⟨name, _, h⟩ := Outcome.bind_eq_success _ _ _ h
  have ht := Outcome.ofOption_eq_success _ _ ht
  dsimp only at h
  by_cases hbuf : buffer ≥ s.myBuffers.length
  · rw [if_pos hbuf] at h
    cases h
  rw [if_neg hbuf] at h
  simp only [Outcome.pure_eq, Outcome.success.injEq] at h
  refine ⟨_, h.symm, ?_, ?_, ?_, ?_⟩
  · show (if target1 = 0 then GLTF_BUFFER_ARRAY else target1) ≠ GLTF_BUFFER_INVALID
    split_ifs with h0
    · decide
    · exact h0
  · intro hnone
    rw [hnone] at ht
    simp only [ParseAsInteger, Bool.false_eq_true, if_false, Option.some.injEq] at ht
    subst ht
    rfl
  · intro t hsome
    rw [hsome] at ht
    simp only [ParseAsInteger, Option.some.injEq] at ht
    subst ht
    rfl
  · cases hk : getKey bufferview_json "target" with
    | none => exact Or.inl rfl
    | some v =>
      rw [hk] at ht
      cases v with
      | JSON_INT t => exact Or.inr ⟨t, rfl⟩
      | _ => simp [ParseAsInteger] at ht

/-- Witness for C15: a buffer view object with `target: 34963`. -/
theorem ReadBufferView_stored_target_witness :
    ∃ bufferview : GLTF_BufferView, bufferview.target = GLTF_BUFFER_ELEMENT ∧
      ReadBufferView { myBuffers := [{}] } [("buffer", .JSON_INT 0),
          ("byteLength", .JSON_INT 4), ("target", .JSON_INT 34963)] 0 =
        Outcome.success { myBuffers := [{}], myBufferViews := [] ++ [bufferview] } :=
  (ReadBufferView_stored_target { myBuffers := [{}] } _
    [("buffer", .JSON_INT 0), ("byteLength", .JSON_INT 4), ("target", .JSON_INT 34963)] 0
    rfl).elim
    (fun bufferview h => ⟨bufferview, (h.2.2.2.1 34963 rfl).trans rfl, by rw [← h.1]; rfl⟩)

/-- C15 (counterexample): a buffer view object without `target` is accepted and
stored with the target `GLTF_BUFFER_ARRAY`, not with the default
`GLTF_BUFFER_INVALID` of the type; one with `target: 7`, which is neither 34962
nor 34963, is accepted and stored with the target 7. -/
theorem ReadBufferView_absent_target_becomes_array :
    ReadBufferView { myBuffers := [{}] }
        [("buffer", .JSON_INT 0), ("byteLength", .JSON_INT 4)] 0 =
      Outcome.success { myBuffers := [{}], myBufferViews :=
        [{ buffer := 0, byteLength := 4, target := GLTF_BUFFER_ARRAY }] } ∧
    ReadBufferView { myBuffers := [{}] }
        [("buffer", .JSON_INT 0), ("byteLength", .JSON_INT 4), ("target", .JSON_INT 7)] 0 =
      Outcome.success { myBuffers := [{}], myBufferViews :=
        [{ buffer := 0, byteLength := 4, target := 7 }] } ∧
    GLTF_BUFFER_ARRAY ≠ GLTF_BUFFER_INVALID ∧ 7 ≠ GLTF_BUFFER_INVALID ∧
    ({} : GLTF_BufferView).target = GLTF_BUFFER_INVALID := by
  decide

/-- C16: for every string `str` and every element type `t` other than
`GLTF_TYPE_INVALID`, `ConvertStringTogltf_type str` is `t` exactly when `str` is
the name `typeGetName t` character for character, and a string that is the name
of no element type converts to `GLTF_TYPE_INVALID`; so do `vec3` and `Vec3`. -/
theorem ConvertStringTogltf_type_iff_typeGetName (str : String) :
    (∀ t, t ≠ GLTF_Type.GLTF_TYPE_INVALID →
      (ConvertStringTogltf_type str = t ↔ GLTF_Util.typeGetName t = some str)) ∧
    ((∀ t, t ≠ GLTF_Type.GLTF_TYPE_INVALID → GLTF_Util.typeGetName t ≠ some str) →
      ConvertStringTogltf_type str = GLTF_Type.GLTF_TYPE_INVALID) ∧
    ConvertStringTogltf_type "vec3" = GLTF_Type.GLTF_TYPE_INVALID ∧
    ConvertStringTogltf_type "Vec3" = GLTF_Type.GLTF_TYPE_INVALID := by
  have key : ∀ t, t ≠ GLTF_Type.GLTF_TYPE_INVALID →
      (ConvertStringTogltf_type str = t ↔ GLTF_Util.typeGetName t = some str) := by
    intro t ht
    constructor
    · intro h
      subst h
      unfold ConvertStringTogltf_type at ht ⊢
      split_ifs at ht ⊢ with h1 h2 h3 h4 h5 h6 h7
      · rw [h1]; rfl
      · rw [h2]; rfl
      · rw [h3]; rfl
      · rw [h4]; rfl
      · rw [h5]; rfl
      · rw [h6]; rfl
      · rw [h7]; rfl
      · exact absurd rfl ht
    · intro h
      cases t with
      | GLTF_TYPE_INVALID => exact absurd rfl ht
      | _ =>
        simp only [GLTF_Util.typeGetName, Option.some.injEq] at h
        subst h
        decide
  refine ⟨key, ?_, by decide, by decide⟩
  intro hno
  by_contra hne
  exact hno _ hne ((key _ hne).mp rfl)

/-- Witness for C16: the strings `VEC3` and `Vec3`. -/
theorem ConvertStringTogltf_type_iff_typeGetName_witness :
    (ConvertStringTogltf_type "VEC3" = GLTF_Type.GLTF_TYPE_VEC3 ↔
        GLTF_Util.typeGetName GLTF_Type.GLTF_TYPE_VEC3 = some "VEC3") ∧
      ConvertStringTogltf_type "Vec3" = GLTF_Type.GLTF_TYPE_INVALID :=
  ⟨(ConvertStringTogltf_type_iff_typeGetName "VEC3").1 GLTF_Type.GLTF_TYPE_VEC3 (by decide),
    (ConvertStringTogltf_type_iff_typeGetName "Vec3").2.1
      (fun t _ => by cases t <;> decide)⟩

theorem digitChar_value (m : Nat) (h : m < 10) : (Nat.digitChar m).toNat - 48 = m := by
  interval_cases m <;> rfl

theorem toDigitsCore_value (fuel : Nat) :
    ∀ (n : Nat) (ds : List Char), n < fuel →
      ∃ k, ∀ a, (Nat.toDigitsCore 10 fuel n ds).foldl (fun acc c => acc * 10 + (c.toNat - 48)) a =
        ds.foldl (fun acc c => acc * 10 + (c.toNat - 48)) (a * 10 ^ k + n) := by
  induction fuel with
  | zero => intro n ds h; omega
  | succ fuel ih =>
    intro n ds h
    unfold Nat.toDigitsCore
    by_cases h0 : n / 10 = 0
    · refine ⟨1, fun a => ?_⟩
      simp only [h0, if_true, List.foldl_cons, pow_one]
      rw [digitChar_value _ (Nat.mod_lt _ (by decide))]
      have : n % 10 = n := Nat.mod_eq_of_lt (by omega)
      rw [this]
    · obtain ⟨k, hk⟩ := ih (n / 10) (Nat.digitChar (n % 10) :: ds) (by omega)
      refine ⟨k + 1, fun a => ?_⟩
      simp only [h0, if_false]
      rw [hk a, List.foldl_cons, digitChar_value _ (Nat.mod_lt _ (by decide))]
      congr 1
      rw [pow_succ]
      have := Nat.div_add_mod n 10
      nlinarith [Nat.div_add_mod n 10]

/-- The text `toString n` is the decimal numeral of `n`. -/
theorem decimalValue_toString (n : Nat) : decimalValue (toString n).data = n := by
  obtain ⟨k, hk⟩ := toDigitsCore_value (n + 1) n [] (by omega)
  have h := hk 0
  simp only [List.foldl_nil, Nat.zero_mul, Nat.zero_add] at h
  exact h

theorem toString_injective (a b : Nat) (h : toString a = toString b) : a = b := by
  rw [← decimalValue_toString a, ← decimalValue_toString b, h]

theorem readMaps_append
    (func : GLTF_Loader → UT_JSONValueMap → Nat → Outcome GLTF_Loader)
    (xs ys : List UT_JSONValue) :
    ∀ (i : Nat) (s : GLTF_Loader),
      readMaps func (xs ++ ys) i s =
        (readMaps func xs i s >>= fun s1 => readMaps func ys (i + xs.length) s1) := by
  induction xs with
  | nil => intro i s; rfl
  | cons x rest ih =>
    intro i s
    cases x with
    | JSON_MAP m =>
      simp only [List.cons_append, readMaps, List.length_cons]
      cases hf : func s m i with
      | undefined => rfl
      | failure => rfl
      | success s1 =>
        have hlen : i + 1 + rest.length = i + (rest.length + 1) := by omega
        have hrest := ih (i + 1) s1
        rw [hlen] at hrest
        exact hrest
    | _ => rfl

/-- C17: a material object without a `name` key, read at the 0-based array
position `idx`, gets the name `principledshader` followed by the decimal numeral
of `idx + 1`; such names are not empty and differ for different positions.  A
material whose `name` is a string keeps that name.  The position handed to
`ReadMaterial` is the number of elements that precede the object in the
`materials` array. -/
theorem ReadMaterial_synthesized_name (s : GLTF_Loader) (material_json : UT_JSONValueMap)
    (idx : Nat) :
    (getKey material_json "name" = none →
      ReadMaterial s material_json idx = Outcome.success { s with
        myMaterials := s.myMaterials ++ [{ name := "principledshader" ++ toString (idx + 1) }] }) ∧
    (∀ name, getKey material_json "name" = some (.JSON_STRING name) →
      ReadMaterial s material_json idx = Outcome.success { s with
        myMaterials := s.myMaterials ++ [{ name := name }] }) ∧
    decimalValue (toString (idx + 1)).data = idx + 1 ∧
    "principledshader" ++ toString (idx + 1) ≠ "" ∧
    (∀ jdx, "principledshader" ++ toString (idx + 1) =
      "principledshader" ++ toString (jdx + 1) → idx = jdx) ∧
    (∀ (before after : List UT_JSONValue) (s0 s1 : GLTF_Loader),
      before.length = idx → readMaps ReadMaterial before 0 s0 = Outcome.success s1 →
      getKey material_json "name" = none →
      ReadArrayOfMaps (some (.JSON_ARRAY (before ++ .JSON_MAP material_json :: after))) false
          ReadMaterial s0 =
        readMaps ReadMaterial after (idx + 1) { s1 with
          myMaterials := s1.myMaterials ++
            [{ name := "principledshader" ++ toString (idx + 1) }] }) := by
  have hnone : ∀ s : GLTF_Loader, getKey material_json "name" = none →
      ReadMaterial s material_json idx = Outcome.success { s with
        myMaterials := s.myMaterials ++
          [{ name := "principledshader" ++ toString (idx + 1) }] } := by
    intro s h
    unfold ReadMaterial
    simp only [h]
    rfl
  refine ⟨hnone s, ?_, decimalValue_toString _, ?_, ?_, ?_⟩
  · intro name h
    unfold ReadMaterial
    simp only [h]
    rfl
  · intro h
    have := congrArg String.data h
    simp [String.data_append] at this
  · intro jdx h
    have h1 := congrArg String.data h
    simp only [String.data_append, List.append_cancel_left_eq] at h1
    have h2 : toString (idx + 1) = toString (jdx + 1) := String.ext h1
    have := toString_injective _ _ h2
    omega
  · intro before after s0 s1 hlen hbefore h
    unfold ReadArrayOfMaps
    simp only [Bool.false_and, Bool.false_eq_true, if_false]
    rw [readMaps_append, hbefore]
    simp only [Outcome.bind_success, readMaps, Nat.zero_add, hlen, hnone s1 h]

set_option maxRecDepth 100000 in
/-- Witness for C17: the array of an unnamed material, a material named `gold`
and another unnamed material. -/
theorem ReadMaterial_synthesized_name_witness :
    ReadMaterial {} [] 0 = Outcome.success { myMaterials := [{ name := "principledshader1" }] } ∧
      ReadMaterial {} [("name", .JSON_STRING "gold")] 1 =
        Outcome.success { myMaterials := [{ name := "gold" }] } ∧
      ReadArrayOfMaps (some (.JSON_ARRAY [.JSON_MAP [],
          .JSON_MAP [("name", .JSON_STRING "gold")], .JSON_MAP []])) false ReadMaterial {} =
        Outcome.success { myMaterials := [{ name := "principledshader1" }, { name := "gold" },
          { name := "principledshader3" }] } :=
  ⟨(ReadMaterial_synthesized_name {} [] 0).1 rfl,
    (ReadMaterial_synthesized_name {} [("name", .JSON_STRING "gold")] 1).2.1 "gold" rfl,
    ((ReadMaterial_synthesized_name {} [] 2).2.2.2.2.2
      [.JSON_MAP [], .JSON_MAP [("name", .JSON_STRING "gold")]] [] {} _ rfl rfl rfl).trans
      (by decide)⟩

theorem bufferGrow_eq (root : ROP_GLTF_ExportRoot) (bid bytes : Nat) (staged : List Nat)
    (hbid : root.myBufferData[bid]? = some staged) :
    root.bufferGrow bid bytes = Outcome.success (staged.length % 4294967296,
      { root with myBufferData := root.myBufferData.set bid (staged ++ List.replicate bytes 0) }) := by
  unfold bufferGrow
  rw [hbid]

/-- What `BufferAlloc` does to a buffer with staged bytes `staged`: it appends the
padding and then the fresh bytes, and hands back the padded size as a `uint32`. -/
theorem BufferAlloc_eq (root : ROP_GLTF_ExportRoot) (bid bytes alignment : Nat)
    (staged : List Nat) (hbid : root.myBufferData[bid]? = some staged)
    (ha : 1 ≤ alignment) :
    root.BufferAlloc bid bytes alignment =
      Outcome.success
        ((staged.length + (if staged.length % 4294967296 % alignment = 0 then 0
            else alignment - staged.length % 4294967296 % alignment)) % 4294967296,
         { root with
            myBufferData := root.myBufferData.set bid
              (staged ++ List.replicate (if staged.length % 4294967296 % alignment = 0 then 0
                else alignment - staged.length % 4294967296 % alignment) 0 ++
                List.replicate bytes 0) }) := by
  have hlt : bid < root.myBufferData.length := by
    by_contra hge
    rw [List.getElem?_eq_none (by omega)] at hbid
    cases hbid
  have ha0 : alignment ≠ 0 := by omega
  unfold BufferAlloc
  rw [hbid]
  simp only [ha0, if_false]
  by_cases hz : staged.length % 4294967296 % alignment = 0
  · simp only [hz, bne_self_eq_false, Bool.false_eq_true, if_false, if_true,
      List.replicate_zero, List.append_nil, Nat.add_zero]
    exact bufferGrow_eq root bid bytes staged hbid
  · have hb : (staged.length % 4294967296 % alignment != 0) = true := by
      rw [bne_iff_ne]; exact hz
    simp only [hb, if_true, hz, if_false]
    rw [bufferGrow_eq root bid _ staged hbid]
    simp only []
    rw [bufferGrow_eq _ bid bytes (staged ++ List.replicate
      (alignment - staged.length % 4294967296 % alignment) 0)
      (by simp only [List.getElem?_set_self hlt])]
    simp only [List.set_set, List.length_append, List.length_replicate]

/-- The padded size: the staged size rounded up to the alignment. -/
theorem padded_size_least (n alignment : Nat) (ha : 1 ≤ alignment) :
    alignment ∣ n + (if n % alignment = 0 then 0 else alignment - n % alignment) ∧
      ∀ m, alignment ∣ m → n ≤ m →
        n + (if n % alignment = 0 then 0 else alignment - n % alignment) ≤ m := by
  have hdm := Nat.div_add_mod n alignment
  have hr : n % alignment < alignment := Nat.mod_lt _ (by omega)
  by_cases hz : n % alignment = 0
  · simp only [hz, if_true, Nat.add_zero]
    exact ⟨Nat.dvd_of_mod_eq_zero hz, fun m _ h => h⟩
  · simp only [hz, if_false]
    have he : n + (alignment - n % alignment) = alignment * (n / alignment + 1) := by
      rw [Nat.mul_add, Nat.mul_one]
      omega
    rw [he]
    refine ⟨Dvd.intro _ rfl, ?_⟩
    rintro m ⟨c, rfl⟩ hle
    apply Nat.mul_le_mul_left
    have hlt : alignment * (n / alignment) < alignment * c := by omega
    have := Nat.lt_of_mul_lt_mul_left hlt
    omega

/-- C18 (as amended): for a buffer `bid` with `n` staged bytes, a byte count and an
alignment of at least 1, when some multiple of the alignment that is at least
`n` is below `2 ^ 32`, `BufferAlloc` hands back the least multiple of the
alignment that is at least `n`, keeps the first `n` staged bytes of `bid`, makes
its staged size the offset plus the byte count, and leaves every other buffer
and the document as they were. -/
theorem BufferAlloc_aligned_offset (root : ROP_GLTF_ExportRoot) (bid bytes alignment : Nat)
    (staged : List Nat) (hbid : root.myBufferData[bid]? = some staged)
    (ha : 1 ≤ alignment)
    (hfit : ∃ m, alignment ∣ m ∧ staged.length ≤ m ∧ m < 4294967296) :
    ∃ offset root1 staged1,
      root.BufferAlloc bid bytes alignment = Outcome.success (offset, root1) ∧
      alignment ∣ offset ∧ staged.length ≤ offset ∧
      (∀ m, alignment ∣ m → staged.length ≤ m → offset ≤ m) ∧
      root1.myBufferData[bid]? = some staged1 ∧
      staged1.take staged.length = staged ∧
      staged1.length = offset + bytes ∧
      (∀ other, other ≠ bid → root1.myBufferData[other]? = root.myBufferData[other]?) ∧
      root1.myBufferData.length = root.myBufferData.length ∧
      root1.myLoader = root.myLoader := by
  obtain ⟨m, hm1, hm2, hm3⟩ := hfit
  have hlt : bid < root.myBufferData.length := by
    by_contra hge
    rw [List.getElem?_eq_none (by omega)] at hbid
    cases hbid
  have hn : staged.length % 4294967296 = staged.length := Nat.mod_eq_of_lt (by omega)
  obtain ⟨hdvd, hleast⟩ := padded_size_least staged.length alignment ha
  have heq := BufferAlloc_eq root bid bytes alignment staged hbid ha
  rw [hn] at heq
  have hsmall : staged.length + (if staged.length % alignment = 0 then 0
      else alignment - staged.length % alignment) < 4294967296 :=
    Nat.lt_of_le_of_lt (hleast m hm1 hm2) hm3
  rw [Nat.mod_eq_of_lt hsmall] at heq
  refine ⟨_, _, staged ++ List.replicate (if staged.length % alignment = 0 then 0
      else alignment - staged.length % alignment) 0 ++ List.replicate bytes 0,
    heq, hdvd, Nat.le_add_right _ _, hleast, ?_, ?_, ?_, ?_, ?_, rfl⟩
  · simp only [List.getElem?_set_self hlt]
  · rw [List.append_assoc, List.take_left' rfl]
  · simp only [List.length_append, List.length_replicate]
  · intro other hne
    simp only [List.getElem?_set_ne (Ne.symm hne)]
  · simp only [List.length_set]

/-- Witness for C18: `BufferAlloc(0, 8, 4)` on a buffer with six staged bytes. -/
theorem BufferAlloc_aligned_offset_witness :
    ∃ offset root1 staged1,
      ROP_GLTF_ExportRoot.BufferAlloc { myBufferData := [[1, 2, 3, 4, 5, 6], [7]] } 0 8 4 =
        Outcome.success (offset, root1) ∧
      4 ∣ offset ∧ [1, 2, 3, 4, 5, 6].length ≤ offset ∧
      (∀ m, 4 ∣ m → [1, 2, 3, 4, 5, 6].length ≤ m → offset ≤ m) ∧
      root1.myBufferData[0]? = some staged1 ∧
      staged1.take [1, 2, 3, 4, 5, 6].length = [1, 2, 3, 4, 5, 6] ∧
      staged1.length = offset + 8 ∧
      (∀ other, other ≠ 0 → root1.myBufferData[other]? =
        ({ myBufferData := [[1, 2, 3, 4, 5, 6], [7]] } : ROP_GLTF_ExportRoot).myBufferData[other]?) ∧
      root1.myBufferData.length =
        ({ myBufferData := [[1, 2, 3, 4, 5, 6], [7]] } : ROP_GLTF_ExportRoot).myBufferData.length ∧
      root1.myLoader = ({ myBufferData := [[1, 2, 3, 4, 5, 6], [7]] } : ROP_GLTF_ExportRoot).myLoader :=
  BufferAlloc_aligned_offset { myBufferData := [[1, 2, 3, 4, 5, 6], [7]] } 0 8 4
    [1, 2, 3, 4, 5, 6] rfl (by decide) ⟨8, by decide, by decide, by decide⟩

/-- C18 (counterexample): buffer 0 of `nearlyFullRoot` has `2 ^ 32 - 1` staged
bytes; `BufferAlloc(0, 4, 4)` pads it to `2 ^ 32` bytes and hands back the offset
0, a `uint32`, while the least multiple of 4 that is at least the staged size is
`2 ^ 32`. -/
theorem BufferAlloc_offset_wraps :
    (ROP_GLTF_ExportRoot.CreateBuffer {}).2.BufferAlloc 0 4294967295 1 =
        Outcome.success (0, nearlyFullRoot) ∧
    ∃ staged root1, nearlyFullRoot.myBufferData[0]? = some staged ∧
      staged.length = 4294967295 ∧
      ROP_GLTF_ExportRoot.BufferAlloc nearlyFullRoot 0 4 4 = Outcome.success (0, root1) ∧
      ¬ staged.length ≤ 0 ∧
      (∀ m, 4 ∣ m → staged.length ≤ m → 4294967296 ≤ m) := by
  have hbid : nearlyFullRoot.myBufferData[0]? = some (List.replicate 4294967295 0) := rfl
  have heq := BufferAlloc_eq nearlyFullRoot 0 4 4 _ hbid (by decide)
  rw [List.length_replicate] at heq
  have h1 : (4294967295 + (if 4294967295 % 4294967296 % 4 = 0 then 0
      else 4 - 4294967295 % 4294967296 % 4)) % 4294967296 = 0 := by decide
  rw [h1] at heq
  refine ⟨?_, _, _, hbid, List.length_replicate _ _, heq, ?_, ?_⟩
  · exact BufferAlloc_eq (ROP_GLTF_ExportRoot.CreateBuffer {}).2 0 4294967295 1 [] rfl
      (by decide)
  · rw [List.length_replicate]; decide
  · rw [List.length_replicate]
    intro m hm hle
    omega

theorem getKey_append (l1 l2 : UT_JSONValueMap) (k : String) :
    getKey (l1 ++ l2) k = (getKey l1 k).or (getKey l2 k) := by
  unfold getKey
  exact List.lookup_append

theorem getKey_block_ne (c : Prop) [Decidable c] (k k1 : String) (v : UT_JSONValue)
    (h : k ≠ k1) : getKey (if c then [] else [(k1, v)]) k = none := by
  have hb : (k == k1) = false := by simpa using h
  split <;> simp [getKey, List.lookup, hb]

theorem getKey_block_self (c : Prop) [Decidable c] (k : String) (v : UT_JSONValue) :
    getKey (if c then [] else [(k, v)]) k = if c then none else some v := by
  split <;> simp [getKey, List.lookup]

theorem getKey_nil (k : String) : getKey [] k = none := rfl

/-- C20 (what the code does): `SerializeJSON` emits each of `accessors`, `buffers`,
`nodes`, `meshes`, `materials`, `scenes`, `textures` and `images` exactly when
the document has an entity of that kind, as the array of the entities; it emits
`bufferViews` exactly when the document has a buffer, as the array of the buffer
views, which may be empty. -/
theorem SerializeJSON_top_level_keys (root : ROP_GLTF_ExportRoot) :
    root.emitted "accessors" =
      (if root.myLoader.myAccesors.length = 0 then none
       else some (.JSON_ARRAY (root.myLoader.myAccesors.map serializeAccessor))) ∧
    root.emitted "buffers" =
      (if root.myLoader.myBuffers.length = 0 then none
       else some (.JSON_ARRAY (root.myLoader.myBuffers.map root.serializeBuffer))) ∧
    root.emitted "nodes" =
      (if root.myLoader.myNodes.length = 0 then none
       else some (.JSON_ARRAY (root.myLoader.myNodes.map root.serializeNode))) ∧
    root.emitted "meshes" =
      (if root.myLoader.myMeshes.length = 0 then none
       else some (.JSON_ARRAY (root.myLoader.myMeshes.map root.serializeMesh))) ∧
    root.emitted "materials" =
      (if root.myLoader.myMaterials.length = 0 then none
       else some (.JSON_ARRAY (root.myLoader.myMaterials.map root.serializeMaterial))) ∧
    root.emitted "scenes" =
      (if root.myLoader.myScenes.length = 0 then none
       else some (.JSON_ARRAY (root.myLoader.myScenes.map root.serializeScene))) ∧
    root.emitted "textures" =
      (if root.myLoader.myTextures.length = 0 then none
       else some (.JSON_ARRAY (root.myLoader.myTextures.map root.serializeTexture))) ∧
    root.emitted "images" =
      (if root.myLoader.myImages.length = 0 then none
       else some (.JSON_ARRAY (root.myLoader.myImages.map root.serializeImage))) ∧
    root.emitted "bufferViews" =
      (if root.myLoader.myBuffers.length = 0 then none
       else some (.JSON_ARRAY (root.myLoader.myBufferViews.map root.serializeBufferView))) := by
  refine ⟨?_, ?_, ?_, ?_, ?_, ?_, ?_, ?_, ?_⟩ <;>
    simp (disch := decide) only [ROP_GLTF_ExportRoot.emitted, SerializeJSON, SerializeAsset,
      SerializeAccessors, SerializeBuffers, SerializeBufferViews, SerializeNodes,
      SerializeMeshes, SerializeMaterials, SerializeScenes, SerializeTextures,
      SerializeImages, OutputDefaultInt, OutputInt, OutputString, List.append_assoc,
      List.singleton_append, GLTF_Loader.getNumAccessors, GLTF_Loader.getNumBuffers,
      GLTF_Loader.getNumMeshes, getKey_append, getKey_block_ne, getKey_block_self,
      getKey_cons_ne, getKey_nil, Option.or_none, Option.none_or]

/-- C20 (the code at the failing input): a document with one buffer and no buffer
view is written with the key `bufferViews` holding an empty array, and a
document with one buffer view and no buffer is written without the key. -/
theorem SerializeBufferViews_tests_buffer_count :
    bufferOnlyRoot.myLoader.getNumBufferViews = 0 ∧
      bufferOnlyRoot.emitted "bufferViews" = some (.JSON_ARRAY []) ∧
      bufferViewOnlyRoot.myLoader.getNumBufferViews = 1 ∧
      bufferViewOnlyRoot.emitted "bufferViews" = none :=
  ⟨rfl, rfl, rfl, rfl⟩

theorem getKey_block_rev_ne (c : Prop) [Decidable c] (k k1 : String) (v : UT_JSONValue)
    (h : k ≠ k1) : getKey (if c then [(k1, v)] else []) k = none := by
  have hb : (k == k1) = false := by simpa using h
  split <;> simp [getKey, List.lookup, hb]

theorem getKey_singleton_ne (k k1 : String) (v : UT_JSONValue) (h : k ≠ k1) :
    getKey [(k1, v)] k = none := by
  have hb : (k == k1) = false := by simpa using h
  simp [getKey, List.lookup, hb]

theorem getKey_singleton_self (k : String) (v : UT_JSONValue) :
    getKey [(k, v)] k = some v := by
  simp [getKey, List.lookup]

theorem OutputString_eq (k : String) (v : Option String) :
    OutputString k v = [(k, .JSON_STRING (v.getD ""))] := by
  cases v <;> rfl

/-- C21: in the object `SerializeAccessors` writes for an accessor, `byteOffset` is
there exactly when the byte offset is not 0, `normalized` exactly when the flag
is true, `bufferView` exactly when the handle is not `GLTF_INVALID_IDX`, and
`componentType`, `count` and `type` are always there; an accessor with byte
offset 0 and the flag off has neither `byteOffset` nor `normalized`.  The array
under `accessors` holds this object for every accessor of the document. -/
theorem serializeAccessor_keys (root : ROP_GLTF_ExportRoot) (accessor : GLTF_Accessor) :
    (∃ m, serializeAccessor accessor = .JSON_MAP m ∧
      getKey m "byteOffset" =
        (if accessor.byteOffset = 0 then none
         else some (.JSON_INT (accessor.byteOffset : Int))) ∧
      getKey m "normalized" =
        (if accessor.normalized = false then none else some (.JSON_BOOL true)) ∧
      getKey m "bufferView" =
        (if accessor.bufferView = GLTF_INVALID_IDX then none
         else some (.JSON_INT (accessor.bufferView : Int))) ∧
      getKey m "componentType" = some (.JSON_INT (accessor.componentType.toNat : Int)) ∧
      getKey m "count" = some (.JSON_INT (accessor.count : Int)) ∧
      getKey m "type" =
        some (.JSON_STRING ((GLTF_Util.typeGetName accessor.type).getD "")) ∧
      (accessor.byteOffset = 0 → accessor.normalized = false →
        getKey m "byteOffset" = none ∧ getKey m "normalized" = none)) ∧
    (accessor ∈ root.myLoader.myAccesors →
      ∃ arr, getKey root.SerializeAccessors "accessors" = some (.JSON_ARRAY arr) ∧
        serializeAccessor accessor ∈ arr) := by
  constructor
  · refine ⟨_, rfl, ?_, ?_, ?_, ?_, ?_, ?_, ?_⟩
    · simp (disch := decide) only [OutputDefaultInt, OutputInt, OutputDefaultBool, OutputBool,
        OutputString_eq, getKey_append, getKey_block_ne, getKey_block_self, getKey_block_rev_ne,
        getKey_singleton_ne, getKey_singleton_self, Option.or_none, Option.none_or]
    · simp (disch := decide) only [OutputDefaultInt, OutputInt, OutputDefaultBool, OutputBool,
        OutputString_eq, getKey_append, getKey_block_ne, getKey_block_self, getKey_block_rev_ne,
        getKey_singleton_ne, getKey_singleton_self, Option.or_none, Option.none_or]
      cases accessor.normalized <;> rfl
    · simp (disch := decide) only [OutputDefaultInt, OutputInt, OutputDefaultBool, OutputBool,
        OutputString_eq, getKey_append, getKey_block_ne, getKey_block_self, getKey_block_rev_ne,
        getKey_singleton_ne, getKey_singleton_self, Option.or_none, Option.none_or]
    · simp (disch := decide) only [OutputDefaultInt, OutputInt, OutputDefaultBool, OutputBool,
        OutputString_eq, getKey_append, getKey_block_ne, getKey_block_self, getKey_block_rev_ne,
        getKey_singleton_ne, getKey_singleton_self, Option.or_none, Option.none_or]
    · simp (disch := decide) only [OutputDefaultInt, OutputInt, OutputDefaultBool, OutputBool,
        OutputString_eq, getKey_append, getKey_block_ne, getKey_block_self, getKey_block_rev_ne,
        getKey_singleton_ne, getKey_singleton_self, Option.or_none, Option.none_or]
    · simp (disch := decide) only [OutputDefaultInt, OutputInt, OutputDefaultBool, OutputBool,
        OutputString_eq, getKey_append, getKey_block_ne, getKey_block_self, getKey_block_rev_ne,
        getKey_singleton_ne, getKey_singleton_self, Option.or_none, Option.none_or]
    · intro h0 hn
      simp (disch := decide) only [OutputDefaultInt, OutputInt, OutputDefaultBool, OutputBool,
        OutputString_eq, getKey_append, getKey_block_ne, getKey_block_self, getKey_block_rev_ne,
        getKey_singleton_ne, getKey_singleton_self, Option.or_none, Option.none_or, h0, hn,
        if_true, and_self, getKey_nil]
  · intro hmem
    have hne : root.myLoader.myAccesors.length ≠ 0 := by
      intro h0
      rw [List.length_eq_zero] at h0
      rw [h0] at hmem
      cases hmem
    refine ⟨_, ?_, List.mem_map_of_mem _ hmem⟩
    simp only [SerializeAccessors, GLTF_Loader.getNumAccessors, hne, if_false,
      getKey_singleton_self]

/-- Witness for C21: the accessor of `triangleRoot`, with byte offset 0 and the
flag off. -/
theorem serializeAccessor_keys_witness :
    (∃ m, serializeAccessor triangleAccessor = .JSON_MAP m ∧
        (getKey m "byteOffset" = none ∧ getKey m "normalized" = none)) ∧
      ∃ arr, getKey triangleRoot.SerializeAccessors "accessors" = some (.JSON_ARRAY arr) ∧
        serializeAccessor triangleAccessor ∈ arr :=
  ⟨(serializeAccessor_keys triangleRoot triangleAccessor).1.elim
      (fun m h => ⟨m, h.1, h.2.2.2.2.2.2.2 rfl rfl⟩),
    (serializeAccessor_keys triangleRoot triangleAccessor).2 (by decide)⟩

theorem lookup_filter_ne {β : Type} (l : List (String × β)) (path k : String) :
    (l.filter (fun entry => entry.1 ≠ path)).lookup k =
      if k = path then none else l.lookup k := by
  induction l with
  | nil => simp
  | cons e rest ih =>
    obtain ⟨k1, v⟩ := e
    by_cases h1 : k1 = path
    · subst h1
      simp only [List.filter_cons, ne_eq, not_true_eq_false, decide_False, Bool.false_eq_true,
        if_false, ih, List.lookup_cons]
      by_cases hk : k = k1
      · simp [hk]
      · have hb : (k == k1) = false := by simpa using hk
        simp [hk, hb]
    · simp only [List.filter_cons, ne_eq, h1, not_false_eq_true, decide_True, if_true,
        List.lookup_cons, ih]
      by_cases hk : k = k1
      · subst hk
        simp [h1]
      · have hb : (k == k1) = false := by simpa using hk
        simp [hb]

theorem filter_eq_length_pos {β : Type} (l : List (String × β)) (path : String) :
    (l.filter (fun entry => entry.1 = path)).length > 0 ↔ l.lookup path ≠ none := by
  induction l with
  | nil => simp
  | cons e rest ih =>
    obtain ⟨k1, v⟩ := e
    by_cases h1 : k1 = path
    · subst h1
      simp [List.lookup_cons]
    · have hb : (path == k1) = false := by
        simpa using (fun h : path = k1 => h1 h.symm)
      simp only [List.filter_cons, h1, decide_False, Bool.false_eq_true, if_false,
        List.lookup_cons, hb]
      exact ih

theorem lookup_eq_none_of_sublist {β : Type} (l1 l2 : List (String × β)) (k : String)
    (hsub : l1.Sublist l2) (h : l2.lookup k = none) : l1.lookup k = none := by
  rw [List.lookup_eq_none_iff] at h ⊢
  exact fun p hp => h p (hsub.subset hp)

/-- In a map, the lookup of a key after an entry is erased is what it was, or
nothing. -/
theorem lookup_eraseIdx {β : Type} (l : List (String × β)) (k : String)
    (hnodup : (l.map Prod.fst).Nodup) :
    ∀ i, (l.eraseIdx i).lookup k = l.lookup k ∨ (l.eraseIdx i).lookup k = none := by
  induction l with
  | nil => intro i; left; rfl
  | cons e rest ih =>
    obtain ⟨k1, v⟩ := e
    simp only [List.map_cons, List.nodup_cons] at hnodup
    intro i
    cases i with
    | zero =>
      simp only [List.eraseIdx_cons_zero, List.lookup_cons]
      by_cases hk : k = k1
      · subst hk
        right
        rw [List.lookup_eq_none_iff]
        intro p hp
        have : p.1 ≠ k := fun h => hnodup.1 (h ▸ List.mem_map_of_mem Prod.fst hp)
        simpa using fun h : k = p.1 => this h.symm
      · have hb : (k == k1) = false := by simpa using hk
        left
        simp [hb]
    | succ j =>
      simp only [List.eraseIdx_cons_succ, List.lookup_cons]
      by_cases hk : k = k1
      · subst hk
        left
        simp
      · have hb : (k == k1) = false := by simpa using hk
        simp only [hb]
        exact ih hnodup.2 j

theorem lookup_emplace_none (m : List (String × Option GLTF_Loader)) (path : String)
    (h : m.lookup path = none ∨ m.lookup path = some none) :
    (GLTF_Cache.emplace m path none).lookup path = some none := by
  unfold GLTF_Cache.emplace
  rcases h with h | h
  · simp only [h, Option.isSome_none, Bool.false_eq_true, if_false, List.lookup_append,
      List.lookup_cons, beq_self_eq_true, Option.none_or]
  · simp only [h, Option.isSome_some, if_true]

theorem emplace_length_le (m : List (String × Option GLTF_Loader)) (path : String)
    (value : Option GLTF_Loader) : (GLTF_Cache.emplace m path value).length ≤ m.length + 1 := by
  unfold GLTF_Cache.emplace
  split
  · omega
  · simp

theorem AutomaticEvict_length (cache : GLTF_Cache) (first : Nat)
    (h : cache.myLoaderMap.length ≠ 0) :
    (cache.AutomaticEvict first).myLoaderMap.length = cache.myLoaderMap.length - 1 := by
  unfold GLTF_Cache.AutomaticEvict
  simp only [h, if_false]
  rw [List.length_eraseIdx, if_pos (Nat.mod_lt _ (by omega))]

theorem AutomaticEvict_sublist (cache : GLTF_Cache) (first : Nat) :
    (cache.AutomaticEvict first).myLoaderMap.Sublist cache.myLoaderMap := by
  unfold GLTF_Cache.AutomaticEvict
  split
  · exact List.Sublist.refl _
  · exact List.eraseIdx_sublist _ _

/-- What `LoadLoader` does when `GetLoader` finds nothing, or a null pointer. -/
theorem LoadLoader_of_null (hdk : HDK) (junk first : Nat) (cache : GLTF_Cache) (path : String)
    (hget : cache.GetLoader path = none) :
    GLTF_Cache.LoadLoader hdk junk first cache path =
      match GLTF_Loader.Load hdk junk (GLTF_Loader.create path) with
      | Outcome.success new_loader =>
        Outcome.success (some new_loader,
          { myLoaderMap :=
              GLTF_Cache.emplace
                (if cache.myLoaderMap.length > MAX_CACHE_FILES then cache.AutomaticEvict first
                 else cache).myLoaderMap path none })
      | Outcome.failure =>
        Outcome.success (none,
          if cache.myLoaderMap.length > MAX_CACHE_FILES then cache.AutomaticEvict first
          else cache)
      | Outcome.undefined => Outcome.undefined := by
  unfold GLTF_Cache.LoadLoader
  simp only [hget]

theorem LoadLoader_length (hdk : HDK) (junk first : Nat) (cache cache1 : GLTF_Cache)
    (path : String) (loader : Option GLTF_Loader)
    (h : GLTF_Cache.LoadLoader hdk junk first cache path = Outcome.success (loader, cache1)) :
    cache1.myLoaderMap.length ≤ max cache.myLoaderMap.length 6 := by
  cases hget : cache.GetLoader path with
  | some found =>
    unfold GLTF_Cache.LoadLoader at h
    simp only [hget, Outcome.success.injEq, Prod.mk.injEq] at h
    rw [← h.2]
    exact Nat.le_max_left _ _
  | none =>
    rw [LoadLoader_of_null hdk junk first cache path hget] at h
    have hevict : (if cache.myLoaderMap.length > MAX_CACHE_FILES then cache.AutomaticEvict first
        else cache).myLoaderMap.length + 1 ≤ max cache.myLoaderMap.length 6 := by
      unfold MAX_CACHE_FILES
      split
      · next hgt =>
        rw [AutomaticEvict_length cache first (by omega)]
        have := Nat.le_max_left cache.myLoaderMap.length 6
        omega
      · next hle =>
        have := Nat.le_max_right cache.myLoaderMap.length 6
        omega
    cases hload : GLTF_Loader.Load hdk junk (GLTF_Loader.create path) with
    | undefined => rw [hload] at h; cases h
    | failure =>
      rw [hload] at h
      simp only [Outcome.success.injEq, Prod.mk.injEq] at h
      rw [← h.2]
      omega
    | success new_loader =>
      rw [hload] at h
      simp only [Outcome.success.injEq, Prod.mk.injEq] at h
      rw [← h.2]
      exact Nat.le_trans (emplace_length_le _ _ _) hevict

theorem LoadLoader_defined (hdk : HDK) (junk first : Nat) (cache : GLTF_Cache) (path : String)
    (hdef : GLTF_Loader.Load hdk junk (GLTF_Loader.create path) ≠ Outcome.undefined) :
    ∃ loader cache1,
      GLTF_Cache.LoadLoader hdk junk first cache path = Outcome.success (loader, cache1) := by
  cases hget : cache.GetLoader path with
  | some found =>
    unfold GLTF_Cache.LoadLoader
    simp only [hget]
    exact ⟨_, _, rfl⟩
  | none =>
    rw [LoadLoader_of_null hdk junk first cache path hget]
    cases hload : GLTF_Loader.Load hdk junk (GLTF_Loader.create path) with
    | undefined => exact absurd hload hdef
    | failure => exact ⟨_, _, rfl⟩
    | success new_loader => exact ⟨_, _, rfl⟩

/-- C22 (what the code does): over any run of `LoadLoader` calls whose parses have
a defined result, from a cache of at most six entries, every call returns and
the cache never holds more than six entries: `AutomaticEvict` runs only when the
cache already holds more than `MAX_CACHE_FILES` entries. -/
theorem loadLoaders_at_most_six (hdk : HDK) (junk : Nat) (calls : List (String × Nat)) :
    ∀ cache : GLTF_Cache, cache.myLoaderMap.length ≤ 6 →
      (∀ call ∈ calls,
        GLTF_Loader.Load hdk junk (GLTF_Loader.create call.1) ≠ Outcome.undefined) →
      ∃ loaders cache1, loadLoaders hdk junk cache calls = Outcome.success (loaders, cache1) ∧
        loaders.length = calls.length ∧ cache1.myLoaderMap.length ≤ 6 := by
  induction calls with
  | nil => intro cache hsize _; exact ⟨[], cache, rfl, rfl, hsize⟩
  | cons call rest ih =>
    intro cache hsize hdef
    obtain ⟨path, first⟩ := call
    obtain ⟨loader, cache1, h1⟩ := LoadLoader_defined hdk junk first cache path
      (hdef (path, first) (List.mem_cons_self _ _))
    have hlen := LoadLoader_length hdk junk first cache cache1 path loader h1
    have hsize1 : cache1.myLoaderMap.length ≤ 6 := by
      have := Nat.max_le.mpr ⟨hsize, Nat.le_refl 6⟩
      omega
    obtain ⟨loaders, cache2, h2, hl2, hs2⟩ := ih cache1 hsize1
      (fun c hc => hdef c (List.mem_cons_of_mem _ hc))
    refine ⟨loader :: loaders, cache2, ?_, by simp [hl2], hs2⟩
    unfold loadLoaders
    simp only [h1, h2]

set_option maxRecDepth 100000 in
/-- Witness for C22: the six paths of `sixFilesHDK`, loaded into the empty
cache. -/
theorem loadLoaders_at_most_six_witness :
    ∃ loaders cache1, loadLoaders sixFilesHDK 0 {} sixPaths = Outcome.success (loaders, cache1) ∧
      loaders.length = sixPaths.length ∧ cache1.myLoaderMap.length ≤ 6 :=
  loadLoaders_at_most_six sixFilesHDK 0 sixPaths {} (by decide) (by decide)

set_option maxRecDepth 100000 in
/-- C22 (the code at the failing input): six distinct valid paths are loaded into
the empty cache; every call hands back a document, and afterwards the cache
holds six entries, one for each path: nothing was evicted. -/
theorem LoadLoader_keeps_six_entries :
    (match loadLoaders sixFilesHDK 0 {} sixPaths with
      | Outcome.success (loaders, cache) =>
        (loaders.map Option.isSome, cache.myLoaderMap.map Prod.fst, cache.myLoaderMap.length)
      | _ => ([], [], 0)) =
      ([true, true, true, true, true, true],
       ["a.gltf", "b.gltf", "c.gltf", "d.gltf", "e.gltf", "f.gltf"], 6) ∧
    MAX_CACHE_FILES = 5 := by
  decide

/-- C23 (what the code does): when `GetLoader(path)` finds nothing and the parse
succeeds, `LoadLoader(path)` hands back the loaded document, and the entry the
cache then has for `path` holds the null pointer that `GetLoader` gave: so
`GetLoader(path)` returns null afterwards, and a following `LoadLoader(path)`
parses the file again, handing back the new document or null as that parse
goes. -/
theorem LoadLoader_caches_null (hdk : HDK) (junk first : Nat) (cache : GLTF_Cache)
    (path : String) (doc : GLTF_Loader)
    (hmap : (cache.myLoaderMap.map Prod.fst).Nodup)
    (hget : cache.GetLoader path = none)
    (hload : GLTF_Loader.Load hdk junk (GLTF_Loader.create path) = Outcome.success doc) :
    ∃ cache1, GLTF_Cache.LoadLoader hdk junk first cache path =
        Outcome.success (some doc, cache1) ∧
      cache1.myLoaderMap.lookup path = some none ∧
      cache1.GetLoader path = none ∧
      (∀ (hdk2 : HDK) (junk2 first2 : Nat) (doc2 : GLTF_Loader),
        GLTF_Loader.Load hdk2 junk2 (GLTF_Loader.create path) = Outcome.success doc2 →
        ∃ cache2, GLTF_Cache.LoadLoader hdk2 junk2 first2 cache1 path =
          Outcome.success (some doc2, cache2)) ∧
      (∀ (hdk2 : HDK) (junk2 first2 : Nat),
        GLTF_Loader.Load hdk2 junk2 (GLTF_Loader.create path) = Outcome.failure →
        ∃ cache2, GLTF_Cache.LoadLoader hdk2 junk2 first2 cache1 path =
          Outcome.success (none, cache2)) := by
  have hlook : cache.myLoaderMap.lookup path = none ∨
      cache.myLoaderMap.lookup path = some none := by
    unfold GLTF_Cache.GetLoader at hget
    cases h : cache.myLoaderMap.lookup path with
    | none => exact Or.inl rfl
    | some v =>
      rw [h] at hget
      simp only at hget
      rw [hget]
      exact Or.inr rfl
  have hlook1 : (if cache.myLoaderMap.length > MAX_CACHE_FILES then cache.AutomaticEvict first
      else cache).myLoaderMap.lookup path = none ∨
      (if cache.myLoaderMap.length > MAX_CACHE_FILES then cache.AutomaticEvict first
      else cache).myLoaderMap.lookup path = some none := by
    split
    · unfold GLTF_Cache.AutomaticEvict
      split
      · exact hlook
      · rcases lookup_eraseIdx cache.myLoaderMap path hmap
          (first % cache.myLoaderMap.length) with h | h
        · rw [h]; exact hlook
        · exact Or.inl h
    · exact hlook
  have hentry := lookup_emplace_none _ path hlook1
  have hget1 : GLTF_Cache.GetLoader
      { myLoaderMap :=
          GLTF_Cache.emplace
            (if cache.myLoaderMap.length > MAX_CACHE_FILES then cache.AutomaticEvict first
             else cache).myLoaderMap path none } path = none := by
    unfold GLTF_Cache.GetLoader
    simp only [hentry]
  refine ⟨GLTF_Cache.mk (GLTF_Cache.emplace
    (if cache.myLoaderMap.length > MAX_CACHE_FILES then cache.AutomaticEvict first
     else cache).myLoaderMap path none), ?_, hentry, hget1, ?_, ?_⟩
  · rw [LoadLoader_of_null hdk junk first cache path hget, hload]
  · intro hdk2 junk2 first2 doc2 h2
    rw [LoadLoader_of_null hdk2 junk2 first2 _ path hget1, h2]
    exact ⟨_, rfl⟩
  · intro hdk2 junk2 first2 h2
    rw [LoadLoader_of_null hdk2 junk2 first2 _ path hget1, h2]
    exact ⟨_, rfl⟩

set_option maxRecDepth 100000 in
/-- Witness for C23: `a.gltf` of `sixFilesHDK`, loaded into the empty cache. -/
theorem LoadLoader_caches_null_witness :
    ∃ cache1, GLTF_Cache.LoadLoader sixFilesHDK 0 0 {} "a.gltf" =
        Outcome.success (some { GLTF_Loader.create "a.gltf" with myIsLoaded := true }, cache1) ∧
      cache1.myLoaderMap.lookup "a.gltf" = some none ∧
      cache1.GetLoader "a.gltf" = none ∧
      (∀ (hdk2 : HDK) (junk2 first2 : Nat) (doc2 : GLTF_Loader),
        GLTF_Loader.Load hdk2 junk2 (GLTF_Loader.create "a.gltf") = Outcome.success doc2 →
        ∃ cache2, GLTF_Cache.LoadLoader hdk2 junk2 first2 cache1 "a.gltf" =
          Outcome.success (some doc2, cache2)) ∧
      (∀ (hdk2 : HDK) (junk2 first2 : Nat),
        GLTF_Loader.Load hdk2 junk2 (GLTF_Loader.create "a.gltf") = Outcome.failure →
        ∃ cache2, GLTF_Cache.LoadLoader hdk2 junk2 first2 cache1 "a.gltf" =
          Outcome.success (none, cache2)) :=
  LoadLoader_caches_null sixFilesHDK 0 0 {} "a.gltf" _ (by decide) (by decide) (by decide)

set_option maxRecDepth 100000 in
/-- C23 (the code at the failing input): `LoadLoader("a.gltf")` succeeds on the
empty cache; the entry it leaves holds the null pointer, `GetLoader("a.gltf")`
returns null, and after the file is gone a second `LoadLoader("a.gltf")` returns
null instead of the document. -/
theorem LoadLoader_does_not_keep_document :
    (match GLTF_Cache.LoadLoader sixFilesHDK 0 0 {} "a.gltf" with
      | Outcome.success (loader, cache) =>
        (loader.isSome, cache.myLoaderMap, cache.GetLoader "a.gltf",
          GLTF_Cache.LoadLoader (referenceHDK assetOnlyDoc []) 0 0 cache "a.gltf")
      | _ => (false, [], none, Outcome.undefined)) =
      (true, [("a.gltf", none)], none, Outcome.success (none, { myLoaderMap := [("a.gltf", none)] })) := by
  decide

/-- C24 (what the code does): when `GetLoader(path)` finds nothing and the parse
fails, `LoadLoader(path)` returns null and adds nothing to the cache: every
entry the cache holds afterwards was there before.  A path without an entry has
none afterwards, and a later `LoadLoader(path)` parses again, handing back the
document if that parse succeeds and null if it fails.  An entry that holds the
null pointer is not removed. -/
theorem LoadLoader_failed_parse (hdk : HDK) (junk first : Nat) (cache : GLTF_Cache)
    (path : String)
    (hget : cache.GetLoader path = none)
    (hload : GLTF_Loader.Load hdk junk (GLTF_Loader.create path) = Outcome.failure) :
    ∃ cache1, GLTF_Cache.LoadLoader hdk junk first cache path = Outcome.success (none, cache1) ∧
      cache1.myLoaderMap.Sublist cache.myLoaderMap ∧
      (cache.myLoaderMap.lookup path = none →
        cache1.myLoaderMap.lookup path = none ∧
        (∀ (hdk2 : HDK) (junk2 first2 : Nat) (doc2 : GLTF_Loader),
          GLTF_Loader.Load hdk2 junk2 (GLTF_Loader.create path) = Outcome.success doc2 →
          ∃ cache2, GLTF_Cache.LoadLoader hdk2 junk2 first2 cache1 path =
            Outcome.success (some doc2, cache2)) ∧
        (∀ (hdk2 : HDK) (junk2 first2 : Nat),
          GLTF_Loader.Load hdk2 junk2 (GLTF_Loader.create path) = Outcome.failure →
          ∃ cache2, GLTF_Cache.LoadLoader hdk2 junk2 first2 cache1 path =
            Outcome.success (none, cache2))) := by
  have hsub : (if cache.myLoaderMap.length > MAX_CACHE_FILES then cache.AutomaticEvict first
      else cache).myLoaderMap.Sublist cache.myLoaderMap := by
    split
    · exact AutomaticEvict_sublist cache first
    · exact List.Sublist.refl _
  refine ⟨if cache.myLoaderMap.length > MAX_CACHE_FILES then cache.AutomaticEvict first
    else cache, ?_, hsub, ?_⟩
  · rw [LoadLoader_of_null hdk junk first cache path hget, hload]
  · intro hnone
    have hnone1 := lookup_eq_none_of_sublist _ _ path hsub hnone
    have hget1 : GLTF_Cache.GetLoader (if cache.myLoaderMap.length > MAX_CACHE_FILES then
        cache.AutomaticEvict first else cache) path = none := by
      unfold GLTF_Cache.GetLoader
      simp only [hnone1]
    refine ⟨hnone1, ?_, ?_⟩
    · intro hdk2 junk2 first2 doc2 h2
      rw [LoadLoader_of_null hdk2 junk2 first2 _ path hget1, h2]
      exact ⟨_, rfl⟩
    · intro hdk2 junk2 first2 h2
      rw [LoadLoader_of_null hdk2 junk2 first2 _ path hget1, h2]
      exact ⟨_, rfl⟩

set_option maxRecDepth 100000 in
/-- Witness for C24: `g.gltf`, a path `sixFilesHDK` has no file for, loaded into a
cache that holds an entry for `a.gltf`. -/
theorem LoadLoader_failed_parse_witness :
    ∃ cache1, GLTF_Cache.LoadLoader sixFilesHDK 0 0 { myLoaderMap := [("a.gltf", none)] }
        "g.gltf" = Outcome.success (none, cache1) ∧
      cache1.myLoaderMap.Sublist [("a.gltf", none)] ∧
      cache1.myLoaderMap.lookup "g.gltf" = none :=
  (LoadLoader_failed_parse sixFilesHDK 0 0 { myLoaderMap := [("a.gltf", none)] } "g.gltf"
    (by decide) (by decide)).elim
    (fun cache1 h => ⟨cache1, h.1, h.2.1, (h.2.2 (by decide)).1⟩)

set_option maxRecDepth 100000 in
/-- C24 (the code at the failing input): `LoadLoader("a.gltf")` succeeded on the
empty cache and left the entry that holds the null pointer; the file is then
gone, the parse of the next `LoadLoader("a.gltf")` fails and null is returned,
and the cache still holds the entry for `a.gltf` afterwards. -/
theorem LoadLoader_failed_parse_keeps_null_entry :
    (match GLTF_Cache.LoadLoader sixFilesHDK 0 0 {} "a.gltf" with
      | Outcome.success (_, cache) => cache.myLoaderMap
      | _ => []) = [("a.gltf", none)] ∧
    GLTF_Loader.Load (referenceHDK assetOnlyDoc []) 0 (GLTF_Loader.create "a.gltf") =
      Outcome.failure ∧
    GLTF_Cache.LoadLoader (referenceHDK assetOnlyDoc []) 0 0
        (GLTF_Cache.mk [("a.gltf", none)]) "a.gltf" =
      Outcome.success (none, GLTF_Cache.mk [("a.gltf", none)]) ∧
    (GLTF_Cache.mk [("a.gltf", none)]).myLoaderMap.lookup "a.gltf" ≠ none := by
  decide

/-- C25: `EvictLoader(path)` returns `true` exactly when the cache has an entry
for `path`; afterwards it has none, and the entry of every other path is what it
was. -/
theorem EvictLoader_spec (cache : GLTF_Cache) (path : String) :
    ((cache.EvictLoader path).1 = true ↔ cache.myLoaderMap.lookup path ≠ none) ∧
    (cache.myLoaderMap.lookup path = none → (cache.EvictLoader path).1 = false) ∧
    (cache.EvictLoader path).2.myLoaderMap.lookup path = none ∧
    (∀ other, other ≠ path →
      (cache.EvictLoader path).2.myLoaderMap.lookup other = cache.myLoaderMap.lookup other) ∧
    (cache.EvictLoader path).2.myLoaderMap.Sublist cache.myLoaderMap := by
  have hiff : (cache.EvictLoader path).1 = true ↔ cache.myLoaderMap.lookup path ≠ none := by
    unfold GLTF_Cache.EvictLoader
    simp only [decide_eq_true_eq]
    exact filter_eq_length_pos cache.myLoaderMap path
  refine ⟨hiff, ?_, ?_, ?_, ?_⟩
  · intro hnone
    cases hb : (cache.EvictLoader path).1 with
    | false => rfl
    | true => exact absurd hnone (hiff.mp hb)
  · unfold GLTF_Cache.EvictLoader
    simp only [lookup_filter_ne, if_true]
  · intro other hne
    unfold GLTF_Cache.EvictLoader
    simp only [lookup_filter_ne, hne, if_false]
  · unfold GLTF_Cache.EvictLoader
    exact List.filter_sublist _

/-- Witness for C25: a cache with entries for `a.gltf` and `b.gltf`; `a.gltf` is
evicted, and `c.gltf`, which has no entry, is not. -/
theorem EvictLoader_spec_witness :
    GLTF_Cache.EvictLoader { myLoaderMap := [("a.gltf", none), ("b.gltf", none)] } "a.gltf" =
        (true, { myLoaderMap := [("b.gltf", none)] }) ∧
      (GLTF_Cache.EvictLoader { myLoaderMap := [("a.gltf", none), ("b.gltf", none)] }
        "c.gltf").1 = false ∧
      (GLTF_Cache.EvictLoader { myLoaderMap := [("a.gltf", none), ("b.gltf", none)] }
        "a.gltf").2.myLoaderMap.lookup "b.gltf" = some none :=
  ⟨by decide,
    (EvictLoader_spec { myLoaderMap := [("a.gltf", none), ("b.gltf", none)] } "c.gltf").2.1
      (by decide),
    ((EvictLoader_spec { myLoaderMap := [("a.gltf", none), ("b.gltf", none)] }
      "a.gltf").2.2.2.1 "b.gltf" (by decide)).trans (by decide)⟩

theorem determinant_identityMatrix : determinant identityMatrix = 1 := by
  simp [determinant, determinant3, identityMatrix]

theorem determinant_flatMatrix : determinant flatMatrix = 0 := by
  simp [determinant, determinant3, flatMatrix]

/-- C26 (what the code does): `DecomposeMatrixToTRS` returns `true` exactly when
the determinant is 0 and the shear `explode` reports does not exceed `1e-6`.  It
returns `false` for every matrix whose shear exceeds `1e-6`, and also for every
matrix whose determinant is not 0; for a determinant of 0 only the shear test
decides. -/
theorem DecomposeMatrixToTRS_succeeds_iff (explode : List fpreal → Exploded)
    (mat : List fpreal) :
    ((GLTF_Util.DecomposeMatrixToTRS explode mat).isSome = true ↔
      determinant mat = 0 ∧ ¬ lengthExceeds (explode mat).shears (1 / 1000000)) ∧
    (lengthExceeds (explode mat).shears (1 / 1000000) →
      GLTF_Util.DecomposeMatrixToTRS explode mat = none) ∧
    (determinant mat ≠ 0 → GLTF_Util.DecomposeMatrixToTRS explode mat = none) ∧
    (determinant mat = 0 → ¬ lengthExceeds (explode mat).shears (1 / 1000000) →
      GLTF_Util.DecomposeMatrixToTRS explode mat =
        some ((explode mat).translationD, (explode mat).euler_rotation)) := by
  unfold GLTF_Util.DecomposeMatrixToTRS
  by_cases hd : determinant mat = 0
  · by_cases hs : lengthExceeds (explode mat).shears (1 / 1000000)
    · simp [hd, hs]
    · simp [hd, hs]
  · simp [hd]

/-- Witness for C26: the identity matrix and `flatMatrix`, with `axisExplode`. -/
theorem DecomposeMatrixToTRS_succeeds_iff_witness :
    GLTF_Util.DecomposeMatrixToTRS axisExplode identityMatrix = none ∧
      GLTF_Util.DecomposeMatrixToTRS axisExplode flatMatrix =
        some ((axisExplode flatMatrix).translationD, (axisExplode flatMatrix).euler_rotation) :=
  ⟨(DecomposeMatrixToTRS_succeeds_iff axisExplode identityMatrix).2.2.1
      (by rw [determinant_identityMatrix]; decide),
    (DecomposeMatrixToTRS_succeeds_iff axisExplode flatMatrix).2.2.2 determinant_flatMatrix
      (by simp [lengthExceeds, axisExplode])⟩

/-- C26 (the code at the failing input): `flatMatrix` has determinant 0, and with
an `explode` that reports no shear for it `DecomposeMatrixToTRS` returns `true`;
the identity matrix has determinant 1 and `DecomposeMatrixToTRS` returns
`false`. -/
theorem DecomposeMatrixToTRS_accepts_singular_matrix :
    determinant flatMatrix = 0 ∧
      (GLTF_Util.DecomposeMatrixToTRS axisExplode flatMatrix).isSome = true ∧
      determinant identityMatrix = 1 ∧
      GLTF_Util.DecomposeMatrixToTRS axisExplode identityMatrix = none := by
  refine ⟨determinant_flatMatrix, ?_, determinant_identityMatrix, ?_⟩
  · simp [GLTF_Util.DecomposeMatrixToTRS, determinant_flatMatrix, lengthExceeds, axisExplode]
  · simp [GLTF_Util.DecomposeMatrixToTRS, determinant_identityMatrix]

/-- C27 (what the code does): for a sampler object whose `magFilter`, `minFilter`,
`wrapS` and `wrapT` are integers, `ReadSampler` succeeds and stores the 32-bit
value of `magFilter` in all four fields `magfilter`, `minFilter`, `wrapS` and
`wrapT`; the other three values are parsed and dropped. -/
theorem ReadSampler_stores_magFilter_four_times (s : GLTF_Loader)
    (sampler_json : UT_JSONValueMap) (idx : Nat) (magFilter minFilter wrapS wrapT : Int)
    (hmag : getKey sampler_json "magFilter" = some (.JSON_INT magFilter))
    (hmin : getKey sampler_json "minFilter" = some (.JSON_INT minFilter))
    (hws : getKey sampler_json "wrapS" = some (.JSON_INT wrapS))
    (hwt : getKey sampler_json "wrapT" = some (.JSON_INT wrapT)) :
    ReadSampler s sampler_json idx = Outcome.success { s with
      mySamplers := s.mySamplers ++
        [{ magfilter := toUInt32 magFilter, minFilter := toUInt32 magFilter,
           wrapS := toUInt32 magFilter, wrapT := toUInt32 magFilter }] } := by
  unfold ReadSampler
  simp only [hmag, hmin, hws, hwt, ParseAsInteger, Outcome.ofOption, Outcome.bind_success,
    Outcome.pure_eq]

/-- Witness for C27: the sampler object `fourValueSampler`. -/
theorem ReadSampler_stores_magFilter_four_times_witness :
    ReadSampler {} fourValueSampler 0 = Outcome.success { mySamplers :=
      [] ++ [{ magfilter := toUInt32 9728, minFilter := toUInt32 9728,
               wrapS := toUInt32 9728, wrapT := toUInt32 9728 }] } :=
  ReadSampler_stores_magFilter_four_times {} fourValueSampler 0 9728 9987 10497 33071
    rfl rfl rfl rfl

/-- C27 (the code at the failing input): `fourValueSampler` gives four different
values; the parsed sampler holds 9728, the value of `magFilter`, in `minFilter`,
`wrapS` and `wrapT` as well. -/
theorem ReadSampler_drops_minFilter_and_wraps :
    ReadSampler {} fourValueSampler 0 = Outcome.success { mySamplers :=
      [{ magfilter := 9728, minFilter := 9728, wrapS := 9728, wrapT := 9728 }] } ∧
    ((9728 : Nat) ≠ 9987 ∧ (9728 : Nat) ≠ 10497 ∧ (9728 : Nat) ≠ 33071) := by
  decide

/-- C28 (what the code does): `ReadScene` and `ReadNode` drop the flag of
`ParseAsInteger` in their loops over `nodes` and `children`.  An element that
is not an integer never makes them return `false`: it appends the content of
the uninitialised local `val`, here `junk`, to the scene or node that is
stored. -/
theorem ReadScene_ReadNode_keep_unparsed_elements (junk : Nat) (s : GLTF_Loader)
    (scene_json node_json : UT_JSONValueMap) (idx : Nat) :
    (∀ (nodes_array : List UT_JSONValue) (name : String),
      getKey scene_json "nodes" = some (.JSON_ARRAY nodes_array) →
      ParseAsString (getKey scene_json "name") false "" = some name →
      ReadScene junk s scene_json idx = Outcome.success { s with
        myScenes := s.myScenes ++ [{ nodes := readIndices junk nodes_array, name := name }] }) ∧
    (∀ (children_array : List UT_JSONValue) (mesh : Nat)
      (matrix rotation scale translation : List fpreal) (name : String),
      getKey node_json "children" = some (.JSON_ARRAY children_array) →
      ParseAsInteger (getKey node_json "mesh") false GLTF_INVALID_IDX = some mesh →
      ParseAsFloatMat 4 (getKey node_json "matrix") false identityMatrix = some matrix →
      ParseAsFloatVec 4 (getKey node_json "rotation") false [0, 0, 0, 1] = some rotation →
      ParseAsFloatVec 3 (getKey node_json "scale") false [1, 1, 1] = some scale →
      ParseAsFloatVec 3 (getKey node_json "translation") false [0, 0, 0] = some translation →
      ParseAsString (getKey node_json "name") false "" = some name →
      ReadNode junk s node_json idx = Outcome.success { s with
        myNodes := s.myNodes ++ [GLTF_Node.mk GLTF_INVALID_IDX
          (readIndices junk children_array) GLTF_INVALID_IDX matrix mesh rotation scale
          translation name] }) ∧
    (∀ e : UT_JSONValue, (∀ v, e ≠ .JSON_INT v) → readIndices junk [e] = [junk]) ∧
    (∀ v : Int, readIndices junk [.JSON_INT v] = [toUInt32 v]) := by
  refine ⟨?_, ?_, ?_, ?_⟩
  · intro nodes_array name hnodes hname
    unfold ReadScene
    simp only [hnodes, hname, Outcome.ofOption, Outcome.bind_success, Outcome.pure_eq,
      List.nil_append]
  · intro children_array mesh matrix rotation scale translation name hc h1 h2 h3 h4 h5 h6
    unfold ReadNode
    simp only [hc, h1, h2, h3, h4, h5, h6, Outcome.ofOption, Outcome.bind_success,
      Outcome.pure_eq, List.nil_append]
  · intro e he
    cases e with
    | JSON_INT v => exact absurd rfl (he v)
    | _ => rfl
  · intro v
    rfl

set_option maxRecDepth 100000 in
/-- Witness for C28: the scene and the node of `badIndicesDoc`. -/
theorem ReadScene_ReadNode_keep_unparsed_elements_witness :
    ReadScene 7 {} [("nodes", .JSON_ARRAY
        [.JSON_STRING "x", .JSON_REAL (3 / 2), .JSON_INT 2])] 0 =
      Outcome.success { myScenes := [] ++ [GLTF_Scene.mk
          (readIndices 7 [.JSON_STRING "x", .JSON_REAL (3 / 2), .JSON_INT 2]) ""] } ∧
    ReadNode 7 {} [("children", .JSON_ARRAY [.JSON_BOOL true])] 0 =
      Outcome.success { myNodes := [] ++ [GLTF_Node.mk GLTF_INVALID_IDX
          (readIndices 7 [.JSON_BOOL true]) GLTF_INVALID_IDX identityMatrix GLTF_INVALID_IDX
          [0, 0, 0, 1] [1, 1, 1] [0, 0, 0] ""] } ∧
    readIndices 7 [.JSON_BOOL true] = [7] :=
  ⟨(ReadScene_ReadNode_keep_unparsed_elements 7 {}
      [("nodes", .JSON_ARRAY [.JSON_STRING "x", .JSON_REAL (3 / 2), .JSON_INT 2])] [] 0).1
      _ "" rfl rfl,
    (ReadScene_ReadNode_keep_unparsed_elements 7 {} []
      [("children", .JSON_ARRAY [.JSON_BOOL true])] 0).2.1
      _ GLTF_INVALID_IDX identityMatrix [0, 0, 0, 1] [1, 1, 1] [0, 0, 0] "" rfl rfl rfl rfl rfl
      rfl rfl,
    (ReadScene_ReadNode_keep_unparsed_elements 7 {} [] [] 0).2.2.1 (.JSON_BOOL true)
      (fun _ h => by cases h)⟩

set_option maxRecDepth 100000 in
/-- C28 (the code at the failing input): the node of `badIndicesDoc` has a child
that is `true` and its scene has the nodes `"x"`, `1.5` and `2`; `ReadJSON`
succeeds, and the parsed node and scene hold the content of the uninitialised
local (7 in one run, 9 in another) where the JSON holds no integer. -/
theorem ReadJSON_accepts_non_integer_indices :
    ReadJSON 7 badIndicesDoc (GLTF_Loader.create "scene.gltf") =
      Outcome.success { GLTF_Loader.create "scene.gltf" with
        myAsset := { version := "2.0" },
        myNodes := [{ children := [7] }],
        myScenes := [{ nodes := [7, 7, 2] }] } ∧
    ReadJSON 9 badIndicesDoc (GLTF_Loader.create "scene.gltf") =
      Outcome.success { GLTF_Loader.create "scene.gltf" with
        myAsset := { version := "2.0" },
        myNodes := [{ children := [9] }],
        myScenes := [{ nodes := [9, 9, 2] }] } := by
  decide

theorem toDigitsCore_length (fuel : Nat) :
    ∀ (n : Nat) (ds : List Char), 0 < fuel →
      ds.length < (Nat.toDigitsCore 10 fuel n ds).length := by
  induction fuel with
  | zero => intro n ds h; omega
  | succ fuel ih =>
    intro n ds _
    unfold Nat.toDigitsCore
    by_cases h0 : n / 10 = 0
    · simp [h0]
    · simp only [h0, if_false]
      cases fuel with
      | zero => simp [Nat.toDigitsCore]
      | succ fuel =>
        have := ih (n / 10) (Nat.digitChar (n % 10) :: ds) (by omega)
        simp only [List.length_cons] at this
        omega

theorem toString_length_pos (n : Nat) : 0 < (toString n).length := by
  have h := toDigitsCore_length (n + 1) n [] (by omega)
  exact h

theorem find_postIncrement_isSome (map : NameUsagesMap) (s k : String) :
    ((NameUsagesMap.postIncrement map s).find k).isSome = (map.find k).isSome := by
  induction map with
  | nil => rfl
  | cons p rest ih =>
    obtain ⟨k1, v⟩ := p
    unfold NameUsagesMap.postIncrement
    unfold NameUsagesMap.find at ih ⊢
    by_cases hs : s = k1
    · simp only [hs, if_true, List.lookup]
      cases hk : (k == k1) <;> simp
    · simp only [hs, if_false, List.lookup]
      cases hk : (k == k1)
      · simpa using ih
      · simp

theorem postIncrement_length (map : NameUsagesMap) (s : String) :
    (NameUsagesMap.postIncrement map s).length = map.length := by
  induction map with
  | nil => rfl
  | cons p rest ih =>
    obtain ⟨k1, v⟩ := p
    unfold NameUsagesMap.postIncrement
    by_cases hs : s = k1
    · simp [hs]
    · simp [hs, ih]

/-- Incrementing a counter keeps the number of keys that are at least `n` long. -/
theorem postIncrement_countP (map : NameUsagesMap) (s : String) (n : Nat) :
    (NameUsagesMap.postIncrement map s).countP (fun p => decide (n ≤ p.1.length)) =
      map.countP (fun p => decide (n ≤ p.1.length)) := by
  induction map with
  | nil => rfl
  | cons p rest ih =>
    obtain ⟨k1, v⟩ := p
    unfold NameUsagesMap.postIncrement
    by_cases hs : s = k1
    · simp [hs, List.countP_cons]
    · simp [hs, List.countP_cons, ih]

theorem countP_longer_lt (map : NameUsagesMap) (name : String) (n : Nat)
    (hfind : (map.find name).isSome = true) (hlt : name.length < n) :
    map.countP (fun p => decide (n ≤ p.1.length)) <
      map.countP (fun p => decide (name.length ≤ p.1.length)) := by
  induction map with
  | nil => simp [NameUsagesMap.find, List.lookup] at hfind
  | cons p rest ih =>
    obtain ⟨k1, v⟩ := p
    have hmono : rest.countP (fun p => decide (n ≤ p.1.length)) ≤
        rest.countP (fun p => decide (name.length ≤ p.1.length)) := by
      apply List.countP_mono_left
      intro x _ hx
      simp only [decide_eq_true_eq] at hx ⊢
      omega
    unfold NameUsagesMap.find at hfind ih
    by_cases hk : name = k1
    · subst hk
      simp only [List.countP_cons, decide_eq_true_eq, le_refl, if_true]
      have : ¬ n ≤ name.length := by omega
      simp only [this, if_false]
      omega
    · have hne : (name == k1) = false := by simpa using hk
      simp only [List.lookup, hne] at hfind
      have h1 := ih hfind
      simp only [List.countP_cons]
      have : ∀ (a b : Bool), a = true → b = true → True := fun _ _ _ _ => trivial
      by_cases hn : n ≤ k1.length
      · have hn2 : name.length ≤ k1.length := by omega
        simp only [hn, hn2, decide_True, if_true]
        omega
      · simp only [hn, decide_False, Bool.false_eq_true, if_false]
        split_ifs <;> omega

theorem loop_defined (s : String) (fuel : Nat) :
    ∀ (map : NameUsagesMap) (name : String),
      (name = s ∨ (map.find s).isSome = true) →
      map.countP (fun p => decide (name.length ≤ p.1.length)) < fuel →
      ∃ out map1, GetNonCollidingName.loop s fuel map name = some (Outcome.success (out, map1)) ∧
        map1.find out = none ∧
        (∀ k, (map1.find k).isSome = (map.find k).isSome) := by
  induction fuel with
  | zero => intro map name _ h; omega
  | succ fuel ih =>
    intro map name hs hc
    unfold GetNonCollidingName.loop
    cases hname : map.find name with
    | none => exact ⟨name, map, rfl, hname, fun _ => rfl⟩
    | some v =>
      have hsome : (map.find name).isSome = true := by rw [hname]; rfl
      have hskey : (map.find s).isSome = true := by
        rcases hs with h | h
        · rw [← h]; exact hsome
        · exact h
      cases hfs : map.find s with
      | none => rw [hfs] at hskey; cases hskey
      | some times =>
        simp only []
        have hlen : name.length < (name ++ toString times).length := by
          rw [String.length_append]
          have := toString_length_pos times
          omega
        have hc2 := countP_longer_lt map name _ hsome hlen
        obtain ⟨out, map1, h1, h2, h3⟩ := ih (map.postIncrement s) (name ++ toString times)
          (Or.inr (by rw [find_postIncrement_isSome]; exact hskey))
          (by rw [postIncrement_countP]; omega)
        exact ⟨out, map1, h1, h2, fun k => by rw [h3 k, find_postIncrement_isSome]⟩

theorem find_insert_isSome (map : NameUsagesMap) (s k : String) (v : Nat) :
    ((map.insert s v).find k).isSome = ((map.find k).isSome || decide (k = s)) := by
  unfold NameUsagesMap.insert
  cases hs : map.find s with
  | some w =>
    simp only []
    by_cases hk : k = s
    · subst hk; rw [hs]; rfl
    · simp [hk]
  | none =>
    simp only []
    unfold NameUsagesMap.find at hs ⊢
    by_cases hk : k = s
    · subst hk
      simp [List.lookup_append, hs, List.lookup]
    · have hne : (k == s) = false := by simpa using hk
      cases hkm : List.lookup k map <;> simp [List.lookup_append, hkm, List.lookup, hne, hk]

/-- One call returns: the name it returns is no key of the map before the call,
and the keys after the call are those before it and `s`. -/
theorem GetNonCollidingName_defined (map : NameUsagesMap) (s : String) :
    ∃ out map1, GetNonCollidingName map s = some (Outcome.success (out, map1)) ∧
      map.find out = none ∧
      (∀ k, (map1.find k).isSome = ((map.find k).isSome || decide (k = s))) := by
  obtain ⟨out, map1, h1, h2, h3⟩ := loop_defined s (map.length + 1) map s (Or.inl rfl)
    (Nat.lt_succ_of_le (List.countP_le_length _))
  refine ⟨out, map1.insert s 1, ?_, ?_, ?_⟩
  · unfold GetNonCollidingName
    rw [h1]
  · have := h3 out
    rw [h2] at this
    cases hm : map.find out with
    | none => rfl
    | some w => rw [hm] at this; cases this
  · intro k
    rw [find_insert_isSome, h3 k]

/-- C29 (what the code does): every sequence of calls returns (the loop of each
call ends within one iteration more than the map has entries, and `find(s)` is
never dereferenced at `end()`), one name per call.  A returned name is no key
of the map the sequence started from and differs from the argument `s` of every
earlier call of the sequence; the keys after the sequence are the keys before
it and the arguments.  Returned names themselves are not recorded. -/
theorem GetNonCollidingNames_returns (inputs : List String) :
    ∀ map : NameUsagesMap,
      ∃ names map1, GetNonCollidingNames map inputs = some (Outcome.success (names, map1)) ∧
        names.length = inputs.length ∧
        (∀ name ∈ names, map.find name = none) ∧
        (∀ (i j : Nat) (name : String), j < i → names[i]? = some name →
          inputs[j]? ≠ some name) ∧
        (∀ k, (map1.find k).isSome = ((map.find k).isSome || decide (k ∈ inputs))) := by
  induction inputs with
  | nil =>
    intro map
    exact ⟨[], map, rfl, rfl, fun _ h => (by cases h), fun i j name _ h => (by simp at h),
      fun k => (by simp)⟩
  | cons s rest ih =>
    intro map
    obtain ⟨out, map1, h1, h2, h3⟩ := GetNonCollidingName_defined map s
    obtain ⟨names, map2, g1, g2, g3, g4, g5⟩ := ih map1
    have hnone : ∀ name, map1.find name = none → map.find name = none ∧ name ≠ s := by
      intro name hn
      have := h3 name
      rw [hn] at this
      cases hm : map.find name with
      | some w => rw [hm] at this; simp at this
      | none =>
        rw [hm] at this
        refine ⟨rfl, fun hns => ?_⟩
        simp [hns] at this
    refine ⟨out :: names, map2, ?_, ?_, ?_, ?_, ?_⟩
    · unfold GetNonCollidingNames
      rw [h1]
      simp only []
      rw [g1]
    · simp [g2]
    · intro name hmem
      rcases List.mem_cons.mp hmem with h | h
      · rw [h]; exact h2
      · exact (hnone name (g3 name h)).1
    · intro i j name hji hi
      cases i with
      | zero => omega
      | succ i =>
        simp only [List.getElem?_cons_succ] at hi
        cases j with
        | zero =>
          simp only [List.getElem?_cons_zero]
          intro heq
          have hmem : name ∈ names := by
            obtain ⟨hlt, hget⟩ := List.getElem?_eq_some.mp hi
            rw [← hget]
            exact List.getElem_mem hlt
          have := (hnone name (g3 name hmem)).2
          exact this (Option.some.inj heq).symm
        | succ j =>
          simp only [List.getElem?_cons_succ]
          exact g4 i j name (by omega) hi
    · intro k
      rw [g5 k, h3 k]
      by_cases hk : k = s
      · simp [hk]
      · simp [hk, Bool.or_assoc]

/-- Witness for C29: two images named `tex` exported into `out`, on a fresh
export root. -/
theorem GetNonCollidingNames_returns_witness :
    ∃ names map1, GetNonCollidingNames [] ["out/tex", "out/tex"] =
        some (Outcome.success (names, map1)) ∧
      names.length = ["out/tex", "out/tex"].length ∧
      (∀ name ∈ names, NameUsagesMap.find [] name = none) ∧
      (∀ (i j : Nat) (name : String), j < i → names[i]? = some name →
        ["out/tex", "out/tex"][j]? ≠ some name) ∧
      (∀ k, (map1.find k).isSome =
        ((NameUsagesMap.find [] k).isSome || decide (k ∈ ["out/tex", "out/tex"]))) :=
  GetNonCollidingNames_returns ["out/tex", "out/tex"] []

set_option maxRecDepth 100000 in
/-- C29 (the code at the failing input): three images named `tex`, `tex` and
`tex1` are exported into `out`.  The second call appends the counter 1 to
`out/tex` and returns `out/tex1`, which it does not record; the third call
finds no key `out/tex1` and returns `out/tex1` again. -/
theorem GetNonCollidingName_repeats_a_name :
    GetNonCollidingNames [] ["out/tex", "out/tex", "out/tex1"] =
      some (Outcome.success (["out/tex", "out/tex1", "out/tex1"],
        [("out/tex", 2), ("out/tex1", 1)])) ∧
    ¬ ["out/tex", "out/tex1", "out/tex1"].Nodup := by
  decide

/-- C30 (what the code does): `getAccessor` tests `getNumAccessors() < idx`.  It
returns the null pointer for every `idx` greater than the number of accessors,
the stored accessor for every smaller `idx`, and for `idx` equal to the number
of accessors it passes the test and indexes `myAccesors` one past its end.
`getBuffer`, `getBufferView` and `getMesh` test `idx >= getNum...()` and return
the null pointer for every `idx` that is no position of their array. -/
theorem getAccessor_bounds_check (s : GLTF_Loader) (idx : Nat) :
    (s.getNumAccessors < idx → s.getAccessor idx = Outcome.failure) ∧
    (idx = s.getNumAccessors → s.getAccessor idx = Outcome.undefined) ∧
    (idx < s.getNumAccessors →
      ∃ a, s.myAccesors[idx]? = some a ∧ s.getAccessor idx = Outcome.success a) ∧
    (s.getNumAccessors < GLTF_INVALID_IDX → s.getAccessor GLTF_INVALID_IDX = Outcome.failure) ∧
    (s.getNumBuffers ≤ idx → s.getBuffer idx = Outcome.failure) ∧
    (s.getNumBufferViews ≤ idx → s.getBufferView idx = Outcome.failure) ∧
    (s.getNumMeshes ≤ idx → s.getMesh idx = Outcome.failure) := by
  refine ⟨?_, ?_, ?_, ?_, ?_, ?_, ?_⟩
  · intro h
    unfold getAccessor
    rw [if_pos h]
  · intro h
    unfold getAccessor
    have hn : ¬ s.getNumAccessors < idx := by omega
    have hnone : s.myAccesors[idx]? = none := by
      apply List.getElem?_eq_none
      unfold getNumAccessors at h
      omega
    rw [if_neg hn, hnone]
  · intro h
    unfold getAccessor
    have hn : ¬ s.getNumAccessors < idx := by omega
    unfold getNumAccessors at h
    refine ⟨s.myAccesors[idx], List.getElem?_eq_getElem h, ?_⟩
    rw [if_neg hn, List.getElem?_eq_getElem h]
  · intro h
    unfold getAccessor
    rw [if_pos h]
  · intro h
    unfold getBuffer
    rw [if_pos h]
  · intro h
    unfold getBufferView
    rw [if_pos h]
  · intro h
    unfold getMesh
    rw [if_pos h]

/-- Witness for C30: the document `oneOfEachLoader` with the handles 1 and 2. -/
theorem getAccessor_bounds_check_witness :
    oneOfEachLoader.getAccessor 2 = Outcome.failure ∧
    oneOfEachLoader.getAccessor 1 = Outcome.undefined ∧
    oneOfEachLoader.getAccessor GLTF_INVALID_IDX = Outcome.failure ∧
    oneOfEachLoader.getBuffer 1 = Outcome.failure ∧
    oneOfEachLoader.getBufferView 1 = Outcome.failure ∧
    oneOfEachLoader.getMesh 1 = Outcome.failure :=
  ⟨(getAccessor_bounds_check oneOfEachLoader 2).1 (by decide),
    (getAccessor_bounds_check oneOfEachLoader 1).2.1 (by decide),
    (getAccessor_bounds_check oneOfEachLoader 1).2.2.2.1 (by decide),
    (getAccessor_bounds_check oneOfEachLoader 1).2.2.2.2.1 (by decide),
    (getAccessor_bounds_check oneOfEachLoader 1).2.2.2.2.2.1 (by decide),
    (getAccessor_bounds_check oneOfEachLoader 1).2.2.2.2.2.2 (by decide)⟩

/-- C30 (the code at the failing input): the handle 1 is no position of any
array of `oneOfEachLoader`.  `getBuffer`, `getBufferView` and `getMesh` return
the null pointer for it; `getAccessor` reads `myAccesors[1]`, outside the
array.  The same happens with the handle 0 on a document without accessors. -/
theorem getAccessor_reads_past_the_end :
    oneOfEachLoader.getNumAccessors = 1 ∧
    oneOfEachLoader.getAccessor 1 = Outcome.undefined ∧
    oneOfEachLoader.getAccessor 1 ≠ Outcome.failure ∧
    oneOfEachLoader.getBuffer 1 = Outcome.failure ∧
    oneOfEachLoader.getBufferView 1 = Outcome.failure ∧
    oneOfEachLoader.getMesh 1 = Outcome.failure ∧
    (GLTF_Loader.create "scene.gltf").getAccessor 0 = Outcome.undefined := by
  decide

end GLTF
